import Mathlib

/-!
# DemoBlob: frame synchronisation and resource lifecycle

A shallow embedding of `Source/Examples/GraphicsSamples/DemoBlob/SketchApp.cpp`.

* The member variables of `DemoBlob` form the record `DemoBlob`.
* Every call into the graphics API is appended to `DemoBlob.trace` and takes one tick of the
  logical clock `DemoBlob.now`; what the API answers is read from an environment `Env`, indexed
  by the tick at which the call is made, so the environment may answer every call differently.
* A member function is a state transformer `Sketch α` that either returns or raises an
  `HrException`; the state reached when the exception is raised is kept.
* `UINT64` arithmetic is arithmetic on `Nat` modulo `2 ^ 64`.
* Single-precision values are kept as the expression that computes them (`FloatExpr`);
  `FloatExpr.eval` gives the value of binary32 it denotes, computed in integer arithmetic with
  rounding to nearest, ties to even (`Binary32`).
-/

namespace DemoBlob

/-! ## Status codes and exceptions -/

/-- An `HRESULT`: a signed 32-bit status code. -/
abbrev HRESULT := Int

/-- The macro `FAILED(hr)`: the status code is negative. -/
def FAILED (hr : HRESULT) : Bool := decide (hr < 0)

/-- The macro `SUCCEEDED(hr)`. -/
def SUCCEEDED (hr : HRESULT) : Bool := decide (0 ≤ hr)

/-- The success code `S_OK`. -/
def S_OK : HRESULT := 0

/-- The code `DXGI_ERROR_DEVICE_REMOVED` (0x887A0005) as a signed 32-bit value. -/
def DXGI_ERROR_DEVICE_REMOVED : HRESULT := 0x887A0005 - 2 ^ 32

/-- One upper-case hexadecimal digit. -/
def hexDigit (d : Nat) : Char :=
  if d < 10 then Char.ofNat (48 + d) else Char.ofNat (55 + d)

/-- The conversion `%08X` of an `unsigned int`: eight upper-case hexadecimal digits. -/
def hex08X (u : Nat) : String :=
  String.mk ((List.range 8).map fun i => hexDigit (u / 16 ^ (7 - i) % 16))

/-- The function `HrToString`. -/
def HrToString (hr : HRESULT) (context : String) : String :=
  let str := "HRESULT of 0x" ++ hex08X (hr % 2 ^ 32).toNat
  let result := str
  if context.length > 0 then
    (result ++ ": ") ++ context
  else
    result

/-- The class `HrException`: the status code and the message of the `std::runtime_error`. -/
structure HrException where
  result_ : HRESULT
  what : String
deriving DecidableEq, Repr

/-- The constructor `HrException(hr, context)`. -/
def HrException.new (hr : HRESULT) (context : String) : HrException :=
  ⟨hr, HrToString hr context⟩

/-- The accessor `HrException::Error`. -/
def HrException.Error (e : HrException) : HRESULT := e.result_

/-! ## Values handled by the sketch -/

/-- A single-precision value, kept as the expression of the source that computes it. -/
inductive FloatExpr where
  /-- A literal `m · 10^(-decimals)`, as in `0.2f` = `lit 2 1`. -/
  | lit (mantissa : Int) (decimals : Nat)
  /-- The conversion `static_cast<float>(i)`. -/
  | ofInt (i : Int)
  /-- The single-precision quotient `a / b`. -/
  | div (a b : FloatExpr)
deriving DecidableEq, Repr

/-- A COM object is named by the tick of the call that created it. -/
abbrev Handle := Nat

/-- An `ID3D12Resource`. -/
inductive Resource where
  /-- Surface `index` of the swap chain, as handed out by `IDXGISwapChain::GetBuffer`. -/
  | backBuffer (index : Nat)
  /-- A resource made by `CreateCommittedResource` at tick `id`. -/
  | committed (id : Nat)
deriving DecidableEq, Repr

/-- The resource states used by the sketch. -/
inductive ResourceState where
  | PRESENT
  | RENDER_TARGET
  | COPY_DEST
  | GENERIC_READ
  | VERTEX_AND_CONSTANT_BUFFER
deriving DecidableEq, Repr

/-- The heap types used by the sketch. -/
inductive HeapType where
  | DEFAULT
  | UPLOAD
deriving DecidableEq, Repr

/-- The descriptor heap types used by the sketch. -/
inductive DescriptorHeapType where
  | RTV
  | CBV_SRV_UAV
deriving DecidableEq, Repr

/-- The primitive topologies used by the sketch. -/
inductive Topology where
  | TRIANGLESTRIP
deriving DecidableEq, Repr

/-- A CPU descriptor handle: an address inside a descriptor heap. -/
structure CpuHandle where
  ptr : Nat
deriving DecidableEq, Repr

/-- The constructor `CD3DX12_CPU_DESCRIPTOR_HANDLE(other, offsetInDescriptors, incrementSize)`
of `d3dx12.h`. -/
def CpuHandle.at (start : CpuHandle) (offsetInDescriptors descriptorIncrementSize : Nat) :
    CpuHandle :=
  ⟨start.ptr + offsetInDescriptors * descriptorIncrementSize⟩

/-- The method `CD3DX12_CPU_DESCRIPTOR_HANDLE::Offset` of `d3dx12.h`. -/
def CpuHandle.Offset (h : CpuHandle) (offsetInDescriptors descriptorIncrementSize : Nat) :
    CpuHandle :=
  ⟨h.ptr + offsetInDescriptors * descriptorIncrementSize⟩

/-- The struct `Vertex`: position (2 floats), color (4 floats), uv (2 floats). -/
structure Vertex where
  position : FloatExpr × FloatExpr
  color : FloatExpr × FloatExpr × FloatExpr × FloatExpr
  uv : FloatExpr × FloatExpr
deriving DecidableEq, Repr

/-- Size of `DirectX::XMFLOAT2` in bytes. -/
def sizeofXMFLOAT2 : Nat := 2 * 4

/-- Size of `DirectX::XMFLOAT4` in bytes. -/
def sizeofXMFLOAT4 : Nat := 4 * 4

/-- The value of `sizeof(Vertex)`. -/
def sizeofVertex : Nat := sizeofXMFLOAT2 + sizeofXMFLOAT4 + sizeofXMFLOAT2

/-- The struct `SceneConstantBuffer` (the padding carries no data). -/
structure SceneConstantBuffer where
  center : FloatExpr × FloatExpr
  aspect : FloatExpr
deriving DecidableEq, Repr

/-- The value of `sizeof(SceneConstantBuffer)`: center, aspect and 61 floats of padding. -/
def sizeofSceneConstantBuffer : Nat := sizeofXMFLOAT2 + 4 + 61 * 4

/-- The constant `kNumSwapChainBuffers`. -/
def kNumSwapChainBuffers : Nat := 2

/-- The flag `DXGI_PRESENT_ALLOW_TEARING`. -/
def DXGI_PRESENT_ALLOW_TEARING : Nat := 0x200

/-- The flag `DXGI_SWAP_CHAIN_FLAG_ALLOW_TEARING`. -/
def DXGI_SWAP_CHAIN_FLAG_ALLOW_TEARING : Nat := 2048

/-- The flag `DXGI_CREATE_FACTORY_DEBUG`. -/
def DXGI_CREATE_FACTORY_DEBUG : Nat := 1

/-- A command recorded into a command list. -/
inductive Cmd where
  /-- The call `ResourceBarrier(1, &Transition(resource, before, after))`. -/
  | Transition (resource : Option Resource) (before after : ResourceState)
  /-- The call `OMSetRenderTargets(1, &rtv, FALSE, nullptr)`. -/
  | OMSetRenderTargets (rtv : CpuHandle)
  /-- The call `SetGraphicsRootSignature`. -/
  | SetGraphicsRootSignature (rootSignature : Option Handle)
  /-- The call `SetDescriptorHeaps(1, heaps)`. -/
  | SetDescriptorHeaps (heap : Option Handle)
  /-- The call `SetGraphicsRootDescriptorTable(index, heap start)`. -/
  | SetGraphicsRootDescriptorTable (index : Nat) (heap : Option Handle)
  /-- The call `RSSetViewports(1, &viewport)`; the viewport starts at (0, 0). -/
  | RSSetViewports (width height : FloatExpr)
  /-- The call `RSSetScissorRects(1, &rect)`; the rectangle starts at (0, 0). -/
  | RSSetScissorRects (right bottom : Int)
  /-- The call `ClearRenderTargetView(rtv, color, 0, nullptr)`. -/
  | ClearRenderTargetView (rtv : CpuHandle) (color : List FloatExpr)
  /-- The call `IASetPrimitiveTopology`. -/
  | IASetPrimitiveTopology (topology : Topology)
  /-- The call `IASetVertexBuffers(0, 1, &view)`. -/
  | IASetVertexBuffers (location : Option Resource) (strideInBytes sizeInBytes : Nat)
  /-- The call `DrawInstanced`. -/
  | DrawInstanced (vertexCount instanceCount startVertex startInstance : Nat)
  /-- The call `CopyBufferRegion(dst, dstOffset, src, srcOffset, numBytes)`. -/
  | CopyBufferRegion (dst : Option Resource) (dstOffset : Nat) (src : Option Resource)
      (srcOffset numBytes : Nat)
deriving DecidableEq, Repr

/-- A command list handed to `ExecuteCommandLists`: the pointer and the commands the list
holds at that moment. -/
structure CommandList where
  list : Option Handle
  cmds : List Cmd
deriving DecidableEq, Repr

/-- A call made by the sketch, in the order of the source. -/
inductive Call where
  | D3D12GetDebugInterface
  | EnableDebugLayer
  | CreateDXGIFactory2 (flags : Nat)
  | EnumAdapterByGpuPreference
  | D3D12CreateDevice
  | CheckFeatureSupportMultisample
  | CreateCommandQueue
  | CheckFeatureSupportTearing
  | CreateSwapChainForHwnd (width height bufferCount flags : Nat)
  | QueryInterface
  | MakeWindowAssociation
  | CreateFence (initialValue : Nat)
  | CreateEventW
  | CreateDescriptorHeap (type : DescriptorHeapType) (numDescriptors : Nat)
  | GetDescriptorHandleIncrementSize (type : DescriptorHeapType)
  | D3D12SerializeVersionedRootSignature
  | CreateRootSignature
  | CreateGraphicsPipelineState
  | CreateCommittedResource (heap : HeapType) (width : Nat) (state : ResourceState)
  | CreateCommittedTexture (heap : HeapType) (width height : Nat) (state : ResourceState)
  | CreateConstantBufferView (location : Option Resource) (sizeInBytes : Nat) (dest : CpuHandle)
  | Map (resource : Option Resource)
  | Unmap (resource : Option Resource)
  /-- The call `memcpy(cbvDataBegin_, &constantBufferData_, size)`. -/
  | memcpyConstants (data : SceneConstantBuffer) (size : Nat)
  /-- The call `memcpy(vertexDataBegin, quadVertices, size)` into the mapped resource. -/
  | memcpyVertices (dest : Option Resource) (data : List Vertex) (size : Nat)
  | CreateCommandAllocator
  | CreateCommandList (allocator initialState : Option Handle)
  /-- A recording call on the command list `list`. -/
  | Record (list : Option Handle) (cmd : Cmd)
  | CloseCommandList (list : Option Handle)
  | ResetCommandAllocator (allocator : Option Handle)
  | ResetCommandList (list allocator initialState : Option Handle)
  | ExecuteCommandLists (lists : List CommandList)
  | GetCurrentBackBufferIndex
  | Present (syncInterval flags : Nat)
  | Signal (value : Nat)
  | GetCompletedValue
  | SetEventOnCompletion (value : Nat)
  | WaitForSingleObject
  | CloseHandle
  /-- The call `swapChainBuffers_[index].Reset()`. -/
  | ResetSwapChainBuffer (index : Nat) (held : Option Resource)
  | GetDesc
  | ResizeBuffers (bufferCount width height : Nat)
  | GetBuffer (index : Nat)
  | CreateRenderTargetView (resource : Option Resource) (dest : CpuHandle)
  | CreateShaderResourceView (resource : Option Resource) (dest : CpuHandle)
  /-- The destructor of the local `ComPtr` called `name`, on return from the function. -/
  | ReleaseLocal (name : String)
deriving DecidableEq, Repr

/-! ## The environment -/

/-- What the graphics API, the device and the framework answer. Every answer is indexed by the
tick at which the call is made. -/
structure Env where
  /-- The `HRESULT` returned by the call made at tick `t`. -/
  hr : Nat → HRESULT
  /-- The completed value of the fence at tick `t`. -/
  completed : Nat → Nat
  /-- How many ticks a `WaitForSingleObject` started at tick `t` on an event armed for the fence
  value `v` lasts beyond the call itself. -/
  waitTicks : Nat → Nat → Nat
  /-- The answer of `GetCurrentBackBufferIndex` at tick `t`. -/
  backBufferIndex : Nat → Nat
  /-- The answer of `GetDescriptorHandleIncrementSize` at tick `t`. -/
  incrementSize : Nat → Nat
  /-- The answer of `GetCPUDescriptorHandleForHeapStart` for the heap created at tick `t`. -/
  heapStart : Nat → Nat
  /-- The value written to `allowTearing` by `CheckFeatureSupport` at tick `t`. -/
  allowTearing : Nat → Bool
  /-- Whether the build defines `NDEBUG`. -/
  ndebug : Bool

/-! ## The sketch -/

/-- The struct `SketchBase::Config`. -/
structure Config where
  X : Int := 480
  Y : Int := 270
  Width : Int := 960
  Height : Int := 540
  Vsync : Bool := true
  WindowModeSwitch : Bool := false
  Fullscreen : Bool := false
deriving DecidableEq, Repr

/-- The struct `SketchBase::Feature`. -/
structure Feature where
  Tearing : Bool := false
deriving DecidableEq, Repr

/-- The struct `SketchBase::State`. -/
structure ViewState where
  ViewportWidth : Int
  ViewportHeight : Int
deriving DecidableEq, Repr

end DemoBlob

/-- The class `DemoBlob` with the members of `SketchBase` it reads, the logical clock and the
calls made so far. -/
structure DemoBlob where
  config_ : DemoBlob.Config
  feature_ : DemoBlob.Feature
  state_ : DemoBlob.ViewState
  device_ : Option DemoBlob.Handle
  commandQueue_ : Option DemoBlob.Handle
  swapChain_ : Option DemoBlob.Handle
  rtvHeap_ : Option DemoBlob.Handle
  cbvSrvHeap_ : Option DemoBlob.Handle
  rtvDescriptorSize_ : Nat
  cbvSrvDescriptorSize_ : Nat
  /-- The array `swapChainBuffers_[kNumSwapChainBuffers]`, by index. -/
  swapChainBuffers_ : Nat → Option DemoBlob.Resource
  commandAllocator_ : Option DemoBlob.Handle
  commandList_ : Option DemoBlob.Handle
  /-- The commands held by the command list behind `commandList_`. -/
  commandListCmds : List DemoBlob.Cmd
  fence_ : Option DemoBlob.Handle
  fenceValue_ : Nat
  fenceEventHandle_ : Option DemoBlob.Handle
  rootSignature_ : Option DemoBlob.Handle
  pipelineState_ : Option DemoBlob.Handle
  vertexBuffer_ : Option DemoBlob.Resource
  /-- The member `vertexBufferView_`: location, stride and size. -/
  vertexBufferView_ : Option DemoBlob.Resource × Nat × Nat
  constantBufferData_ : DemoBlob.SceneConstantBuffer
  constantBuffer_ : Option DemoBlob.Resource
  /-- What the memory behind `cbvDataBegin_` holds, once mapped and written. -/
  cbvData : Option DemoBlob.SceneConstantBuffer
  fieldWidth_ : Nat := 480
  fieldHeight_ : Nat := 270
  vectorFieldBuffers : Nat → Option DemoBlob.Resource
  vectorFieldRootSignature_ : Option DemoBlob.Handle
  vectorFieldPipelineState_ : Option DemoBlob.Handle
  /-- The fence value the event `fenceEventHandle_` was last armed for. -/
  eventArmedFor : Nat
  /-- The logical clock. -/
  now : Nat
  /-- The calls made so far, oldest first. -/
  trace : List DemoBlob.Call

namespace DemoBlob

/-- A member function returning `α`: it returns or raises, and leaves a state either way. -/
def Sketch (α : Type) : Type := DemoBlob → Except HrException α × DemoBlob

/-- Returning normally. -/
def Sketch.pure {α : Type} (a : α) : Sketch α := fun s => (.ok a, s)

/-- Sequencing: a raised exception skips what follows. -/
def Sketch.bind {α β : Type} (m : Sketch α) (f : α → Sketch β) : Sketch β := fun s =>
  match m s with
  | (.ok a, s') => f a s'
  | (.error e, s') => (.error e, s')

instance : Monad Sketch where
  pure := Sketch.pure
  bind := Sketch.bind

/-- The statement `throw e`. -/
def throw {α : Type} (e : HrException) : Sketch α := fun s => (.error e, s)

/-- Reading the members. -/
def get : Sketch DemoBlob := fun s => (.ok s, s)

/-- Updating the members. -/
def modify (f : DemoBlob → DemoBlob) : Sketch Unit := fun s => (.ok (), f s)

/-- A call into the API: it is logged and takes one tick; the result is the tick at which it
was made. -/
def call (c : Call) : Sketch Nat := fun s =>
  (.ok s.now, { s with now := s.now + 1, trace := s.trace ++ [c] })

/-- A call into the API that returns an `HRESULT`. -/
def callHr (env : Env) (c : Call) : Sketch HRESULT := do
  let t ← call c
  pure (env.hr t)

/-- The function `ThrowIfFailed`. -/
def ThrowIfFailed (hr : HRESULT) (context : String := "") : Sketch Unit :=
  if FAILED hr then
    throw (HrException.new hr context)
  else
    pure ()

/-- The increment of a `UINT64`. -/
def incrUINT64 (v : Nat) : Nat := (v + 1) % 2 ^ 64

/-- The conversion `static_cast<UINT>(i)` of an `int`. -/
def toUINT (i : Int) : Nat := (i % 2 ^ 32).toNat

/-- A call that creates a COM object: its status code and what the out-pointer receives. -/
def callCreate (env : Env) (c : Call) : Sketch (HRESULT × Option Handle) := do
  let t ← call c
  pure (env.hr t, if SUCCEEDED (env.hr t) then some t else none)

/-- A call that creates a resource: its status code and what the out-pointer receives. -/
def callCreateResource (env : Env) (c : Call) : Sketch (HRESULT × Option Resource) := do
  let t ← call c
  pure (env.hr t, if SUCCEEDED (env.hr t) then some (.committed t) else none)

/-- The call `heap->GetCPUDescriptorHandleForHeapStart()`. -/
def heapStart (env : Env) (heap : Option Handle) : CpuHandle := ⟨env.heapStart (heap.getD 0)⟩

/-- The loop `for (index = first; index < first + count; index++)` threading the locals `acc`. -/
def forLoop {σ : Type} (body : Nat → σ → Sketch σ) : (count index : Nat) → σ → Sketch σ
  | 0, _, acc => pure acc
  | count + 1, index, acc => do
    let acc ← body index acc
    forLoop body count (index + 1) acc

/-- A recording call on a command list held in a local variable: what the list holds after. -/
def record (list : Option Handle) (cmds : List Cmd) (cmd : Cmd) : Sketch (List Cmd) := do
  let _ ← call (.Record list cmd)
  pure (cmds ++ [cmd])

/-- A recording call on the member `commandList_`. -/
def recordMember (cmd : Cmd) : Sketch Unit := do
  let _ ← call (.Record (← get).commandList_ cmd)
  modify fun s => { s with commandListCmds := s.commandListCmds ++ [cmd] }

/-- The member function `FlushCommandQueue`. -/
def FlushCommandQueue (env : Env) : Sketch Unit := do
  let fenceValueToWaitFor := (← get).fenceValue_
  ThrowIfFailed (← callHr env (.Signal fenceValueToWaitFor)) "Signal"
  modify fun s => { s with fenceValue_ := incrUINT64 s.fenceValue_ }
  let t ← call .GetCompletedValue
  if env.completed t < fenceValueToWaitFor then
    ThrowIfFailed (← callHr env (.SetEventOnCompletion fenceValueToWaitFor)) "SetEventOnCompletion"
    modify fun s => { s with eventArmedFor := fenceValueToWaitFor }
    let t ← call .WaitForSingleObject
    modify fun s => { s with now := s.now + env.waitTicks t s.eventArmedFor }

/-- The member function `CreateInfrastructure`. -/
def CreateInfrastructure (env : Env) : Sketch Unit := do
  let dxgiFactoryFlag ←
    if env.ndebug then
      pure 0
    else do
      if SUCCEEDED (← callHr env .D3D12GetDebugInterface) then
        let _ ← call .EnableDebugLayer
        let _ ← call (.ReleaseLocal "debugController")
        pure (0 ||| DXGI_CREATE_FACTORY_DEBUG)
      else
        pure 0
  ThrowIfFailed (← callHr env (.CreateDXGIFactory2 dxgiFactoryFlag)) "CreateDXGIFactory2"
  ThrowIfFailed (← callHr env .EnumAdapterByGpuPreference) "EnumAdapterByGpuPreference"
  let (hr, device) ← callCreate env .D3D12CreateDevice
  modify fun s => { s with device_ := device }
  ThrowIfFailed hr "D3D12CreateDevice"
  ThrowIfFailed (← callHr env .CheckFeatureSupportMultisample) "CheckFeatureSupport"
  let (hr, queue) ← callCreate env .CreateCommandQueue
  modify fun s => { s with commandQueue_ := queue }
  ThrowIfFailed hr "CreateCommandQueue"
  let t ← call .CheckFeatureSupportTearing
  let allowTearing := env.allowTearing t
  ThrowIfFailed (env.hr t) "CheckFeatureSupport"
  let flags := if allowTearing then DXGI_SWAP_CHAIN_FLAG_ALLOW_TEARING else 0
  modify fun s => { s with feature_ := { s.feature_ with Tearing := allowTearing } }
  let config := (← get).config_
  ThrowIfFailed
    (← callHr env (.CreateSwapChainForHwnd (toUINT config.Width) (toUINT config.Height)
      kNumSwapChainBuffers flags))
    "CreateSwapChainForHwnd"
  let (hr, swapChain) ← callCreate env .QueryInterface
  modify fun s => { s with swapChain_ := swapChain }
  ThrowIfFailed hr "QueryInterface"
  ThrowIfFailed (← callHr env .MakeWindowAssociation)
  let _ ← call (.ReleaseLocal "swapChain")
  let _ ← call (.ReleaseLocal "adapter")
  let _ ← call (.ReleaseLocal "dxgiFactory6")

/-- The member function `CreateRenderTargetDescriptorHeap`. -/
def CreateRenderTargetDescriptorHeap (env : Env) : Sketch Unit := do
  let (hr, heap) ← callCreate env (.CreateDescriptorHeap .RTV (kNumSwapChainBuffers + 2))
  modify fun s => { s with rtvHeap_ := heap }
  ThrowIfFailed hr "CreateDescriptorHeap"
  let t ← call (.GetDescriptorHandleIncrementSize .RTV)
  modify fun s => { s with rtvDescriptorSize_ := env.incrementSize t }

/-- The member function `CreateConstantBufferDescriptorHeap`. -/
def CreateConstantBufferDescriptorHeap (env : Env) : Sketch Unit := do
  let (hr, heap) ← callCreate env (.CreateDescriptorHeap .CBV_SRV_UAV (1 + 2))
  modify fun s => { s with cbvSrvHeap_ := heap }
  ThrowIfFailed hr
  let t ← call (.GetDescriptorHandleIncrementSize .CBV_SRV_UAV)
  modify fun s => { s with cbvSrvDescriptorSize_ := env.incrementSize t }

/-- The member function `CreateRootSignature`. -/
def CreateRootSignature (env : Env) : Sketch Unit := do
  ThrowIfFailed (← callHr env .D3D12SerializeVersionedRootSignature)
    "D3D12SerializeVersionedRootSignature"
  let (hr, rootSignature) ← callCreate env .CreateRootSignature
  modify fun s => { s with rootSignature_ := rootSignature }
  ThrowIfFailed hr "CreateRootSignature"
  let _ ← call (.ReleaseLocal "signature")

/-- The member function `CreatePipelineState`. -/
def CreatePipelineState (env : Env) : Sketch Unit := do
  let (hr, pipelineState) ← callCreate env .CreateGraphicsPipelineState
  modify fun s => { s with pipelineState_ := pipelineState }
  ThrowIfFailed hr "CreateGraphicsPipelineState"

/-- The member function `CreateConstantBuffer`. -/
def CreateConstantBuffer (env : Env) : Sketch Unit := do
  let constantBufferSize := sizeofSceneConstantBuffer
  let (hr, constantBuffer) ←
    callCreateResource env (.CreateCommittedResource .UPLOAD constantBufferSize .GENERIC_READ)
  modify fun s => { s with constantBuffer_ := constantBuffer }
  ThrowIfFailed hr
  let s ← get
  let cbvHandle := heapStart env s.cbvSrvHeap_
  let _ ← call (.CreateConstantBufferView s.constantBuffer_ constantBufferSize cbvHandle)
  ThrowIfFailed (← callHr env (.Map s.constantBuffer_))
  modify fun s =>
    { s with constantBufferData_ := { s.constantBufferData_ with center := (.lit 5 1, .lit 5 1) } }
  modify fun s =>
    { s with constantBufferData_ := { s.constantBufferData_ with aspect := .lit 10 1 } }
  let data := (← get).constantBufferData_
  let _ ← call (.memcpyConstants data constantBufferSize)
  modify fun s => { s with cbvData := some data }

/-- The member function `CreateFence`. -/
def CreateFence (env : Env) : Sketch Unit := do
  let initialFenceValue := 0
  let (hr, fence) ← callCreate env (.CreateFence initialFenceValue)
  modify fun s => { s with fence_ := fence }
  ThrowIfFailed hr "CreateFence"
  modify fun s => { s with fenceValue_ := (initialFenceValue + 1) % 2 ^ 64 }
  let t ← call .CreateEventW
  modify fun s => { s with fenceEventHandle_ := some t }

/-- The array `quadVertices` of `CreateVertexBuffer`. -/
def quadVertices : List Vertex :=
  [ ⟨(.lit (-10) 1, .lit 10 1), (.lit 0 1, .lit 0 1, .lit 0 1, .lit 10 1), (.lit 0 1, .lit 0 1)⟩,
    ⟨(.lit 10 1, .lit 10 1), (.lit 10 1, .lit 0 1, .lit 0 1, .lit 10 1), (.lit 10 1, .lit 0 1)⟩,
    ⟨(.lit (-10) 1, .lit (-10) 1), (.lit 0 1, .lit 10 1, .lit 0 1, .lit 10 1),
      (.lit 0 1, .lit 10 1)⟩,
    ⟨(.lit 10 1, .lit (-10) 1), (.lit 10 1, .lit 10 1, .lit 0 1, .lit 10 1),
      (.lit 10 1, .lit 10 1)⟩ ]

/-- The member function `CreateVertexBuffer`. -/
def CreateVertexBuffer (env : Env) : Sketch Unit := do
  let vertexBufferSize := quadVertices.length * sizeofVertex
  let (hr, vertexBuffer) ←
    callCreateResource env (.CreateCommittedResource .DEFAULT vertexBufferSize .COPY_DEST)
  modify fun s => { s with vertexBuffer_ := vertexBuffer }
  ThrowIfFailed hr "CreateCommittedResource"
  let (hr, vertexBufferUpload) ←
    callCreateResource env (.CreateCommittedResource .UPLOAD vertexBufferSize .GENERIC_READ)
  ThrowIfFailed hr "CreateCommittedResource"
  ThrowIfFailed (← callHr env (.Map vertexBufferUpload)) "Map"
  let _ ← call (.memcpyVertices vertexBufferUpload quadVertices (quadVertices.length * sizeofVertex))
  let _ ← call (.Unmap vertexBufferUpload)
  let (hr, copyCommandAllocator) ← callCreate env .CreateCommandAllocator
  ThrowIfFailed hr "CreateCommandAllocator"
  let (hr, copyCommandList) ← callCreate env (.CreateCommandList copyCommandAllocator none)
  ThrowIfFailed hr "CreateCommandList"
  let vertexBuffer_ := (← get).vertexBuffer_
  let recorded ← record copyCommandList []
    (.CopyBufferRegion vertexBuffer_ 0 vertexBufferUpload 0 vertexBufferSize)
  let recorded ← record copyCommandList recorded
    (.Transition vertexBuffer_ .COPY_DEST .VERTEX_AND_CONSTANT_BUFFER)
  modify fun s => { s with vertexBufferView_ := (s.vertexBuffer_, sizeofVertex, vertexBufferSize) }
  ThrowIfFailed (← callHr env (.CloseCommandList copyCommandList)) "Close command list"
  let _ ← call (.ExecuteCommandLists [⟨copyCommandList, recorded⟩])
  FlushCommandQueue env
  let _ ← call (.ReleaseLocal "copyCommandList")
  let _ ← call (.ReleaseLocal "copyCommandAllocator")
  let _ ← call (.ReleaseLocal "vertexBufferUpload")

/-- The member function `CreateCommandList`. -/
def CreateCommandList (env : Env) : Sketch Unit := do
  let (hr, commandAllocator) ← callCreate env .CreateCommandAllocator
  modify fun s => { s with commandAllocator_ := commandAllocator }
  ThrowIfFailed hr "CreateCommandAllocator"
  let (hr, commandList) ←
    callCreate env (.CreateCommandList commandAllocator (← get).pipelineState_)
  modify fun s => { s with commandList_ := commandList, commandListCmds := [] }
  ThrowIfFailed hr "CreateCommandList"
  ThrowIfFailed (← callHr env (.CloseCommandList (← get).commandList_))
    "Close command list when initializing"

/-- The member function `RenderToBackBuffer`. -/
def RenderToBackBuffer (env : Env) : Sketch Unit := do
  ThrowIfFailed (← callHr env (.ResetCommandAllocator (← get).commandAllocator_))
    "Reset command allocator"
  let s ← get
  let hr ← callHr env (.ResetCommandList s.commandList_ s.commandAllocator_ s.pipelineState_)
  modify fun s => { s with commandListCmds := if SUCCEEDED hr then [] else s.commandListCmds }
  ThrowIfFailed hr "Reset command list"
  let backBufferIndex := env.backBufferIndex (← call .GetCurrentBackBufferIndex)
  let s ← get
  recordMember (.Transition (s.swapChainBuffers_ backBufferIndex) .PRESENT .RENDER_TARGET)
  let rtvHandle := (heapStart env s.rtvHeap_).at backBufferIndex s.rtvDescriptorSize_
  recordMember (.OMSetRenderTargets rtvHandle)
  recordMember (.SetGraphicsRootSignature s.rootSignature_)
  recordMember (.SetDescriptorHeaps s.cbvSrvHeap_)
  recordMember (.SetGraphicsRootDescriptorTable 0 s.cbvSrvHeap_)
  recordMember (.RSSetViewports (.ofInt s.state_.ViewportWidth) (.ofInt s.state_.ViewportHeight))
  recordMember (.RSSetScissorRects s.state_.ViewportWidth s.state_.ViewportHeight)
  let clearColor : List FloatExpr := [.lit 0 1, .lit 2 1, .lit 4 1, .lit 10 1]
  recordMember (.ClearRenderTargetView rtvHandle clearColor)
  recordMember (.IASetPrimitiveTopology .TRIANGLESTRIP)
  recordMember (.IASetVertexBuffers s.vertexBufferView_.1 s.vertexBufferView_.2.1
    s.vertexBufferView_.2.2)
  recordMember (.DrawInstanced 4 1 0 0)
  recordMember (.Transition (s.swapChainBuffers_ backBufferIndex) .RENDER_TARGET .PRESENT)
  ThrowIfFailed (← callHr env (.CloseCommandList s.commandList_)) "Clost command list"
  let s ← get
  let _ ← call (.ExecuteCommandLists [⟨s.commandList_, s.commandListCmds⟩])

/-- The member function `PresentAndSwapBuffers`. -/
def PresentAndSwapBuffers (env : Env) : Sketch Unit := do
  let s ← get
  if s.config_.Vsync then
    ThrowIfFailed (← callHr env (.Present 1 0)) "Present"
  else
    ThrowIfFailed
      (← callHr env (.Present 0 (if s.feature_.Tearing then DXGI_PRESENT_ALLOW_TEARING else 0)))
      "Present"

/-- The member function `CreateSwapChainRTV`. -/
def CreateSwapChainRTV (env : Env) : Sketch Unit := do
  let s ← get
  let rtvHandle := heapStart env s.rtvHeap_
  let _ ← forLoop (fun index rtvHandle => do
      modify fun s => { s with swapChainBuffers_ := Function.update s.swapChainBuffers_ index none }
      let hr ← callHr env (.GetBuffer index)
      let buffer := if SUCCEEDED hr then some (Resource.backBuffer index) else none
      modify fun s =>
        { s with swapChainBuffers_ := Function.update s.swapChainBuffers_ index buffer }
      ThrowIfFailed hr "GetBuffer"
      let _ ← call (.CreateRenderTargetView ((← get).swapChainBuffers_ index) rtvHandle)
      pure (rtvHandle.Offset 1 s.rtvDescriptorSize_))
    kNumSwapChainBuffers 0 rtvHandle

/-- The member function `CreateVectorFieldBuffers`. -/
def CreateVectorFieldBuffers (env : Env) : Sketch Unit := do
  let s ← get
  let rtvHandle := (heapStart env s.rtvHeap_).at kNumSwapChainBuffers s.rtvDescriptorSize_
  let srvHandle := (heapStart env s.cbvSrvHeap_).at 1 s.cbvSrvDescriptorSize_
  let _ ← forLoop (fun i (handles : CpuHandle × CpuHandle) => do
      let (rtvHandle, srvHandle) := handles
      let t ← call (.CreateCommittedTexture .DEFAULT s.fieldWidth_ s.fieldHeight_ .RENDER_TARGET)
      let buffer := if SUCCEEDED (env.hr t) then some (Resource.committed t) else none
      modify fun s => { s with vectorFieldBuffers := Function.update s.vectorFieldBuffers i buffer }
      ThrowIfFailed (env.hr t) "Create vector field buffer"
      let _ ← call (.CreateRenderTargetView ((← get).vectorFieldBuffers i) rtvHandle)
      let rtvHandle := rtvHandle.Offset 1 s.rtvDescriptorSize_
      let _ ← call (.CreateShaderResourceView ((← get).vectorFieldBuffers i) srvHandle)
      let srvHandle := srvHandle.Offset 1 s.cbvSrvDescriptorSize_
      pure (rtvHandle, srvHandle))
    2 0 (rtvHandle, srvHandle)

/-- The member function `CreateVectorFieldRootSignature`. -/
def CreateVectorFieldRootSignature (env : Env) : Sketch Unit := do
  ThrowIfFailed (← callHr env .D3D12SerializeVersionedRootSignature)
    "D3D12SerializeVersionedRootSignature for vector field"
  let (hr, rootSignature) ← callCreate env .CreateRootSignature
  modify fun s => { s with vectorFieldRootSignature_ := rootSignature }
  ThrowIfFailed hr "CreateRootSignature for vector field"
  let _ ← call (.ReleaseLocal "signature")

/-- The member function `CreateVectorFieldPipelineState`: it only fills local descriptors. -/
def CreateVectorFieldPipelineState (_env : Env) : Sketch Unit :=
  pure ()

/-- The member function `OnInit`. -/
def OnInit (env : Env) : Sketch Unit := do
  CreateInfrastructure env
  CreateFence env
  CreateRenderTargetDescriptorHeap env
  CreateConstantBufferDescriptorHeap env
  CreateRootSignature env
  CreatePipelineState env
  CreateConstantBuffer env
  CreateVertexBuffer env
  CreateCommandList env
  CreateVectorFieldBuffers env
  CreateVectorFieldRootSignature env
  CreateVectorFieldPipelineState env

/-- The member function `OnUpdate`. -/
def OnUpdate (env : Env) : Sketch Unit := do
  RenderToBackBuffer env
  PresentAndSwapBuffers env
  FlushCommandQueue env

/-- The member function `OnQuit`. -/
def OnQuit (env : Env) : Sketch Unit := do
  FlushCommandQueue env
  let _ ← call (.Unmap (← get).constantBuffer_)
  let _ ← call .CloseHandle

/-- The release loop of `OnResize`. -/
def releaseSwapChainBuffers : Sketch Unit := do
  let _ ← forLoop (fun index (_ : Unit) => do
      let _ ← call (.ResetSwapChainBuffer index ((← get).swapChainBuffers_ index))
      modify fun s =>
        { s with swapChainBuffers_ := Function.update s.swapChainBuffers_ index none })
    kNumSwapChainBuffers 0 ()

/-- The member function `OnResize`. -/
def OnResize (env : Env) (width height : Int) : Sketch Unit := do
  FlushCommandQueue env
  releaseSwapChainBuffers
  let _ ← call .GetDesc
  let _ ← call (.ResizeBuffers kNumSwapChainBuffers (toUINT width) (toUINT height))
  CreateSwapChainRTV env
  modify fun s =>
    { s with constantBufferData_ :=
        { s.constantBufferData_ with aspect := FloatExpr.div (.ofInt width) (.ofInt height) } }
  let data := (← get).constantBufferData_
  let _ ← call (.memcpyConstants data sizeofSceneConstantBuffer)
  modify fun s => { s with cbvData := some data }

/-- The member function `OnMouseDrag`; the button is not used. -/
def OnMouseDrag (x y : Int) (_buttonType : Nat) : Sketch Unit := do
  let s ← get
  let xNormalized := FloatExpr.div (.ofInt x) (.ofInt s.state_.ViewportWidth)
  let yNormalized := FloatExpr.div (.ofInt y) (.ofInt s.state_.ViewportHeight)
  modify fun s =>
    { s with constantBufferData_ :=
        { s.constantBufferData_ with center := (xNormalized, yNormalized) } }
  let data := (← get).constantBufferData_
  let _ ← call (.memcpyConstants data sizeofSceneConstantBuffer)
  modify fun s => { s with cbvData := some data }

/-! ## The frame driver -/

/-- What the frame driver asks of the sketch after `OnInit`. -/
inductive Event where
  | Update
  | Resize (width height : Int)
  | MouseDrag (x y : Int) (buttonType : Nat)
  | Upload
  | Quit
deriving DecidableEq, Repr

/-- The member function an event stands for (`Upload` is `CreateVertexBuffer`). -/
def Event.run (env : Env) : Event → Sketch Unit
  | .Update => OnUpdate env
  | .Resize width height => OnResize env width height
  | .MouseDrag x y buttonType => OnMouseDrag x y buttonType
  | .Upload => CreateVertexBuffer env
  | .Quit => OnQuit env

/-- The events of a list in order; an exception ends the run. -/
def runEvents (env : Env) : List Event → Sketch Unit
  | [] => pure ()
  | e :: es => do
    e.run env
    runEvents env es

/-- The event is `Update` or `Resize`. -/
def Event.isFrame : Event → Bool
  | .Update => true
  | .Resize _ _ => true
  | _ => false

/-! ## The phases of `OnResize` -/

/-- The member function `OnResize` up to the end of its release loop. -/
def resizeReleased (env : Env) : Sketch Unit := do
  FlushCommandQueue env
  releaseSwapChainBuffers

/-- The member function `OnResize` up to the end of `CreateSwapChainRTV`. -/
def resizeAcquired (env : Env) (width height : Int) : Sketch Unit := do
  resizeReleased env
  let _ ← call .GetDesc
  let _ ← call (.ResizeBuffers kNumSwapChainBuffers (toUINT width) (toUINT height))
  CreateSwapChainRTV env

/-- The end of `OnResize`: the aspect constant is set and the constants are copied. -/
def resizeConstants (width height : Int) : Sketch Unit := do
  modify fun s =>
    { s with constantBufferData_ :=
        { s.constantBufferData_ with aspect := FloatExpr.div (.ofInt width) (.ofInt height) } }
  let data := (← get).constantBufferData_
  let _ ← call (.memcpyConstants data sizeofSceneConstantBuffer)
  modify fun s => { s with cbvData := some data }

/-! ## Observations on states and traces -/

/-- The calls a member function makes from the state `s`. -/
def emitted {α : Type} (m : Sketch α) (s : DemoBlob) : List Call :=
  (m s).2.trace.drop s.trace.length

/-- The values carried by the `Signal` calls of a trace, in order. -/
def signalled : List Call → List Nat
  | [] => []
  | .Signal v :: cs => v :: signalled cs
  | _ :: cs => signalled cs

/-- The call is a submission, a present or a signal: the three steps of a frame. -/
def Call.isFrameStep : Call → Bool
  | .ExecuteCommandLists _ => true
  | .Present _ _ => true
  | .Signal _ => true
  | _ => false

/-- The command is a resource transition. -/
def Cmd.isTransition : Cmd → Bool
  | .Transition _ _ _ => true
  | _ => false

/-- The command is a clear. -/
def Cmd.isClear : Cmd → Bool
  | .ClearRenderTargetView _ _ => true
  | _ => false

/-- The command is a draw. -/
def Cmd.isDraw : Cmd → Bool
  | .DrawInstanced _ _ _ _ => true
  | _ => false

/-- The member function the event stands for flushes the command queue. -/
def Event.flushes : Event → Bool
  | .MouseDrag _ _ _ => false
  | _ => true

/-- How many entries of `swapChainBuffers_` hold a surface. -/
def heldCount (s : DemoBlob) : Nat :=
  ((List.range kNumSwapChainBuffers).filter fun i => (s.swapChainBuffers_ i).isSome).length

/-- The buffer manager is ready: every entry of `swapChainBuffers_` holds a surface. -/
def Ready (s : DemoBlob) : Prop := heldCount s = kNumSwapChainBuffers

instance (s : DemoBlob) : Decidable (Ready s) := by unfold Ready; infer_instance

/-- No call answers a failure code. -/
def NoFailure (env : Env) : Prop := ∀ t, 0 ≤ env.hr t

/-- The value `UINT64_MAX`, which `GetCompletedValue` returns once the device is removed. -/
def UINT64_MAX : Nat := 2 ^ 64 - 1

/-! ## Concrete inputs -/

/-- The configuration set by `CREATE_SKETCH`. -/
def demoConfig : Config := { Width := 800, Height := 450, WindowModeSwitch := true }

/-- A `DemoBlob` whose members are all zero or null. -/
def zeroed : DemoBlob where
  config_ := {}
  feature_ := {}
  state_ := ⟨0, 0⟩
  device_ := none
  commandQueue_ := none
  swapChain_ := none
  rtvHeap_ := none
  cbvSrvHeap_ := none
  rtvDescriptorSize_ := 0
  cbvSrvDescriptorSize_ := 0
  swapChainBuffers_ := fun _ => none
  commandAllocator_ := none
  commandList_ := none
  commandListCmds := []
  fence_ := none
  fenceValue_ := 0
  fenceEventHandle_ := none
  rootSignature_ := none
  pipelineState_ := none
  vertexBuffer_ := none
  vertexBufferView_ := (none, 0, 0)
  constantBufferData_ := ⟨(.lit 0 0, .lit 0 0), .lit 0 0⟩
  constantBuffer_ := none
  cbvData := none
  vectorFieldBuffers := fun _ => none
  vectorFieldRootSignature_ := none
  vectorFieldPipelineState_ := none
  eventArmedFor := 0
  now := 0
  trace := []

/-- A freshly constructed `DemoBlob`: the `ComPtr` members are null and the members with an
initialiser have its value; the members without one hold whatever `junk` holds. No call has
been made yet. -/
def constructed (config : Config) (view : ViewState) (junk : DemoBlob) : DemoBlob :=
  { junk with
    config_ := config
    feature_ := {}
    state_ := view
    device_ := none
    commandQueue_ := none
    swapChain_ := none
    rtvHeap_ := none
    cbvSrvHeap_ := none
    swapChainBuffers_ := fun _ => none
    commandAllocator_ := none
    commandList_ := none
    commandListCmds := []
    fence_ := none
    rootSignature_ := none
    pipelineState_ := none
    vertexBuffer_ := none
    constantBuffer_ := none
    cbvData := none
    fieldWidth_ := 480
    fieldHeight_ := 270
    vectorFieldBuffers := fun _ => none
    vectorFieldRootSignature_ := none
    vectorFieldPipelineState_ := none
    now := 0
    trace := [] }

/-- The sketch of `CREATE_SKETCH` before `OnInit`, in an 800 x 450 viewport. -/
def fresh : DemoBlob := constructed demoConfig ⟨800, 450⟩ zeroed

/-- An environment in which every call succeeds, the fence has completed the value `t` at tick
`t`, and a wait for the value `v` lasts `v` ticks. -/
def gpuEnv : Env where
  hr := fun _ => S_OK
  completed := fun t => t
  waitTicks := fun _ v => v
  backBufferIndex := fun t => t % 2
  incrementSize := fun _ => 32
  heapStart := fun t => 4096 * (t + 1)
  allowTearing := fun _ => true
  ndebug := true

/-- An environment in which the device is removed right after tick `t0`: the calls up to
tick `t0` succeed and the fence has completed nothing; from then on every call answers
`DXGI_ERROR_DEVICE_REMOVED` and the completed value of the fence reads `UINT64_MAX`. -/
def removedEnv (t0 : Nat) : Env where
  hr := fun t => if t ≤ t0 then S_OK else DXGI_ERROR_DEVICE_REMOVED
  completed := fun t => if t ≤ t0 then 0 else UINT64_MAX
  waitTicks := fun _ _ => 0
  backBufferIndex := fun _ => 0
  incrementSize := fun _ => 32
  heapStart := fun t => 4096 * (t + 1)
  allowTearing := fun _ => false
  ndebug := true

/-- The members and the clock as `OnInit` and a first `OnResize(800, 450)` leave them when
every call succeeds (`fresh` under `gpuEnv`): every object exists, both surfaces are held, the
fence counter is 3 and the clock is at 65. The trace is left empty. -/
def readySketch : DemoBlob where
  config_ := demoConfig
  feature_ := { Tearing := true }
  state_ := ⟨800, 450⟩
  device_ := some 2
  commandQueue_ := some 4
  swapChain_ := some 7
  rtvHeap_ := some 14
  cbvSrvHeap_ := some 16
  rtvDescriptorSize_ := 32
  cbvSrvDescriptorSize_ := 32
  swapChainBuffers_ := fun i => if i < kNumSwapChainBuffers then some (.backBuffer i) else none
  commandAllocator_ := some 42
  commandList_ := some 43
  commandListCmds := []
  fence_ := some 12
  fenceValue_ := 3
  fenceEventHandle_ := some 13
  rootSignature_ := some 19
  pipelineState_ := some 21
  vertexBuffer_ := some (.committed 26)
  vertexBufferView_ := (some (.committed 26), 32, 128)
  constantBufferData_ := ⟨(.lit 5 1, .lit 5 1), .div (.ofInt 800) (.ofInt 450)⟩
  constantBuffer_ := some (.committed 22)
  cbvData := some ⟨(.lit 5 1, .lit 5 1), .div (.ofInt 800) (.ofInt 450)⟩
  vectorFieldBuffers := fun i =>
    if i = 0 then some (.committed 45) else if i = 1 then some (.committed 48) else none
  vectorFieldRootSignature_ := some 52
  vectorFieldPipelineState_ := none
  eventArmedFor := 0
  now := 65
  trace := []

/-- The sketch `readySketch` with the fence counter at `v`. -/
def sketchWithCounter (v : Nat) : DemoBlob := { readySketch with fenceValue_ := v }

/-- A run of the frame driver: an upload, a resize, a frame, a mouse drag, a frame and the
shutdown. -/
def demoEvents : List Event :=
  [.Upload, .Resize 1024 768, .Update, .MouseDrag 200 100 0, .Update, .Quit]


/-! ## Single-precision arithmetic -/

/-- A value of the type `float` (IEEE 754 binary32): the finite value
`(-1)^negative · m · 2^e`, an infinity, or a NaN. The finite values that `Binary32.round`
produces have `m < 2^24` and `-149 ≤ e ≤ 104`, with `2^23 ≤ m` unless `e = -149`. -/
inductive Binary32 where
  | finite (negative : Bool) (m : Nat) (e : Int)
  | inf (negative : Bool)
  | nan
deriving DecidableEq, Repr

/-- The position of the leading bit of `n`, found by halving `n` at most `fuel` times: the
`l` with `2^l ≤ n < 2^(l+1)` when `0 < n ≤ fuel`. -/
def leadingBit : Nat → Nat → Nat
  | 0, _ => 0
  | fuel + 1, n => if 2 ≤ n then leadingBit fuel (n / 2) + 1 else 0

/-- The integer `l` with `2^l ≤ num / den < 2^(l+1)`, for positive `num` and `den`. -/
def floorLog2 (num den : Nat) : Int :=
  let k : Int := (leadingBit num num : Int) - (leadingBit den den : Int)
  if den * 2 ^ k.toNat ≤ num * 2 ^ (-k).toNat then k else k - 1

/-- The mantissa nearest to `N / D`, ties to the even one. -/
def roundHalfEven (N D : Nat) : Nat :=
  if 2 * (N % D) < D then N / D
  else if D < 2 * (N % D) then N / D + 1
  else if (N / D) % 2 = 0 then N / D else N / D + 1

/-- Rounding to nearest, ties to even: the value of binary32 nearest to `± num / den`, for
`den` positive. The exponent `e` is chosen so that the mantissa has 24 bits, and is not less
than -149 (below `2^(-126)` the values are subnormal). -/
def Binary32.round (negative : Bool) (num den : Nat) : Binary32 :=
  if num = 0 then .finite negative 0 (-149)
  else
    let e : Int := max (floorLog2 num den - 23) (-149)
    let m := roundHalfEven (num * 2 ^ (-e).toNat) (den * 2 ^ e.toNat)
    if m = 2 ^ 24 then
      if 104 < e + 1 then .inf negative else .finite negative (2 ^ 23) (e + 1)
    else if 104 < e then .inf negative
    else .finite negative m e

/-- The conversion `static_cast<float>(i)` of an `int`, rounded to nearest; it is exact for
`|i| < 2^24` (`ofInt_exact`). -/
def Binary32.ofInt (i : Int) : Binary32 :=
  .round (decide (i < 0)) i.natAbs 1

/-- The single-precision quotient `a / b`. -/
def Binary32.div : Binary32 → Binary32 → Binary32
  | .nan, _ => .nan
  | _, .nan => .nan
  | .inf _, .inf _ => .nan
  | .inf s, .finite t _ _ => .inf (xor s t)
  | .finite s _ _, .inf t => .finite (xor s t) 0 (-149)
  | .finite s ma ea, .finite t mb eb =>
    if mb = 0 then
      if ma = 0 then .nan else .inf (xor s t)
    else .round (xor s t) (ma * 2 ^ (ea - eb).toNat) (mb * 2 ^ (eb - ea).toNat)

/-- The single-precision value that the expression computes. -/
def FloatExpr.eval : FloatExpr → Binary32
  | .lit mantissa decimals => .round (decide (mantissa < 0)) mantissa.natAbs (10 ^ decimals)
  | .ofInt i => .ofInt i
  | .div a b => .div a.eval b.eval

/-- The value is finite. -/
def Binary32.isFinite : Binary32 → Bool
  | .finite _ _ _ => true
  | _ => false

/-- The numerator of a finite value over the denominator `Binary32.den`. -/
def Binary32.num : Binary32 → Int
  | .finite negative m e => (if negative then -(m : Int) else (m : Int)) * 2 ^ e.toNat
  | _ => 0

/-- The denominator of a finite value, a power of two. -/
def Binary32.den : Binary32 → Int
  | .finite _ _ e => 2 ^ (-e).toNat
  | _ => 1

/-- The mantissa of a finite value. -/
def Binary32.mantissa : Binary32 → Nat
  | .finite _ m _ => m
  | _ => 0

/-- The exponent of a finite value. -/
def Binary32.exponent : Binary32 → Int
  | .finite _ _ e => e
  | _ => 0

/-- The unit in the last place of a finite value, over the denominator `Binary32.den`. -/
def Binary32.ulp (f : Binary32) : Nat := 2 ^ f.exponent.toNat

/-- The value is finite and is exactly the ratio `n / d` of the integers `n` and `d`. -/
def Binary32.isQuotient (f : Binary32) (n d : Int) : Prop :=
  f.isFinite = true ∧ d ≠ 0 ∧ f.num * d = n * f.den

instance (f : Binary32) (n d : Int) : Decidable (f.isQuotient n d) := by
  unfold Binary32.isQuotient; infer_instance

/-- The value is a value of binary32 nearest to the ratio `n / d`: it is finite, its mantissa
has 24 bits (or its exponent is the least one), and it differs from `n / d` by at most half a
unit in the last place. -/
def Binary32.isNearest (f : Binary32) (n d : Int) : Prop :=
  f.isFinite = true ∧ d ≠ 0 ∧ f.mantissa < 2 ^ 24 ∧ -149 ≤ f.exponent ∧ f.exponent ≤ 104 ∧
    (2 ^ 23 ≤ f.mantissa ∨ f.exponent = -149) ∧
    2 * (f.num * d - n * f.den).natAbs ≤ f.ulp * d.natAbs

instance (f : Binary32) (n d : Int) : Decidable (f.isNearest n d) := by
  unfold Binary32.isNearest; infer_instance

/-- The sketch `readySketch` with a viewport of `width` x `height` pixels. -/
def sketchWithViewport (width height : Int) : DemoBlob :=
  { readySketch with state_ := ⟨width, height⟩ }

/-! ## Observations on descriptor heaps -/

/-- The render-target views the calls create: the resource viewed and the handle written. -/
def rtvWrites : List Call → List (Option Resource × CpuHandle)
  | [] => []
  | .CreateRenderTargetView resource dest :: cs => (resource, dest) :: rtvWrites cs
  | _ :: cs => rtvWrites cs

/-- The shader-resource views the calls create: the resource viewed and the handle written. -/
def srvWrites : List Call → List (Option Resource × CpuHandle)
  | [] => []
  | .CreateShaderResourceView resource dest :: cs => (resource, dest) :: srvWrites cs
  | _ :: cs => srvWrites cs

/-- The constant-buffer views the calls create: the buffer viewed and the handle written. -/
def cbvWrites : List Call → List (Option Resource × CpuHandle)
  | [] => []
  | .CreateConstantBufferView location _ dest :: cs => (location, dest) :: cbvWrites cs
  | _ :: cs => cbvWrites cs

/-- The descriptor heaps the calls create: the type and the number of descriptors. -/
def heapsCreated : List Call → List (DescriptorHeapType × Nat)
  | [] => []
  | .CreateDescriptorHeap type numDescriptors :: cs => (type, numDescriptors) :: heapsCreated cs
  | _ :: cs => heapsCreated cs

/-- The handle of the render target that a command binds or clears. -/
def Cmd.renderTarget : Cmd → Option CpuHandle
  | .OMSetRenderTargets rtv => some rtv
  | .ClearRenderTargetView rtv _ => some rtv
  | _ => none

/-- The code `E_OUTOFMEMORY` (0x8007000E) as a signed 32-bit value. -/
def E_OUTOFMEMORY : HRESULT := 0x8007000E - 2 ^ 32

/-- An environment in which the call at tick `t0` answers `code` and every other call
succeeds; otherwise it is `gpuEnv`. -/
def failingEnv (t0 : Nat) (code : HRESULT) : Env :=
  { gpuEnv with hr := fun t => if t = t0 then code else S_OK }

/-- An environment in which every call succeeds and the fence has completed nothing before
tick 70 and the value 100 from tick 70 on, never more; a wait on the event that starts at tick
`t` returns at tick 70 (at once when tick 70 is past). -/
def slowFenceEnv : Env :=
  { gpuEnv with
    completed := fun t => if t < 70 then 0 else 100
    waitTicks := fun t _ => 70 - (t + 1) }

/-- The character is a decimal digit or one of the letters `A` to `F`. -/
def isUpperHexDigit (ch : Char) : Bool :=
  (48 ≤ ch.toNat && ch.toNat ≤ 57) || (65 ≤ ch.toNat && ch.toNat ≤ 70)

/-- The value of an upper-case hexadecimal digit. -/
def hexDigitValue (ch : Char) : Nat :=
  if ch.toNat ≤ 57 then ch.toNat - 48 else ch.toNat - 55

/-- The number that a string of upper-case hexadecimal digits denotes. -/
def hexValue (str : String) : Nat :=
  str.data.foldl (fun acc ch => 16 * acc + hexDigitValue ch) 0

/-! ## Unfolding the state transformers -/

theorem pure_run {α : Type} (a : α) (s : DemoBlob) :
    (Pure.pure a : Sketch α) s = (.ok a, s) := rfl

theorem bind_run {α β : Type} (m : Sketch α) (f : α → Sketch β) (s : DemoBlob) :
    (m >>= f) s = match m s with
      | (.ok a, s') => f a s'
      | (.error e, s') => (.error e, s') := rfl

theorem bind_ok {α β : Type} (m : Sketch α) (f : α → Sketch β) (s : DemoBlob) (a : α)
    (h : (m s).1 = .ok a) : (m >>= f) s = f a (m s).2 := by
  rw [bind_run]
  rcases hm : m s with ⟨r, s'⟩
  rw [hm] at h
  cases r with
  | error e => cases h
  | ok b =>
    cases h
    rfl

theorem ThrowIfFailed_run (hr : HRESULT) (context : String) (s : DemoBlob) :
    ThrowIfFailed hr context s =
      if hr < 0 then (.error (HrException.new hr context), s) else (.ok (), s) := by
  unfold ThrowIfFailed FAILED
  by_cases h : hr < 0 <;> simp [h, throw, pure_run]

theorem FlushCommandQueue_run (env : Env) (s : DemoBlob) :
    FlushCommandQueue env s =
      if env.hr s.now < 0 then
        (.error (HrException.new (env.hr s.now) "Signal"),
          { s with now := s.now + 1, trace := s.trace ++ [.Signal s.fenceValue_] })
      else if env.completed (s.now + 1) < s.fenceValue_ then
        if env.hr (s.now + 2) < 0 then
          (.error (HrException.new (env.hr (s.now + 2)) "SetEventOnCompletion"),
            { s with
              fenceValue_ := incrUINT64 s.fenceValue_
              now := s.now + 3
              trace := s.trace ++ [.Signal s.fenceValue_, .GetCompletedValue,
                .SetEventOnCompletion s.fenceValue_] })
        else
          (.ok (),
            { s with
              fenceValue_ := incrUINT64 s.fenceValue_
              eventArmedFor := s.fenceValue_
              now := s.now + 4 + env.waitTicks (s.now + 3) s.fenceValue_
              trace := s.trace ++ [.Signal s.fenceValue_, .GetCompletedValue,
                .SetEventOnCompletion s.fenceValue_, .WaitForSingleObject] })
      else
        (.ok (),
          { s with
            fenceValue_ := incrUINT64 s.fenceValue_
            now := s.now + 2
            trace := s.trace ++ [.Signal s.fenceValue_, .GetCompletedValue] }) := by
  unfold FlushCommandQueue incrUINT64
  simp only [callHr, call, get, modify, bind_run, pure_run, ThrowIfFailed_run]
  by_cases h1 : env.hr s.now < 0
  · simp [h1]
  · by_cases h2 : env.completed (s.now + 1) < s.fenceValue_
    · by_cases h3 : env.hr (s.now + 2) < 0
      · simp [h1, h2, h3, bind_run, pure_run, ThrowIfFailed_run, callHr, call, modify]
      · simp [h1, h2, h3, bind_run, pure_run, ThrowIfFailed_run, callHr, call, modify]
    · simp [h1, h2, bind_run, pure_run]

theorem signalled_append (xs ys : List Call) :
    signalled (xs ++ ys) = signalled xs ++ signalled ys := by
  induction xs with
  | nil => rfl
  | cons c cs ih => cases c <;> simp [signalled, ih]

theorem emitted_of_trace {α : Type} (m : Sketch α) (s : DemoBlob) (cs : List Call)
    (h : (m s).2.trace = s.trace ++ cs) : emitted m s = cs := by
  simp [emitted, h]

/-- What `FlushCommandQueue` emits: one `Signal` of the counter it found, then the read of the
completed value and, on the slow path, the arming of the event and the wait. -/
theorem FlushCommandQueue_emitted (env : Env) (s : DemoBlob) :
    emitted (FlushCommandQueue env) s =
      if env.hr s.now < 0 then [.Signal s.fenceValue_]
      else if env.completed (s.now + 1) < s.fenceValue_ then
        if env.hr (s.now + 2) < 0 then
          [.Signal s.fenceValue_, .GetCompletedValue, .SetEventOnCompletion s.fenceValue_]
        else
          [.Signal s.fenceValue_, .GetCompletedValue, .SetEventOnCompletion s.fenceValue_,
            .WaitForSingleObject]
      else [.Signal s.fenceValue_, .GetCompletedValue] := by
  apply emitted_of_trace
  rw [FlushCommandQueue_run]
  split_ifs <;> rfl

theorem not_failed {env : Env} (hf : NoFailure env) (t : Nat) : ¬ env.hr t < 0 :=
  not_lt.mpr (hf t)

theorem succeeded {env : Env} (hf : NoFailure env) (t : Nat) : SUCCEEDED (env.hr t) = true := by
  simp [SUCCEEDED, hf t]

theorem noFailure_gpuEnv : NoFailure gpuEnv := fun _ => le_refl _

/-- With no failing call `FlushCommandQueue` returns: the counter is incremented, and the
calls are `Signal`, `GetCompletedValue` and, when the fence is behind, the arming of the event
and the wait. -/
theorem FlushCommandQueue_run_ok {env : Env} (hf : NoFailure env) (s : DemoBlob) :
    FlushCommandQueue env s =
      (.ok (),
        { s with
          fenceValue_ := incrUINT64 s.fenceValue_
          eventArmedFor :=
            if env.completed (s.now + 1) < s.fenceValue_ then s.fenceValue_ else s.eventArmedFor
          now :=
            if env.completed (s.now + 1) < s.fenceValue_ then
              s.now + 4 + env.waitTicks (s.now + 3) s.fenceValue_
            else s.now + 2
          trace := s.trace ++ .Signal s.fenceValue_ :: .GetCompletedValue ::
            if env.completed (s.now + 1) < s.fenceValue_ then
              [.SetEventOnCompletion s.fenceValue_, .WaitForSingleObject]
            else [] }) := by
  rw [FlushCommandQueue_run]
  simp only [not_failed hf, if_false]
  split_ifs <;> rfl

theorem FlushCommandQueue_ok {env : Env} (hf : NoFailure env) (s : DemoBlob) :
    (FlushCommandQueue env s).1 = .ok () := by
  rw [FlushCommandQueue_run_ok hf]

theorem FlushCommandQueue_emitted_ok {env : Env} (hf : NoFailure env) (s : DemoBlob) :
    emitted (FlushCommandQueue env) s =
      .Signal s.fenceValue_ :: .GetCompletedValue ::
        if env.completed (s.now + 1) < s.fenceValue_ then
          [.SetEventOnCompletion s.fenceValue_, .WaitForSingleObject]
        else [] := by
  apply emitted_of_trace
  rw [FlushCommandQueue_run_ok hf]

theorem RenderToBackBuffer_run_of (env : Env) (s : DemoBlob) (frame : List Cmd)
    (h0 : ¬ env.hr s.now < 0) (h1 : ¬ env.hr (s.now + 1) < 0) (h15 : ¬ env.hr (s.now + 15) < 0)
    (h : frame =
      [ .Transition (s.swapChainBuffers_ (env.backBufferIndex (s.now + 2))) .PRESENT .RENDER_TARGET,
        .OMSetRenderTargets
          ((heapStart env s.rtvHeap_).at (env.backBufferIndex (s.now + 2)) s.rtvDescriptorSize_),
        .SetGraphicsRootSignature s.rootSignature_,
        .SetDescriptorHeaps s.cbvSrvHeap_,
        .SetGraphicsRootDescriptorTable 0 s.cbvSrvHeap_,
        .RSSetViewports (.ofInt s.state_.ViewportWidth) (.ofInt s.state_.ViewportHeight),
        .RSSetScissorRects s.state_.ViewportWidth s.state_.ViewportHeight,
        .ClearRenderTargetView
          ((heapStart env s.rtvHeap_).at (env.backBufferIndex (s.now + 2)) s.rtvDescriptorSize_)
          [.lit 0 1, .lit 2 1, .lit 4 1, .lit 10 1],
        .IASetPrimitiveTopology .TRIANGLESTRIP,
        .IASetVertexBuffers s.vertexBufferView_.1 s.vertexBufferView_.2.1 s.vertexBufferView_.2.2,
        .DrawInstanced 4 1 0 0,
        .Transition (s.swapChainBuffers_ (env.backBufferIndex (s.now + 2))) .RENDER_TARGET
          .PRESENT ]) :
    RenderToBackBuffer env s =
      (.ok (),
        { s with
          commandListCmds := frame
          now := s.now + 17
          trace := s.trace ++
            ((.ResetCommandAllocator s.commandAllocator_ ::
              .ResetCommandList s.commandList_ s.commandAllocator_ s.pipelineState_ ::
              .GetCurrentBackBufferIndex ::
              (frame.map (Call.Record s.commandList_) ++ [.CloseCommandList s.commandList_])) ++
              [.ExecuteCommandLists [⟨s.commandList_, frame⟩]]) }) := by
  subst h
  have hs1 : SUCCEEDED (env.hr (s.now + 1)) = true := by simp [SUCCEEDED, not_lt.mp h1]
  simp only [RenderToBackBuffer, recordMember, callHr, call, get, modify, bind_run, pure_run,
    ThrowIfFailed_run, h0, h1, h15, hs1, if_false, if_true, Nat.add_assoc,
    Nat.reduceAdd, List.append_assoc, List.singleton_append, List.cons_append, List.nil_append,
    List.map_cons, List.map_nil]

/-- When `RenderToBackBuffer` returns normally, the two resets and the close have succeeded
(ticks `s.now`, `s.now + 1` and `s.now + 15`). -/
theorem RenderToBackBuffer_returns (env : Env) (s : DemoBlob)
    (hret : (RenderToBackBuffer env s).1 = .ok ()) :
    ¬ env.hr s.now < 0 ∧ ¬ env.hr (s.now + 1) < 0 ∧ ¬ env.hr (s.now + 15) < 0 := by
  by_cases h0 : env.hr s.now < 0
  · simp [RenderToBackBuffer, callHr, call, get, bind_run, pure_run, ThrowIfFailed_run, h0]
      at hret
  · by_cases h1 : env.hr (s.now + 1) < 0
    · simp [RenderToBackBuffer, callHr, call, get, modify, bind_run, pure_run,
        ThrowIfFailed_run, h0, h1] at hret
    · by_cases h15 : env.hr (s.now + 15) < 0
      · simp [RenderToBackBuffer, recordMember, callHr, call, get, modify, bind_run, pure_run,
          ThrowIfFailed_run, h0, h1, h15, Nat.add_assoc] at hret
      · exact ⟨h0, h1, h15⟩

theorem RenderToBackBuffer_run {env : Env} (hf : NoFailure env) (s : DemoBlob) (frame : List Cmd)
    (h : frame =
      [ .Transition (s.swapChainBuffers_ (env.backBufferIndex (s.now + 2))) .PRESENT .RENDER_TARGET,
        .OMSetRenderTargets
          ((heapStart env s.rtvHeap_).at (env.backBufferIndex (s.now + 2)) s.rtvDescriptorSize_),
        .SetGraphicsRootSignature s.rootSignature_,
        .SetDescriptorHeaps s.cbvSrvHeap_,
        .SetGraphicsRootDescriptorTable 0 s.cbvSrvHeap_,
        .RSSetViewports (.ofInt s.state_.ViewportWidth) (.ofInt s.state_.ViewportHeight),
        .RSSetScissorRects s.state_.ViewportWidth s.state_.ViewportHeight,
        .ClearRenderTargetView
          ((heapStart env s.rtvHeap_).at (env.backBufferIndex (s.now + 2)) s.rtvDescriptorSize_)
          [.lit 0 1, .lit 2 1, .lit 4 1, .lit 10 1],
        .IASetPrimitiveTopology .TRIANGLESTRIP,
        .IASetVertexBuffers s.vertexBufferView_.1 s.vertexBufferView_.2.1 s.vertexBufferView_.2.2,
        .DrawInstanced 4 1 0 0,
        .Transition (s.swapChainBuffers_ (env.backBufferIndex (s.now + 2))) .RENDER_TARGET
          .PRESENT ]) :
    RenderToBackBuffer env s =
      (.ok (),
        { s with
          commandListCmds := frame
          now := s.now + 17
          trace := s.trace ++
            ((.ResetCommandAllocator s.commandAllocator_ ::
              .ResetCommandList s.commandList_ s.commandAllocator_ s.pipelineState_ ::
              .GetCurrentBackBufferIndex ::
              (frame.map (Call.Record s.commandList_) ++ [.CloseCommandList s.commandList_])) ++
              [.ExecuteCommandLists [⟨s.commandList_, frame⟩]]) }) :=
  RenderToBackBuffer_run_of env s frame (not_failed hf _) (not_failed hf _) (not_failed hf _) h

theorem filter_isFrameStep_record (l : Option Handle) (cs : List Cmd) :
    (cs.map (Call.Record l)).filter Call.isFrameStep = [] := by
  induction cs with
  | nil => rfl
  | cons c cs ih => simp [List.filter, Call.isFrameStep]

/-- With no failing call `RenderToBackBuffer` returns; its last call is the one submission,
and it touches only the command list, the clock and the trace. -/
theorem RenderToBackBuffer_summary {env : Env} (hf : NoFailure env) (s : DemoBlob) :
    ∃ (pre : List Call) (list : CommandList),
      RenderToBackBuffer env s =
        (.ok (),
          { s with
            commandListCmds := list.cmds
            now := s.now + 17
            trace := s.trace ++ (pre ++ [.ExecuteCommandLists [list]]) }) ∧
      pre.filter Call.isFrameStep = [] := by
  refine ⟨_, ⟨_, _⟩, RenderToBackBuffer_run hf s _ rfl, ?_⟩
  simp only [List.filter_cons, List.filter_append, filter_isFrameStep_record, Call.isFrameStep,
    List.filter_nil, List.append_nil]
  rfl

theorem PresentAndSwapBuffers_run {env : Env} (hf : NoFailure env) (s : DemoBlob) :
    PresentAndSwapBuffers env s =
      (.ok (),
        { s with
          now := s.now + 1
          trace := s.trace ++
            [.Present (if s.config_.Vsync then 1 else 0)
              (if s.config_.Vsync then 0
                else if s.feature_.Tearing then DXGI_PRESENT_ALLOW_TEARING else 0)] }) := by
  unfold PresentAndSwapBuffers
  by_cases hv : s.config_.Vsync = true <;>
    simp only [callHr, call, get, bind_run, pure_run, ThrowIfFailed_run, not_failed hf, hv,
      if_false, if_true, Bool.false_eq_true]

/-- With no failing call `OnUpdate` is the flush of the state left by the recording and the
present. -/
theorem OnUpdate_run {env : Env} (hf : NoFailure env) (s : DemoBlob) :
    OnUpdate env s =
      FlushCommandQueue env
        (PresentAndSwapBuffers env (RenderToBackBuffer env s).2).2 := by
  unfold OnUpdate
  rw [bind_ok _ _ s () (by rw [RenderToBackBuffer_run hf s _ rfl])]
  rw [bind_ok _ _ _ () (by rw [PresentAndSwapBuffers_run hf])]

theorem FlushCommandQueue_trace {env : Env} (hf : NoFailure env) (s : DemoBlob) :
    (FlushCommandQueue env s).2.trace = s.trace ++ emitted (FlushCommandQueue env) s := by
  rw [FlushCommandQueue_emitted_ok hf, FlushCommandQueue_run_ok hf]

theorem FlushCommandQueue_fenceValue {env : Env} (hf : NoFailure env) (s : DemoBlob) :
    (FlushCommandQueue env s).2.fenceValue_ = incrUINT64 s.fenceValue_ := by
  rw [FlushCommandQueue_run_ok hf]

theorem FlushCommandQueue_filter_isFrameStep {env : Env} (hf : NoFailure env) (s : DemoBlob) :
    (emitted (FlushCommandQueue env) s).filter Call.isFrameStep = [.Signal s.fenceValue_] := by
  rw [FlushCommandQueue_emitted_ok hf]
  split_ifs <;> rfl

theorem OnUpdate_ok {env : Env} (hf : NoFailure env) (s : DemoBlob) :
    (OnUpdate env s).1 = .ok () := by
  rw [OnUpdate_run hf]
  exact FlushCommandQueue_ok hf _

theorem OnUpdate_fenceValue {env : Env} (hf : NoFailure env) (s : DemoBlob) :
    (OnUpdate env s).2.fenceValue_ = incrUINT64 s.fenceValue_ := by
  obtain ⟨pre, list, hr, -⟩ := RenderToBackBuffer_summary hf s
  rw [OnUpdate_run hf, FlushCommandQueue_fenceValue hf, PresentAndSwapBuffers_run hf, hr]

theorem OnUpdate_swapChainBuffers {env : Env} (hf : NoFailure env) (s : DemoBlob) :
    (OnUpdate env s).2.swapChainBuffers_ = s.swapChainBuffers_ := by
  obtain ⟨pre, list, hr, -⟩ := RenderToBackBuffer_summary hf s
  rw [OnUpdate_run hf, FlushCommandQueue_run_ok hf, PresentAndSwapBuffers_run hf, hr]

/-- What `OnUpdate` emits when no call fails: the recording, whose last call is the one
submission, then the present, then the flush. -/
theorem OnUpdate_trace {env : Env} (hf : NoFailure env) (s : DemoBlob) :
    ∃ (pre : List Call) (list : CommandList) (sm : DemoBlob),
      (OnUpdate env s).2.trace =
        s.trace ++ (pre ++ .ExecuteCommandLists [list] ::
          .Present (if s.config_.Vsync then 1 else 0)
            (if s.config_.Vsync then 0
              else if s.feature_.Tearing then DXGI_PRESENT_ALLOW_TEARING else 0) ::
          emitted (FlushCommandQueue env) sm) ∧
      pre.filter Call.isFrameStep = [] ∧ sm.fenceValue_ = s.fenceValue_ := by
  obtain ⟨pre, list, hr, hpre⟩ := RenderToBackBuffer_summary hf s
  have hp := PresentAndSwapBuffers_run hf (RenderToBackBuffer env s).2
  refine ⟨pre, list, (PresentAndSwapBuffers env (RenderToBackBuffer env s).2).2, ?_, hpre, ?_⟩
  · rw [OnUpdate_run hf, FlushCommandQueue_trace hf, hp]
    simp only [hr, List.append_assoc, List.cons_append, List.nil_append, List.singleton_append]
  · rw [hp, hr]

theorem releaseSwapChainBuffers_run (s : DemoBlob) :
    releaseSwapChainBuffers s =
      (.ok (),
        { s with
          swapChainBuffers_ := Function.update (Function.update s.swapChainBuffers_ 0 none) 1 none
          now := s.now + 2
          trace := s.trace ++
            [.ResetSwapChainBuffer 0 (s.swapChainBuffers_ 0),
              .ResetSwapChainBuffer 1 (s.swapChainBuffers_ 1)] }) := by
  simp [releaseSwapChainBuffers, kNumSwapChainBuffers, forLoop, call, get, modify, bind_run,
    pure_run, Nat.add_assoc]

theorem CreateSwapChainRTV_run (env : Env) (s : DemoBlob) :
    CreateSwapChainRTV env s =
      if env.hr s.now < 0 then
        (.error (HrException.new (env.hr s.now) "GetBuffer"),
          { s with
            swapChainBuffers_ := Function.update s.swapChainBuffers_ 0 none
            now := s.now + 1
            trace := s.trace ++ [.GetBuffer 0] })
      else if env.hr (s.now + 2) < 0 then
        (.error (HrException.new (env.hr (s.now + 2)) "GetBuffer"),
          { s with
            swapChainBuffers_ :=
              Function.update (Function.update s.swapChainBuffers_ 0 (some (.backBuffer 0))) 1 none
            now := s.now + 3
            trace := s.trace ++
              [.GetBuffer 0,
                .CreateRenderTargetView (some (.backBuffer 0)) (heapStart env s.rtvHeap_),
                .GetBuffer 1] })
      else
        (.ok (),
          { s with
            swapChainBuffers_ :=
              Function.update (Function.update s.swapChainBuffers_ 0 (some (.backBuffer 0))) 1
                (some (.backBuffer 1))
            now := s.now + 4
            trace := s.trace ++
              [.GetBuffer 0,
                .CreateRenderTargetView (some (.backBuffer 0)) (heapStart env s.rtvHeap_),
                .GetBuffer 1,
                .CreateRenderTargetView (some (.backBuffer 1))
                  ((heapStart env s.rtvHeap_).Offset 1 s.rtvDescriptorSize_)] }) := by
  by_cases h0 : env.hr s.now < 0
  · have : ¬ 0 ≤ env.hr s.now := not_le.mpr h0
    simp [CreateSwapChainRTV, kNumSwapChainBuffers, forLoop, callHr, call, get, modify, bind_run,
      pure_run, ThrowIfFailed_run, SUCCEEDED, h0, this]
  · have h0' : 0 ≤ env.hr s.now := not_lt.mp h0
    by_cases h1 : env.hr (s.now + 2) < 0
    · have : ¬ 0 ≤ env.hr (s.now + 2) := not_le.mpr h1
      simp [CreateSwapChainRTV, kNumSwapChainBuffers, forLoop, callHr, call, get, modify,
        bind_run, pure_run, ThrowIfFailed_run, SUCCEEDED, h0, h0', h1, this, Nat.add_assoc]
    · have h1' : 0 ≤ env.hr (s.now + 2) := not_lt.mp h1
      simp [CreateSwapChainRTV, kNumSwapChainBuffers, forLoop, callHr, call, get, modify,
        bind_run, pure_run, ThrowIfFailed_run, SUCCEEDED, h0, h0', h1, h1', Nat.add_assoc]

theorem bind_assoc_run {α β γ : Type} (m : Sketch α) (f : α → Sketch β) (g : β → Sketch γ) :
    (m >>= f) >>= g = m >>= fun a => f a >>= g := by
  funext s
  simp only [bind_run]
  rcases m s with ⟨_ | _, _⟩ <;> rfl

theorem update_release_acquire (f : Nat → Option Resource) (a b : Option Resource) :
    Function.update (Function.update (Function.update (Function.update f 0 none) 1 none) 0 a) 1 b =
      Function.update (Function.update f 0 a) 1 b := by
  funext i
  by_cases h1 : i = 1
  · subst h1; simp
  · by_cases h0 : i = 0
    · subst h0; simp
    · simp [Function.update, h0, h1]

/-- What `FlushCommandQueue` leaves alone, whether it returns or raises. -/
theorem FlushCommandQueue_frame (env : Env) (s : DemoBlob) :
    (FlushCommandQueue env s).2.swapChainBuffers_ = s.swapChainBuffers_ ∧
      (FlushCommandQueue env s).2.rtvHeap_ = s.rtvHeap_ ∧
      (FlushCommandQueue env s).2.rtvDescriptorSize_ = s.rtvDescriptorSize_ ∧
      (FlushCommandQueue env s).2.constantBufferData_ = s.constantBufferData_ ∧
      (FlushCommandQueue env s).2.trace = s.trace ++ emitted (FlushCommandQueue env) s := by
  rw [FlushCommandQueue_emitted, FlushCommandQueue_run]
  split_ifs <;> exact ⟨rfl, rfl, rfl, rfl, rfl⟩

/-- The member function `OnResize` from the state `sf` in which its flush leaves the sketch:
it stops at the first `GetBuffer` that fails. -/
theorem OnResize_run (env : Env) (width height : Int) (s : DemoBlob) :
    OnResize env width height s =
      match FlushCommandQueue env s with
      | (.error e, sf) => (.error e, sf)
      | (.ok _, sf) =>
        if env.hr (sf.now + 4) < 0 then
          (.error (HrException.new (env.hr (sf.now + 4)) "GetBuffer"),
            { sf with
              swapChainBuffers_ :=
                Function.update (Function.update sf.swapChainBuffers_ 0 none) 1 none
              now := sf.now + 5
              trace := sf.trace ++
                [.ResetSwapChainBuffer 0 (sf.swapChainBuffers_ 0),
                  .ResetSwapChainBuffer 1 (sf.swapChainBuffers_ 1),
                  .GetDesc,
                  .ResizeBuffers kNumSwapChainBuffers (toUINT width) (toUINT height),
                  .GetBuffer 0] })
        else if env.hr (sf.now + 6) < 0 then
          (.error (HrException.new (env.hr (sf.now + 6)) "GetBuffer"),
            { sf with
              swapChainBuffers_ :=
                Function.update (Function.update sf.swapChainBuffers_ 0 (some (.backBuffer 0))) 1
                  none
              now := sf.now + 7
              trace := sf.trace ++
                [.ResetSwapChainBuffer 0 (sf.swapChainBuffers_ 0),
                  .ResetSwapChainBuffer 1 (sf.swapChainBuffers_ 1),
                  .GetDesc,
                  .ResizeBuffers kNumSwapChainBuffers (toUINT width) (toUINT height),
                  .GetBuffer 0,
                  .CreateRenderTargetView (some (.backBuffer 0)) (heapStart env sf.rtvHeap_),
                  .GetBuffer 1] })
        else
          (.ok (),
            { sf with
              swapChainBuffers_ :=
                Function.update (Function.update sf.swapChainBuffers_ 0 (some (.backBuffer 0))) 1
                  (some (.backBuffer 1))
              constantBufferData_ :=
                ⟨sf.constantBufferData_.center, .div (.ofInt width) (.ofInt height)⟩
              cbvData := some ⟨sf.constantBufferData_.center, .div (.ofInt width) (.ofInt height)⟩
              now := sf.now + 9
              trace := sf.trace ++
                [.ResetSwapChainBuffer 0 (sf.swapChainBuffers_ 0),
                  .ResetSwapChainBuffer 1 (sf.swapChainBuffers_ 1),
                  .GetDesc,
                  .ResizeBuffers kNumSwapChainBuffers (toUINT width) (toUINT height),
                  .GetBuffer 0,
                  .CreateRenderTargetView (some (.backBuffer 0)) (heapStart env sf.rtvHeap_),
                  .GetBuffer 1,
                  .CreateRenderTargetView (some (.backBuffer 1))
                    ((heapStart env sf.rtvHeap_).Offset 1 sf.rtvDescriptorSize_),
                  .memcpyConstants
                    ⟨sf.constantBufferData_.center, .div (.ofInt width) (.ofInt height)⟩
                    sizeofSceneConstantBuffer] }) := by
  unfold OnResize
  rw [bind_run]
  rcases FlushCommandQueue env s with ⟨_ | _, sf⟩
  · rfl
  · simp only [bind_run, releaseSwapChainBuffers_run, call, CreateSwapChainRTV_run, get, modify,
      pure_run]
    by_cases h0 : env.hr (sf.now + 4) < 0
    · simp [h0, Nat.add_assoc]
    · by_cases h1 : env.hr (sf.now + 6) < 0
      · simp [h0, h1, Nat.add_assoc, update_release_acquire]
      · simp [h0, h1, Nat.add_assoc, update_release_acquire]

theorem OnResize_phases (env : Env) (width height : Int) :
    OnResize env width height =
      (do resizeAcquired env width height; resizeConstants width height) := by
  unfold OnResize resizeAcquired resizeReleased resizeConstants
  simp only [bind_assoc_run]

theorem heldCount_eq (s : DemoBlob) (a b : Option Resource) (h0 : s.swapChainBuffers_ 0 = a)
    (h1 : s.swapChainBuffers_ 1 = b) :
    heldCount s = (if a.isSome then 1 else 0) + (if b.isSome then 1 else 0) := by
  subst h0 h1
  unfold heldCount kNumSwapChainBuffers
  rw [show List.range 2 = [0, 1] from rfl]
  simp only [List.filter_cons, List.filter_nil]
  split_ifs <;> rfl

theorem resizeReleased_run (env : Env) (s : DemoBlob)
    (hflush : (FlushCommandQueue env s).1 = .ok ()) :
    resizeReleased env s =
      (.ok (),
        { (FlushCommandQueue env s).2 with
          swapChainBuffers_ := Function.update (Function.update s.swapChainBuffers_ 0 none) 1 none
          now := (FlushCommandQueue env s).2.now + 2
          trace := (FlushCommandQueue env s).2.trace ++
            [.ResetSwapChainBuffer 0 (s.swapChainBuffers_ 0),
              .ResetSwapChainBuffer 1 (s.swapChainBuffers_ 1)] }) := by
  unfold resizeReleased
  rw [bind_ok _ _ s () hflush, releaseSwapChainBuffers_run, (FlushCommandQueue_frame env s).1]

theorem resizeAcquired_run (env : Env) (width height : Int) (s : DemoBlob)
    (hflush : (FlushCommandQueue env s).1 = .ok ())
    (hget0 : 0 ≤ env.hr ((FlushCommandQueue env s).2.now + 4))
    (hget1 : 0 ≤ env.hr ((FlushCommandQueue env s).2.now + 6)) :
    resizeAcquired env width height s =
      (.ok (),
        { (FlushCommandQueue env s).2 with
          swapChainBuffers_ :=
            Function.update (Function.update s.swapChainBuffers_ 0 (some (.backBuffer 0))) 1
              (some (.backBuffer 1))
          now := (FlushCommandQueue env s).2.now + 8
          trace := (FlushCommandQueue env s).2.trace ++
            [.ResetSwapChainBuffer 0 (s.swapChainBuffers_ 0),
              .ResetSwapChainBuffer 1 (s.swapChainBuffers_ 1),
              .GetDesc,
              .ResizeBuffers kNumSwapChainBuffers (toUINT width) (toUINT height),
              .GetBuffer 0,
              .CreateRenderTargetView (some (.backBuffer 0)) (heapStart env s.rtvHeap_),
              .GetBuffer 1,
              .CreateRenderTargetView (some (.backBuffer 1))
                ((heapStart env s.rtvHeap_).Offset 1 s.rtvDescriptorSize_)] }) := by
  obtain ⟨hb, hh, hd, -, -⟩ := FlushCommandQueue_frame env s
  unfold resizeAcquired
  rw [bind_ok _ _ s () (by rw [resizeReleased_run env s hflush]),
    resizeReleased_run env s hflush]
  simp only [bind_run, call, CreateSwapChainRTV_run, not_lt.mpr hget0, not_lt.mpr hget1,
    if_false, hh, hd, update_release_acquire, Nat.add_assoc, Nat.reduceAdd, List.append_assoc,
    List.cons_append, List.nil_append]

theorem OnResize_run_of (env : Env) (width height : Int) (s : DemoBlob)
    (hflush : (FlushCommandQueue env s).1 = .ok ())
    (hget0 : 0 ≤ env.hr ((FlushCommandQueue env s).2.now + 4))
    (hget1 : 0 ≤ env.hr ((FlushCommandQueue env s).2.now + 6)) :
    OnResize env width height s =
      (.ok (),
        { (FlushCommandQueue env s).2 with
          swapChainBuffers_ :=
            Function.update (Function.update s.swapChainBuffers_ 0 (some (.backBuffer 0))) 1
              (some (.backBuffer 1))
          constantBufferData_ :=
            ⟨s.constantBufferData_.center, .div (.ofInt width) (.ofInt height)⟩
          cbvData := some ⟨s.constantBufferData_.center, .div (.ofInt width) (.ofInt height)⟩
          now := (FlushCommandQueue env s).2.now + 9
          trace := (FlushCommandQueue env s).2.trace ++
            [.ResetSwapChainBuffer 0 (s.swapChainBuffers_ 0),
              .ResetSwapChainBuffer 1 (s.swapChainBuffers_ 1),
              .GetDesc,
              .ResizeBuffers kNumSwapChainBuffers (toUINT width) (toUINT height),
              .GetBuffer 0,
              .CreateRenderTargetView (some (.backBuffer 0)) (heapStart env s.rtvHeap_),
              .GetBuffer 1,
              .CreateRenderTargetView (some (.backBuffer 1))
                ((heapStart env s.rtvHeap_).Offset 1 s.rtvDescriptorSize_),
              .memcpyConstants
                ⟨s.constantBufferData_.center, .div (.ofInt width) (.ofInt height)⟩
                sizeofSceneConstantBuffer] }) := by
  obtain ⟨hb, hh, hd, hc, -⟩ := FlushCommandQueue_frame env s
  have hok := hflush
  rw [OnResize_run]
  rcases hfl : FlushCommandQueue env s with ⟨_ | _, sf⟩
  · rw [hfl] at hok; cases hok
  · rw [hfl] at hb hh hd hc hget0 hget1
    simp only at hb hh hd hc hget0 hget1
    simp only [not_lt.mpr hget0, not_lt.mpr hget1, if_false, hb, hh, hd, hc]

theorem OnResize_run_ok {env : Env} (hf : NoFailure env) (width height : Int) (s : DemoBlob) :
    OnResize env width height s =
      (.ok (),
        { (FlushCommandQueue env s).2 with
          swapChainBuffers_ :=
            Function.update (Function.update s.swapChainBuffers_ 0 (some (.backBuffer 0))) 1
              (some (.backBuffer 1))
          constantBufferData_ :=
            ⟨s.constantBufferData_.center, .div (.ofInt width) (.ofInt height)⟩
          cbvData := some ⟨s.constantBufferData_.center, .div (.ofInt width) (.ofInt height)⟩
          now := (FlushCommandQueue env s).2.now + 9
          trace := (FlushCommandQueue env s).2.trace ++
            [.ResetSwapChainBuffer 0 (s.swapChainBuffers_ 0),
              .ResetSwapChainBuffer 1 (s.swapChainBuffers_ 1),
              .GetDesc,
              .ResizeBuffers kNumSwapChainBuffers (toUINT width) (toUINT height),
              .GetBuffer 0,
              .CreateRenderTargetView (some (.backBuffer 0)) (heapStart env s.rtvHeap_),
              .GetBuffer 1,
              .CreateRenderTargetView (some (.backBuffer 1))
                ((heapStart env s.rtvHeap_).Offset 1 s.rtvDescriptorSize_),
              .memcpyConstants
                ⟨s.constantBufferData_.center, .div (.ofInt width) (.ofInt height)⟩
                sizeofSceneConstantBuffer] }) :=
  OnResize_run_of env width height s (FlushCommandQueue_ok hf s) (hf _) (hf _)

theorem OnResize_ok {env : Env} (hf : NoFailure env) (width height : Int) (s : DemoBlob) :
    (OnResize env width height s).1 = .ok () := by
  rw [OnResize_run_ok hf]

theorem OnResize_heldCount {env : Env} (hf : NoFailure env) (width height : Int)
    (s : DemoBlob) : heldCount (OnResize env width height s).2 = kNumSwapChainBuffers := by
  rw [OnResize_run_ok hf]
  exact heldCount_eq _ (some (.backBuffer 0)) (some (.backBuffer 1)) (by simp) (by simp)

theorem CreateFence_ok_frame {env : Env} (hf : NoFailure env) (s : DemoBlob) :
    (CreateFence env s).1 = .ok () ∧ (CreateFence env s).2.swapChainBuffers_ = s.swapChainBuffers_ := by
  simp only [CreateFence, callHr, callCreate, callCreateResource, call, get, modify, bind_run,
    pure_run, ThrowIfFailed_run, not_failed hf, succeeded hf, if_false, if_true, and_self]

theorem CreateRenderTargetDescriptorHeap_ok_frame {env : Env} (hf : NoFailure env) (s : DemoBlob) :
    (CreateRenderTargetDescriptorHeap env s).1 = .ok () ∧ (CreateRenderTargetDescriptorHeap env s).2.swapChainBuffers_ = s.swapChainBuffers_ := by
  simp only [CreateRenderTargetDescriptorHeap, callHr, callCreate, callCreateResource, call, get, modify, bind_run,
    pure_run, ThrowIfFailed_run, not_failed hf, succeeded hf, if_false, if_true, and_self]

theorem CreateConstantBufferDescriptorHeap_ok_frame {env : Env} (hf : NoFailure env) (s : DemoBlob) :
    (CreateConstantBufferDescriptorHeap env s).1 = .ok () ∧ (CreateConstantBufferDescriptorHeap env s).2.swapChainBuffers_ = s.swapChainBuffers_ := by
  simp only [CreateConstantBufferDescriptorHeap, callHr, callCreate, callCreateResource, call, get, modify, bind_run,
    pure_run, ThrowIfFailed_run, not_failed hf, succeeded hf, if_false, if_true, and_self]

theorem CreateRootSignature_ok_frame {env : Env} (hf : NoFailure env) (s : DemoBlob) :
    (CreateRootSignature env s).1 = .ok () ∧ (CreateRootSignature env s).2.swapChainBuffers_ = s.swapChainBuffers_ := by
  simp only [CreateRootSignature, callHr, callCreate, callCreateResource, call, get, modify, bind_run,
    pure_run, ThrowIfFailed_run, not_failed hf, succeeded hf, if_false, if_true, and_self]

theorem CreatePipelineState_ok_frame {env : Env} (hf : NoFailure env) (s : DemoBlob) :
    (CreatePipelineState env s).1 = .ok () ∧ (CreatePipelineState env s).2.swapChainBuffers_ = s.swapChainBuffers_ := by
  simp only [CreatePipelineState, callHr, callCreate, callCreateResource, call, get, modify, bind_run,
    pure_run, ThrowIfFailed_run, not_failed hf, succeeded hf, if_false, if_true, and_self]

theorem CreateConstantBuffer_ok_frame {env : Env} (hf : NoFailure env) (s : DemoBlob) :
    (CreateConstantBuffer env s).1 = .ok () ∧ (CreateConstantBuffer env s).2.swapChainBuffers_ = s.swapChainBuffers_ := by
  simp only [CreateConstantBuffer, callHr, callCreate, callCreateResource, call, get, modify, bind_run,
    pure_run, ThrowIfFailed_run, not_failed hf, succeeded hf, if_false, if_true, and_self]

theorem CreateCommandList_ok_frame {env : Env} (hf : NoFailure env) (s : DemoBlob) :
    (CreateCommandList env s).1 = .ok () ∧ (CreateCommandList env s).2.swapChainBuffers_ = s.swapChainBuffers_ := by
  simp only [CreateCommandList, callHr, callCreate, callCreateResource, call, get, modify, bind_run,
    pure_run, ThrowIfFailed_run, not_failed hf, succeeded hf, if_false, if_true, and_self]

theorem CreateVectorFieldRootSignature_ok_frame {env : Env} (hf : NoFailure env) (s : DemoBlob) :
    (CreateVectorFieldRootSignature env s).1 = .ok () ∧ (CreateVectorFieldRootSignature env s).2.swapChainBuffers_ = s.swapChainBuffers_ := by
  simp only [CreateVectorFieldRootSignature, callHr, callCreate, callCreateResource, call, get, modify, bind_run,
    pure_run, ThrowIfFailed_run, not_failed hf, succeeded hf, if_false, if_true, and_self]

theorem CreateInfrastructure_ok_frame {env : Env} (hf : NoFailure env) (s : DemoBlob) :
    (CreateInfrastructure env s).1 = .ok () ∧
      (CreateInfrastructure env s).2.swapChainBuffers_ = s.swapChainBuffers_ := by
  by_cases hn : env.ndebug = true <;>
    simp only [CreateInfrastructure, callHr, callCreate, callCreateResource, call, get, modify,
      bind_run, pure_run, ThrowIfFailed_run, not_failed hf, succeeded hf, if_false, if_true,
      and_self, hn, Bool.false_eq_true]

theorem CreateVectorFieldBuffers_ok_frame {env : Env} (hf : NoFailure env) (s : DemoBlob) :
    (CreateVectorFieldBuffers env s).1 = .ok () ∧
      (CreateVectorFieldBuffers env s).2.swapChainBuffers_ = s.swapChainBuffers_ := by
  simp only [CreateVectorFieldBuffers, forLoop, callHr, callCreate, callCreateResource, call, get,
    modify, bind_run, pure_run, ThrowIfFailed_run, not_failed hf, succeeded hf, if_false,
    if_true, and_self]

/-- With no failing call `CreateVertexBuffer` is: eleven calls that leave the state `sm`, the
flush from `sm`, and the release of the three local pointers. -/
theorem CreateVertexBuffer_run {env : Env} (hf : NoFailure env) (s sm : DemoBlob)
    (h : sm =
      { s with
        vertexBuffer_ := some (.committed s.now)
        vertexBufferView_ := (some (.committed s.now), sizeofVertex, 128)
        now := s.now + 11
        trace := s.trace ++
          [ .CreateCommittedResource .DEFAULT 128 .COPY_DEST,
            .CreateCommittedResource .UPLOAD 128 .GENERIC_READ,
            .Map (some (.committed (s.now + 1))),
            .memcpyVertices (some (.committed (s.now + 1))) quadVertices 128,
            .Unmap (some (.committed (s.now + 1))),
            .CreateCommandAllocator,
            .CreateCommandList (some (s.now + 5)) none,
            .Record (some (s.now + 6))
              (.CopyBufferRegion (some (.committed s.now)) 0 (some (.committed (s.now + 1))) 0 128),
            .Record (some (s.now + 6))
              (.Transition (some (.committed s.now)) .COPY_DEST .VERTEX_AND_CONSTANT_BUFFER),
            .CloseCommandList (some (s.now + 6)),
            .ExecuteCommandLists
              [⟨some (s.now + 6),
                [ .CopyBufferRegion (some (.committed s.now)) 0 (some (.committed (s.now + 1))) 0
                    128,
                  .Transition (some (.committed s.now)) .COPY_DEST
                    .VERTEX_AND_CONSTANT_BUFFER ]⟩] ] }) :
    CreateVertexBuffer env s =
      (.ok (),
        { (FlushCommandQueue env sm).2 with
          now := (FlushCommandQueue env sm).2.now + 3
          trace := (FlushCommandQueue env sm).2.trace ++
            [ .ReleaseLocal "copyCommandList", .ReleaseLocal "copyCommandAllocator",
              .ReleaseLocal "vertexBufferUpload" ] }) := by
  subst h
  have hsz : quadVertices.length * sizeofVertex = 128 := by decide
  simp only [CreateVertexBuffer, record, callHr, callCreate, callCreateResource, call, get,
    modify, bind_run, pure_run, ThrowIfFailed_run, not_failed hf, succeeded hf, if_false,
    if_true, Nat.add_assoc, Nat.reduceAdd, List.append_assoc, List.singleton_append,
    List.cons_append, List.nil_append, hsz]
  rw [FlushCommandQueue_run_ok hf]

theorem CreateVertexBuffer_summary {env : Env} (hf : NoFailure env) (s : DemoBlob) :
    ∃ sm : DemoBlob,
      sm.trace = s.trace ++
        [ .CreateCommittedResource .DEFAULT 128 .COPY_DEST,
          .CreateCommittedResource .UPLOAD 128 .GENERIC_READ,
          .Map (some (.committed (s.now + 1))),
          .memcpyVertices (some (.committed (s.now + 1))) quadVertices 128,
          .Unmap (some (.committed (s.now + 1))),
          .CreateCommandAllocator,
          .CreateCommandList (some (s.now + 5)) none,
          .Record (some (s.now + 6))
            (.CopyBufferRegion (some (.committed s.now)) 0 (some (.committed (s.now + 1))) 0 128),
          .Record (some (s.now + 6))
            (.Transition (some (.committed s.now)) .COPY_DEST .VERTEX_AND_CONSTANT_BUFFER),
          .CloseCommandList (some (s.now + 6)),
          .ExecuteCommandLists
            [⟨some (s.now + 6),
              [ .CopyBufferRegion (some (.committed s.now)) 0 (some (.committed (s.now + 1))) 0
                  128,
                .Transition (some (.committed s.now)) .COPY_DEST
                  .VERTEX_AND_CONSTANT_BUFFER ]⟩] ] ∧
      CreateVertexBuffer env s =
        (.ok (),
          { (FlushCommandQueue env sm).2 with
            now := (FlushCommandQueue env sm).2.now + 3
            trace := (FlushCommandQueue env sm).2.trace ++
              [ .ReleaseLocal "copyCommandList", .ReleaseLocal "copyCommandAllocator",
                .ReleaseLocal "vertexBufferUpload" ] }) := by
  refine ⟨_, ?_, CreateVertexBuffer_run hf s _ rfl⟩
  rfl

theorem CreateVertexBuffer_ok_frame {env : Env} (hf : NoFailure env) (s : DemoBlob) :
    (CreateVertexBuffer env s).1 = .ok () ∧
      (CreateVertexBuffer env s).2.swapChainBuffers_ = s.swapChainBuffers_ := by
  rw [CreateVertexBuffer_run hf s _ rfl]
  exact ⟨rfl, (FlushCommandQueue_frame env _).1⟩

theorem OnInit_ok_frame {env : Env} (hf : NoFailure env) (s : DemoBlob) :
    (OnInit env s).1 = .ok () ∧ (OnInit env s).2.swapChainBuffers_ = s.swapChainBuffers_ := by
  unfold OnInit CreateVectorFieldPipelineState
  rw [bind_ok _ _ _ () (CreateInfrastructure_ok_frame hf _).1,
    bind_ok _ _ _ () (CreateFence_ok_frame hf _).1,
    bind_ok _ _ _ () (CreateRenderTargetDescriptorHeap_ok_frame hf _).1,
    bind_ok _ _ _ () (CreateConstantBufferDescriptorHeap_ok_frame hf _).1,
    bind_ok _ _ _ () (CreateRootSignature_ok_frame hf _).1,
    bind_ok _ _ _ () (CreatePipelineState_ok_frame hf _).1,
    bind_ok _ _ _ () (CreateConstantBuffer_ok_frame hf _).1,
    bind_ok _ _ _ () (CreateVertexBuffer_ok_frame hf _).1,
    bind_ok _ _ _ () (CreateCommandList_ok_frame hf _).1,
    bind_ok _ _ _ () (CreateVectorFieldBuffers_ok_frame hf _).1,
    bind_ok _ _ _ () (CreateVectorFieldRootSignature_ok_frame hf _).1, pure_run]
  refine ⟨rfl, ?_⟩
  simp only [(CreateInfrastructure_ok_frame hf _).2, (CreateFence_ok_frame hf _).2,
    (CreateRenderTargetDescriptorHeap_ok_frame hf _).2,
    (CreateConstantBufferDescriptorHeap_ok_frame hf _).2, (CreateRootSignature_ok_frame hf _).2,
    (CreatePipelineState_ok_frame hf _).2, (CreateConstantBuffer_ok_frame hf _).2,
    (CreateVertexBuffer_ok_frame hf _).2, (CreateCommandList_ok_frame hf _).2,
    (CreateVectorFieldBuffers_ok_frame hf _).2, (CreateVectorFieldRootSignature_ok_frame hf _).2]

theorem heldCount_congr (s s' : DemoBlob) (h : s'.swapChainBuffers_ = s.swapChainBuffers_) :
    heldCount s' = heldCount s := by
  unfold heldCount
  rw [h]

theorem runEvents_cons_ok (env : Env) (e : Event) (es : List Event) (s : DemoBlob)
    (h : (e.run env s).1 = .ok ()) :
    runEvents env (e :: es) s = runEvents env es (e.run env s).2 := by
  show (e.run env >>= fun _ => runEvents env es) s = _
  rw [bind_ok _ _ s () h]

theorem runEvents_append_ok (env : Env) (pre post : List Event) (s : DemoBlob)
    (h : (runEvents env pre s).1 = .ok ()) :
    runEvents env (pre ++ post) s = runEvents env post (runEvents env pre s).2 := by
  induction pre generalizing s with
  | nil => rfl
  | cons e es ih =>
    have he : (e.run env s).1 = .ok () := by
      rcases hr : e.run env s with ⟨x | _, s'⟩
      · have : runEvents env (e :: es) s = (.error x, s') := by
          show (e.run env >>= fun _ => runEvents env es) s = _
          rw [bind_run, hr]
        rw [this] at h
        cases h
      · rfl
    rw [List.cons_append, runEvents_cons_ok env e _ s he, runEvents_cons_ok env e _ s he]
    rw [runEvents_cons_ok env e _ s he] at h
    exact ih _ h

/-- A frame event returns when no call fails, and leaves the buffer manager ready if it was
ready. -/
theorem frame_run_ok {env : Env} (hf : NoFailure env) (e : Event) (he : e.isFrame = true)
    (s : DemoBlob) :
    (e.run env s).1 = .ok () ∧ (Ready s → Ready (e.run env s).2) := by
  cases e with
  | Update =>
    refine ⟨OnUpdate_ok hf s, fun h => ?_⟩
    unfold Ready at h ⊢
    rw [← h]
    exact heldCount_congr _ _ (OnUpdate_swapChainBuffers hf s)
  | Resize width height =>
    exact ⟨OnResize_ok hf _ _ s, fun _ => OnResize_heldCount hf _ _ s⟩
  | MouseDrag x y b => cases he
  | Upload => cases he
  | Quit => cases he

theorem frames_run_ok {env : Env} (hf : NoFailure env) (es : List Event)
    (hes : ∀ e ∈ es, e.isFrame = true) (s : DemoBlob) :
    (runEvents env es s).1 = .ok () ∧ (Ready s → Ready (runEvents env es s).2) := by
  induction es generalizing s with
  | nil => exact ⟨rfl, fun h => h⟩
  | cons e es ih =>
    obtain ⟨h1, h2⟩ := frame_run_ok hf e (hes e (List.mem_cons_self _ _)) s
    rw [runEvents_cons_ok env e es s h1]
    obtain ⟨h3, h4⟩ := ih (fun e' he' => hes e' (List.mem_cons_of_mem _ he')) (e.run env s).2
    exact ⟨h3, fun h => h4 (h2 h)⟩

theorem signalled_filter (cs : List Call) :
    signalled (cs.filter Call.isFrameStep) = signalled cs := by
  induction cs with
  | nil => rfl
  | cons c cs ih => cases c <;> simp [List.filter, Call.isFrameStep, signalled, ih]

theorem FlushCommandQueue_signalled {env : Env} (hf : NoFailure env) (s : DemoBlob) :
    signalled (emitted (FlushCommandQueue env) s) = [s.fenceValue_] := by
  rw [FlushCommandQueue_emitted_ok hf]
  split_ifs <;> rfl

theorem OnMouseDrag_run (x y : Int) (buttonType : Nat) (s : DemoBlob) (data : SceneConstantBuffer)
    (h : data =
      ⟨(.div (.ofInt x) (.ofInt s.state_.ViewportWidth),
        .div (.ofInt y) (.ofInt s.state_.ViewportHeight)), s.constantBufferData_.aspect⟩) :
    OnMouseDrag x y buttonType s =
      (.ok (),
        { s with
          constantBufferData_ := data
          cbvData := some data
          now := s.now + 1
          trace := s.trace ++ [.memcpyConstants data sizeofSceneConstantBuffer] }) := by
  subst h
  simp only [OnMouseDrag, call, get, modify, bind_run, pure_run]

theorem OnQuit_run {env : Env} (hf : NoFailure env) (s : DemoBlob) :
    OnQuit env s =
      (.ok (),
        { (FlushCommandQueue env s).2 with
          now := (FlushCommandQueue env s).2.now + 2
          trace := (FlushCommandQueue env s).2.trace ++
            [.Unmap (FlushCommandQueue env s).2.constantBuffer_, .CloseHandle] }) := by
  unfold OnQuit
  rw [bind_ok _ _ s () (FlushCommandQueue_ok hf s)]
  simp only [call, get, bind_run, pure_run, Nat.add_assoc, Nat.reduceAdd, List.append_assoc,
    List.singleton_append]

/-- One event when no call fails: it returns; if it flushes, the counter is incremented and
the counter found is signalled once; if it does not, the counter and the signals are as
before. -/
theorem event_step {env : Env} (hf : NoFailure env) (e : Event) (s : DemoBlob) :
    (e.run env s).1 = .ok () ∧
      (e.run env s).2.fenceValue_ =
        (if e.flushes then incrUINT64 s.fenceValue_ else s.fenceValue_) ∧
      signalled (e.run env s).2.trace =
        signalled s.trace ++ (if e.flushes then [s.fenceValue_] else []) := by
  cases e with
  | Update =>
    obtain ⟨pre, list, sm, ht, hpre, hsm⟩ := OnUpdate_trace hf s
    refine ⟨OnUpdate_ok hf s, OnUpdate_fenceValue hf s, ?_⟩
    show signalled (OnUpdate env s).2.trace = _
    have hp : signalled pre = [] := by rw [← signalled_filter, hpre]; rfl
    rw [ht]
    simp only [signalled_append, signalled, hp, FlushCommandQueue_signalled hf, hsm,
      List.nil_append, Event.flushes, if_true]
  | Resize width height =>
    show (OnResize env width height s).1 = _ ∧ (OnResize env width height s).2.fenceValue_ = _ ∧
      signalled (OnResize env width height s).2.trace = _
    rw [OnResize_run_ok hf]
    refine ⟨rfl, FlushCommandQueue_fenceValue hf s, ?_⟩
    simp only [FlushCommandQueue_trace hf, signalled_append, signalled,
      FlushCommandQueue_signalled hf, List.append_nil, Event.flushes, if_true]
  | MouseDrag x y b =>
    show (OnMouseDrag x y b s).1 = _ ∧ (OnMouseDrag x y b s).2.fenceValue_ = _ ∧
      signalled (OnMouseDrag x y b s).2.trace = _
    rw [OnMouseDrag_run x y b s _ rfl]
    refine ⟨rfl, rfl, ?_⟩
    simp [signalled_append, signalled, Event.flushes]
  | Upload =>
    show (CreateVertexBuffer env s).1 = _ ∧ (CreateVertexBuffer env s).2.fenceValue_ = _ ∧
      signalled (CreateVertexBuffer env s).2.trace = _
    rw [CreateVertexBuffer_run hf s _ rfl]
    refine ⟨rfl, FlushCommandQueue_fenceValue hf _, ?_⟩
    simp only [FlushCommandQueue_trace hf, signalled_append, signalled,
      FlushCommandQueue_signalled hf, List.append_nil, Event.flushes, if_true]
  | Quit =>
    show (OnQuit env s).1 = _ ∧ (OnQuit env s).2.fenceValue_ = _ ∧
      signalled (OnQuit env s).2.trace = _
    rw [OnQuit_run hf]
    refine ⟨rfl, FlushCommandQueue_fenceValue hf s, ?_⟩
    simp only [FlushCommandQueue_trace hf, signalled_append, signalled,
      FlushCommandQueue_signalled hf, List.append_nil, Event.flushes, if_true]

theorem runEvents_ok {env : Env} (hf : NoFailure env) (es : List Event) (s : DemoBlob) :
    (runEvents env es s).1 = .ok () := by
  induction es generalizing s with
  | nil => rfl
  | cons e es ih =>
    rw [runEvents_cons_ok env e es s (event_step hf e s).1]
    exact ih _

theorem runEvents_snoc {env : Env} (hf : NoFailure env) (pre : List Event) (e : Event)
    (s : DemoBlob) :
    (runEvents env (pre ++ [e]) s).2 = (e.run env (runEvents env pre s).2).2 := by
  rw [runEvents_append_ok env pre [e] s (runEvents_ok hf pre s),
    runEvents_cons_ok env e [] _ (event_step hf e _).1]
  rfl

theorem incrUINT64_of_lt (v : Nat) (h : v < 2 ^ 64 - 1) : incrUINT64 v = v + 1 := by
  unfold incrUINT64
  exact Nat.mod_eq_of_lt (by omega)

theorem incrUINT64_le (v : Nat) : incrUINT64 v ≤ v + 1 := by
  unfold incrUINT64
  exact Nat.mod_le _ _

/-- The counter grows by at most one per event. -/
theorem runEvents_fenceValue_le {env : Env} (hf : NoFailure env) (es : List Event)
    (s : DemoBlob) : (runEvents env es s).2.fenceValue_ ≤ s.fenceValue_ + es.length := by
  induction es generalizing s with
  | nil => exact Nat.le_refl _
  | cons e es ih =>
    obtain ⟨hok, hfv, -⟩ := event_step hf e s
    rw [runEvents_cons_ok env e es s hok]
    have h1 := ih (e.run env s).2
    have h2 : (e.run env s).2.fenceValue_ ≤ s.fenceValue_ + 1 := by
      rw [hfv]
      split_ifs
      · exact incrUINT64_le _
      · omega
    simp only [List.length_cons]
    omega

/-- The counter is one more than the number of signals issued, and the signals issued are
1, 2, 3, ... in this order, as long as the counter stays below `2 ^ 64 - 1`. -/
theorem runEvents_counter {env : Env} (hf : NoFailure env) (es : List Event) (s : DemoBlob)
    (n : Nat) (hv : s.fenceValue_ = 1 + n) (hsig : signalled s.trace = List.range' 1 n)
    (hbound : ∀ pre, pre <+: es → (runEvents env pre s).2.fenceValue_ < 2 ^ 64 - 1) :
    ∃ m, (runEvents env es s).2.fenceValue_ = 1 + m ∧
      signalled (runEvents env es s).2.trace = List.range' 1 m := by
  induction es generalizing s n with
  | nil => exact ⟨n, hv, hsig⟩
  | cons e es ih =>
    obtain ⟨hok, hfv, htr⟩ := event_step hf e s
    have hlt : s.fenceValue_ < 2 ^ 64 - 1 := hbound [] (List.nil_prefix)
    rw [runEvents_cons_ok env e es s hok]
    have hb' : ∀ pre, pre <+: es →
        (runEvents env pre (e.run env s).2).2.fenceValue_ < 2 ^ 64 - 1 := by
      intro pre hpre
      have := hbound (e :: pre) ((List.prefix_cons_inj e).mpr hpre)
      rwa [runEvents_cons_ok env e pre s hok] at this
    by_cases hfl : e.flushes = true
    · rw [hfl] at hfv htr
      simp only [if_true] at hfv htr
      rw [incrUINT64_of_lt _ hlt] at hfv
      refine ih (e.run env s).2 (n + 1) (by omega) ?_ hb'
      rw [htr, hsig, hv, List.range'_concat 1 n]
      simp [Nat.add_comm]
    · simp only [hfl, if_false, Bool.false_eq_true, List.append_nil] at hfv htr
      exact ih (e.run env s).2 n (by omega) (by rw [htr, hsig]) hb'

theorem CreateFence_run {env : Env} (hf : NoFailure env) (s : DemoBlob) :
    CreateFence env s =
      (.ok (),
        { s with
          fence_ := some s.now
          fenceValue_ := 1
          fenceEventHandle_ := some (s.now + 1)
          now := s.now + 2
          trace := s.trace ++ [.CreateFence 0, .CreateEventW] }) := by
  simp only [CreateFence, callCreate, call, get, modify, bind_run, pure_run, ThrowIfFailed_run,
    not_failed hf, succeeded hf, if_false, if_true, Nat.add_assoc, Nat.reduceAdd,
    List.append_assoc, List.singleton_append]
  rfl

/-- The bound of the run `demoEvents`: the counter stays far below `2 ^ 64 - 1`. -/
theorem demoEvents_bound (pre : List Event) (hpre : pre <+: demoEvents) :
    (runEvents gpuEnv pre (CreateFence gpuEnv readySketch).2).2.fenceValue_ < 2 ^ 64 - 1 := by
  have h1 := runEvents_fenceValue_le noFailure_gpuEnv pre (CreateFence gpuEnv readySketch).2
  have h2 : (CreateFence gpuEnv readySketch).2.fenceValue_ = 1 := by
    rw [CreateFence_run noFailure_gpuEnv]
  have h3 : pre.length ≤ demoEvents.length := hpre.length_le
  have h4 : demoEvents.length = 6 := rfl
  omega

/-- The member function `PresentAndSwapBuffers`, whatever `Present` answers: one `Present`,
and an exception when it answers a failure code. -/
theorem PresentAndSwapBuffers_run_of (env : Env) (s : DemoBlob) :
    PresentAndSwapBuffers env s =
      (if env.hr s.now < 0 then .error (HrException.new (env.hr s.now) "Present") else .ok (),
        { s with
          now := s.now + 1
          trace := s.trace ++
            [.Present (if s.config_.Vsync then 1 else 0)
              (if s.config_.Vsync then 0
                else if s.feature_.Tearing then DXGI_PRESENT_ALLOW_TEARING else 0)] }) := by
  unfold PresentAndSwapBuffers
  by_cases hv : s.config_.Vsync = true <;> by_cases h : env.hr s.now < 0 <;>
    simp only [callHr, call, get, bind_run, pure_run, ThrowIfFailed_run, hv, h,
      if_false, if_true, Bool.false_eq_true]

theorem call_bind {β : Type} (c : Call) (f : Nat → Sketch β) (s : DemoBlob) :
    (call c >>= f) s = f s.now { s with now := s.now + 1, trace := s.trace ++ [c] } := rfl

theorem callHr_bind {β : Type} (env : Env) (c : Call) (f : HRESULT → Sketch β) (s : DemoBlob) :
    (callHr env c >>= f) s =
      f (env.hr s.now) { s with now := s.now + 1, trace := s.trace ++ [c] } := rfl

theorem callCreate_bind {β : Type} (env : Env) (c : Call)
    (f : HRESULT × Option Handle → Sketch β) (s : DemoBlob) :
    (callCreate env c >>= f) s =
      f (env.hr s.now, if SUCCEEDED (env.hr s.now) then some s.now else none)
        { s with now := s.now + 1, trace := s.trace ++ [c] } := rfl

theorem callCreateResource_bind {β : Type} (env : Env) (c : Call)
    (f : HRESULT × Option Resource → Sketch β) (s : DemoBlob) :
    (callCreateResource env c >>= f) s =
      f (env.hr s.now, if SUCCEEDED (env.hr s.now) then some (.committed s.now) else none)
        { s with now := s.now + 1, trace := s.trace ++ [c] } := rfl

theorem modify_bind {β : Type} (g : DemoBlob → DemoBlob) (f : Unit → Sketch β) (s : DemoBlob) :
    (modify g >>= f) s = f () (g s) := rfl

theorem get_bind {β : Type} (f : DemoBlob → Sketch β) (s : DemoBlob) :
    (get >>= f) s = f s s := rfl

theorem pure_bind_run {α β : Type} (a : α) (f : α → Sketch β) (s : DemoBlob) :
    (Pure.pure a >>= f) s = f a s := rfl

theorem throw_bind {β : Type} (hr : HRESULT) (context : String) (f : Unit → Sketch β)
    (s : DemoBlob) :
    (ThrowIfFailed hr context >>= f) s =
      if hr < 0 then (.error (HrException.new hr context), s) else f () s := by
  rw [bind_run, ThrowIfFailed_run]
  split_ifs <;> rfl

/-- The tick at which `CreateInfrastructure`, started at tick `s.now`, asks whether tearing is
supported: five calls come before it, and in a debug build the calls for the debug layer. -/
theorem CreateInfrastructure_tearing (env : Env) (s : DemoBlob)
    (hret : (CreateInfrastructure env s).1 = .ok ()) :
    (CreateInfrastructure env s).2.feature_.Tearing =
      env.allowTearing
        (s.now + 5 + (if env.ndebug then 0 else if SUCCEEDED (env.hr s.now) then 3 else 1)) := by
  by_cases hn : env.ndebug = true
  · by_cases h0 : env.hr (s.now) < 0
    · simp only [CreateInfrastructure, call_bind, callHr_bind, callCreate_bind, modify_bind, get_bind,
        pure_bind_run, throw_bind, bind_assoc_run, call, Nat.add_assoc, Nat.reduceAdd, if_true, if_false,
        Bool.false_eq_true,
          hn, h0] at hret
      cases hret
    · by_cases h1 : env.hr (s.now + 1) < 0
      · simp only [CreateInfrastructure, call_bind, callHr_bind, callCreate_bind, modify_bind, get_bind,
          pure_bind_run, throw_bind, bind_assoc_run, call, Nat.add_assoc, Nat.reduceAdd, if_true, if_false,
          Bool.false_eq_true,
            hn, h0, h1] at hret
        cases hret
      · by_cases h2 : env.hr (s.now + 2) < 0
        · simp only [CreateInfrastructure, call_bind, callHr_bind, callCreate_bind, modify_bind, get_bind,
            pure_bind_run, throw_bind, bind_assoc_run, call, Nat.add_assoc, Nat.reduceAdd, if_true, if_false,
            Bool.false_eq_true,
              hn, h0, h1, h2] at hret
          cases hret
        · by_cases h3 : env.hr (s.now + 3) < 0
          · simp only [CreateInfrastructure, call_bind, callHr_bind, callCreate_bind, modify_bind, get_bind,
              pure_bind_run, throw_bind, bind_assoc_run, call, Nat.add_assoc, Nat.reduceAdd, if_true, if_false,
              Bool.false_eq_true,
                hn, h0, h1, h2, h3] at hret
            cases hret
          · by_cases h4 : env.hr (s.now + 4) < 0
            · simp only [CreateInfrastructure, call_bind, callHr_bind, callCreate_bind, modify_bind, get_bind,
                pure_bind_run, throw_bind, bind_assoc_run, call, Nat.add_assoc, Nat.reduceAdd, if_true, if_false,
                Bool.false_eq_true,
                  hn, h0, h1, h2, h3, h4] at hret
              cases hret
            · by_cases h5 : env.hr (s.now + 5) < 0
              · simp only [CreateInfrastructure, call_bind, callHr_bind, callCreate_bind, modify_bind, get_bind,
                  pure_bind_run, throw_bind, bind_assoc_run, call, Nat.add_assoc, Nat.reduceAdd, if_true, if_false,
                  Bool.false_eq_true,
                    hn, h0, h1, h2, h3, h4, h5] at hret
                cases hret
              · by_cases h6 : env.hr (s.now + 6) < 0
                · simp only [CreateInfrastructure, call_bind, callHr_bind, callCreate_bind, modify_bind, get_bind,
                    pure_bind_run, throw_bind, bind_assoc_run, call, Nat.add_assoc, Nat.reduceAdd, if_true, if_false,
                    Bool.false_eq_true,
                      hn, h0, h1, h2, h3, h4, h5, h6] at hret
                  cases hret
                · by_cases h7 : env.hr (s.now + 7) < 0
                  · simp only [CreateInfrastructure, call_bind, callHr_bind, callCreate_bind, modify_bind, get_bind,
                      pure_bind_run, throw_bind, bind_assoc_run, call, Nat.add_assoc, Nat.reduceAdd, if_true, if_false,
                      Bool.false_eq_true,
                        hn, h0, h1, h2, h3, h4, h5, h6, h7] at hret
                    cases hret
                  · by_cases h8 : env.hr (s.now + 8) < 0
                    · simp only [CreateInfrastructure, call_bind, callHr_bind, callCreate_bind, modify_bind, get_bind,
                        pure_bind_run, throw_bind, bind_assoc_run, call, Nat.add_assoc, Nat.reduceAdd, if_true, if_false,
                        Bool.false_eq_true,
                          hn, h0, h1, h2, h3, h4, h5, h6, h7, h8] at hret
                      cases hret
                    · simp only [CreateInfrastructure, call_bind, callHr_bind, callCreate_bind, modify_bind, get_bind,
                        pure_bind_run, throw_bind, bind_assoc_run, call, Nat.add_assoc, Nat.reduceAdd, if_true, if_false,
                        Bool.false_eq_true,
                          hn, h0, h1, h2, h3, h4, h5, h6, h7, h8]
                      rfl
  · by_cases hd : SUCCEEDED (env.hr s.now) = true
    · by_cases h0 : env.hr (s.now + 3) < 0
      · simp only [CreateInfrastructure, call_bind, callHr_bind, callCreate_bind, modify_bind, get_bind,
          pure_bind_run, throw_bind, bind_assoc_run, call, Nat.add_assoc, Nat.reduceAdd, if_true, if_false,
          Bool.false_eq_true,
            hn, hd, h0] at hret
        cases hret
      · by_cases h1 : env.hr (s.now + 4) < 0
        · simp only [CreateInfrastructure, call_bind, callHr_bind, callCreate_bind, modify_bind, get_bind,
            pure_bind_run, throw_bind, bind_assoc_run, call, Nat.add_assoc, Nat.reduceAdd, if_true, if_false,
            Bool.false_eq_true,
              hn, hd, h0, h1] at hret
          cases hret
        · by_cases h2 : env.hr (s.now + 5) < 0
          · simp only [CreateInfrastructure, call_bind, callHr_bind, callCreate_bind, modify_bind, get_bind,
              pure_bind_run, throw_bind, bind_assoc_run, call, Nat.add_assoc, Nat.reduceAdd, if_true, if_false,
              Bool.false_eq_true,
                hn, hd, h0, h1, h2] at hret
            cases hret
          · by_cases h3 : env.hr (s.now + 6) < 0
            · simp only [CreateInfrastructure, call_bind, callHr_bind, callCreate_bind, modify_bind, get_bind,
                pure_bind_run, throw_bind, bind_assoc_run, call, Nat.add_assoc, Nat.reduceAdd, if_true, if_false,
                Bool.false_eq_true,
                  hn, hd, h0, h1, h2, h3] at hret
              cases hret
            · by_cases h4 : env.hr (s.now + 7) < 0
              · simp only [CreateInfrastructure, call_bind, callHr_bind, callCreate_bind, modify_bind, get_bind,
                  pure_bind_run, throw_bind, bind_assoc_run, call, Nat.add_assoc, Nat.reduceAdd, if_true, if_false,
                  Bool.false_eq_true,
                    hn, hd, h0, h1, h2, h3, h4] at hret
                cases hret
              · by_cases h5 : env.hr (s.now + 8) < 0
                · simp only [CreateInfrastructure, call_bind, callHr_bind, callCreate_bind, modify_bind, get_bind,
                    pure_bind_run, throw_bind, bind_assoc_run, call, Nat.add_assoc, Nat.reduceAdd, if_true, if_false,
                    Bool.false_eq_true,
                      hn, hd, h0, h1, h2, h3, h4, h5] at hret
                  cases hret
                · by_cases h6 : env.hr (s.now + 9) < 0
                  · simp only [CreateInfrastructure, call_bind, callHr_bind, callCreate_bind, modify_bind, get_bind,
                      pure_bind_run, throw_bind, bind_assoc_run, call, Nat.add_assoc, Nat.reduceAdd, if_true, if_false,
                      Bool.false_eq_true,
                        hn, hd, h0, h1, h2, h3, h4, h5, h6] at hret
                    cases hret
                  · by_cases h7 : env.hr (s.now + 10) < 0
                    · simp only [CreateInfrastructure, call_bind, callHr_bind, callCreate_bind, modify_bind, get_bind,
                        pure_bind_run, throw_bind, bind_assoc_run, call, Nat.add_assoc, Nat.reduceAdd, if_true, if_false,
                        Bool.false_eq_true,
                          hn, hd, h0, h1, h2, h3, h4, h5, h6, h7] at hret
                      cases hret
                    · by_cases h8 : env.hr (s.now + 11) < 0
                      · simp only [CreateInfrastructure, call_bind, callHr_bind, callCreate_bind, modify_bind, get_bind,
                          pure_bind_run, throw_bind, bind_assoc_run, call, Nat.add_assoc, Nat.reduceAdd, if_true, if_false,
                          Bool.false_eq_true,
                            hn, hd, h0, h1, h2, h3, h4, h5, h6, h7, h8] at hret
                        cases hret
                      · simp only [CreateInfrastructure, call_bind, callHr_bind, callCreate_bind, modify_bind, get_bind,
                          pure_bind_run, throw_bind, bind_assoc_run, call, Nat.add_assoc, Nat.reduceAdd, if_true, if_false,
                          Bool.false_eq_true,
                            hn, hd, h0, h1, h2, h3, h4, h5, h6, h7, h8]
                        rfl
    · by_cases h0 : env.hr (s.now + 1) < 0
      · simp only [CreateInfrastructure, call_bind, callHr_bind, callCreate_bind, modify_bind, get_bind,
          pure_bind_run, throw_bind, bind_assoc_run, call, Nat.add_assoc, Nat.reduceAdd, if_true, if_false,
          Bool.false_eq_true,
            hn, hd, h0] at hret
        cases hret
      · by_cases h1 : env.hr (s.now + 2) < 0
        · simp only [CreateInfrastructure, call_bind, callHr_bind, callCreate_bind, modify_bind, get_bind,
            pure_bind_run, throw_bind, bind_assoc_run, call, Nat.add_assoc, Nat.reduceAdd, if_true, if_false,
            Bool.false_eq_true,
              hn, hd, h0, h1] at hret
          cases hret
        · by_cases h2 : env.hr (s.now + 3) < 0
          · simp only [CreateInfrastructure, call_bind, callHr_bind, callCreate_bind, modify_bind, get_bind,
              pure_bind_run, throw_bind, bind_assoc_run, call, Nat.add_assoc, Nat.reduceAdd, if_true, if_false,
              Bool.false_eq_true,
                hn, hd, h0, h1, h2] at hret
            cases hret
          · by_cases h3 : env.hr (s.now + 4) < 0
            · simp only [CreateInfrastructure, call_bind, callHr_bind, callCreate_bind, modify_bind, get_bind,
                pure_bind_run, throw_bind, bind_assoc_run, call, Nat.add_assoc, Nat.reduceAdd, if_true, if_false,
                Bool.false_eq_true,
                  hn, hd, h0, h1, h2, h3] at hret
              cases hret
            · by_cases h4 : env.hr (s.now + 5) < 0
              · simp only [CreateInfrastructure, call_bind, callHr_bind, callCreate_bind, modify_bind, get_bind,
                  pure_bind_run, throw_bind, bind_assoc_run, call, Nat.add_assoc, Nat.reduceAdd, if_true, if_false,
                  Bool.false_eq_true,
                    hn, hd, h0, h1, h2, h3, h4] at hret
                cases hret
              · by_cases h5 : env.hr (s.now + 6) < 0
                · simp only [CreateInfrastructure, call_bind, callHr_bind, callCreate_bind, modify_bind, get_bind,
                    pure_bind_run, throw_bind, bind_assoc_run, call, Nat.add_assoc, Nat.reduceAdd, if_true, if_false,
                    Bool.false_eq_true,
                      hn, hd, h0, h1, h2, h3, h4, h5] at hret
                  cases hret
                · by_cases h6 : env.hr (s.now + 7) < 0
                  · simp only [CreateInfrastructure, call_bind, callHr_bind, callCreate_bind, modify_bind, get_bind,
                      pure_bind_run, throw_bind, bind_assoc_run, call, Nat.add_assoc, Nat.reduceAdd, if_true, if_false,
                      Bool.false_eq_true,
                        hn, hd, h0, h1, h2, h3, h4, h5, h6] at hret
                    cases hret
                  · by_cases h7 : env.hr (s.now + 8) < 0
                    · simp only [CreateInfrastructure, call_bind, callHr_bind, callCreate_bind, modify_bind, get_bind,
                        pure_bind_run, throw_bind, bind_assoc_run, call, Nat.add_assoc, Nat.reduceAdd, if_true, if_false,
                        Bool.false_eq_true,
                          hn, hd, h0, h1, h2, h3, h4, h5, h6, h7] at hret
                      cases hret
                    · by_cases h8 : env.hr (s.now + 9) < 0
                      · simp only [CreateInfrastructure, call_bind, callHr_bind, callCreate_bind, modify_bind, get_bind,
                          pure_bind_run, throw_bind, bind_assoc_run, call, Nat.add_assoc, Nat.reduceAdd, if_true, if_false,
                          Bool.false_eq_true,
                            hn, hd, h0, h1, h2, h3, h4, h5, h6, h7, h8] at hret
                        cases hret
                      · simp only [CreateInfrastructure, call_bind, callHr_bind, callCreate_bind, modify_bind, get_bind,
                          pure_bind_run, throw_bind, bind_assoc_run, call, Nat.add_assoc, Nat.reduceAdd, if_true, if_false,
                          Bool.false_eq_true,
                            hn, hd, h0, h1, h2, h3, h4, h5, h6, h7, h8]
                        rfl

/-- The member function `OnQuit` from the state `sf` in which its flush leaves the sketch. -/
theorem OnQuit_run_of (env : Env) (s : DemoBlob) :
    OnQuit env s =
      match FlushCommandQueue env s with
      | (.error e, sf) => (.error e, sf)
      | (.ok _, sf) =>
        (.ok (),
          { sf with
            now := sf.now + 2
            trace := sf.trace ++ [.Unmap sf.constantBuffer_, .CloseHandle] }) := by
  unfold OnQuit
  rw [bind_run]
  rcases FlushCommandQueue env s with ⟨x | _, sf⟩
  · rfl
  · simp only [call, get, bind_run, pure_run, Nat.add_assoc, Nat.reduceAdd, List.append_assoc,
      List.singleton_append]

/-- The flush leaves the member `constantBuffer_` alone and makes none of the calls by which
`OnQuit` gives resources back. -/
theorem FlushCommandQueue_keeps (env : Env) (s : DemoBlob) :
    (FlushCommandQueue env s).2.constantBuffer_ = s.constantBuffer_ ∧
      (FlushCommandQueue env s).2.fenceEventHandle_ = s.fenceEventHandle_ ∧
      ∀ c ∈ emitted (FlushCommandQueue env) s,
        c ≠ .Unmap s.constantBuffer_ ∧ c ≠ .CloseHandle := by
  rw [FlushCommandQueue_emitted, FlushCommandQueue_run]
  split_ifs <;> refine ⟨rfl, rfl, ?_⟩ <;> intro c hc <;> constructor <;> intro h <;>
    subst h <;> simp at hc

/-- What `FlushCommandQueue` signals, whatever the API answers. -/
theorem FlushCommandQueue_signalled_of (env : Env) (s : DemoBlob) :
    signalled (emitted (FlushCommandQueue env) s) = [s.fenceValue_] := by
  rw [FlushCommandQueue_emitted]
  split_ifs <;> rfl

/-! ## Rounding to single precision -/

theorem leadingBit_spec : ∀ (fuel n : Nat), 0 < n → n ≤ fuel →
    2 ^ leadingBit fuel n ≤ n ∧ n < 2 ^ (leadingBit fuel n + 1)
  | 0, n, h0, h => by omega
  | fuel + 1, n, h0, h => by
    unfold leadingBit
    split_ifs with h2
    · obtain ⟨a, b⟩ := leadingBit_spec fuel (n / 2) (by omega) (by omega)
      constructor
      · rw [pow_succ]; omega
      · rw [pow_succ]; omega
    · simp; omega

theorem two_zpow_split (e : Int) :
    (2 : ℚ) ^ e = (2 : ℚ) ^ e.toNat / (2 : ℚ) ^ (-e).toNat := by
  rcases le_total 0 e with h | h
  · lift e to ℕ using h
    simp
  · obtain ⟨n, rfl⟩ : ∃ n : ℕ, e = -(n : Int) := ⟨(-e).toNat, by omega⟩
    simp [zpow_neg]

/-- The test of `floorLog2`, read as a comparison of the ratio with a power of two. -/
theorem scaled_le_iff (num den : Nat) (hd : 0 < den) (k : Int) :
    den * 2 ^ k.toNat ≤ num * 2 ^ (-k).toNat ↔ (2 : ℚ) ^ k ≤ (num : ℚ) / den := by
  have hd' : (0 : ℚ) < den := by exact_mod_cast hd
  have hp : (0 : ℚ) < 2 ^ (-k).toNat := by positivity
  rw [two_zpow_split, div_le_div_iff₀ hp hd']
  have hc : den * 2 ^ k.toNat ≤ num * 2 ^ (-k).toNat ↔
      ((den * 2 ^ k.toNat : Nat) : ℚ) ≤ ((num * 2 ^ (-k).toNat : Nat) : ℚ) := Nat.cast_le.symm
  rw [hc]
  push_cast
  constructor <;> intro h <;> linarith

theorem floorLog2_spec (num den : Nat) (hn : 0 < num) (hd : 0 < den) :
    (2 : ℚ) ^ floorLog2 num den ≤ (num : ℚ) / den ∧
      (num : ℚ) / den < (2 : ℚ) ^ (floorLog2 num den + 1) := by
  obtain ⟨a1, a2⟩ := leadingBit_spec num num hn le_rfl
  obtain ⟨b1, b2⟩ := leadingBit_spec den den hd le_rfl
  have hd' : (0 : ℚ) < den := by exact_mod_cast hd
  have hn' : (0 : ℚ) < num := by exact_mod_cast hn
  have a1' : (2 : ℚ) ^ (leadingBit num num : Int) ≤ num := by
    rw [zpow_natCast]; exact_mod_cast a1
  have a2' : (num : ℚ) < (2 : ℚ) ^ ((leadingBit num num : Int) + 1) := by
    rw [show ((leadingBit num num : Int) + 1) = ((leadingBit num num + 1 : Nat) : Int) by simp,
      zpow_natCast]
    exact_mod_cast a2
  have b1' : (2 : ℚ) ^ (leadingBit den den : Int) ≤ den := by
    rw [zpow_natCast]; exact_mod_cast b1
  have b2' : (den : ℚ) < (2 : ℚ) ^ ((leadingBit den den : Int) + 1) := by
    rw [show ((leadingBit den den : Int) + 1) = ((leadingBit den den + 1 : Nat) : Int) by simp,
      zpow_natCast]
    exact_mod_cast b2
  have h2 : (2 : ℚ) ≠ 0 := by norm_num
  unfold floorLog2
  simp only
  split_ifs with ht
  · refine ⟨(scaled_le_iff num den hd _).mp ht, ?_⟩
    rw [div_lt_iff₀ hd']
    calc (num : ℚ) < (2 : ℚ) ^ ((leadingBit num num : Int) + 1) := a2'
      _ = (2 : ℚ) ^ ((leadingBit num num : Int) - (leadingBit den den : Int) + 1) *
            (2 : ℚ) ^ (leadingBit den den : Int) := by
          rw [← zpow_add₀ h2]; congr 1; ring
      _ ≤ _ := by
          apply mul_le_mul_of_nonneg_left b1'
          positivity
  · have hlt : (num : ℚ) / den < (2 : ℚ) ^ ((leadingBit num num : Int) - (leadingBit den den : Int)) :=
      not_le.mp (fun h => ht ((scaled_le_iff num den hd _).mpr h))
    refine ⟨?_, by simpa using hlt⟩
    rw [le_div_iff₀ hd']
    calc (2 : ℚ) ^ ((leadingBit num num : Int) - (leadingBit den den : Int) - 1) * den
        ≤ (2 : ℚ) ^ ((leadingBit num num : Int) - (leadingBit den den : Int) - 1) *
            (2 : ℚ) ^ ((leadingBit den den : Int) + 1) := by
          apply mul_le_mul_of_nonneg_left b2'.le
          positivity
      _ = (2 : ℚ) ^ (leadingBit num num : Int) := by
          rw [← zpow_add₀ h2]; congr 1; ring
      _ ≤ num := a1'

theorem roundHalfEven_ge (A N D : Nat) (hD : 0 < D) (h : A * D ≤ N) :
    A ≤ roundHalfEven N D := by
  have hq : A ≤ N / D := (Nat.le_div_iff_mul_le hD).mpr h
  unfold roundHalfEven
  split_ifs <;> omega

theorem roundHalfEven_le (B N D : Nat) (hD : 0 < D) (h : N ≤ B * D) :
    roundHalfEven N D ≤ B := by
  have hq : N / D ≤ B := by
    calc N / D ≤ B * D / D := Nat.div_le_div_right h
      _ = B := Nat.mul_div_cancel _ hD
  have hm := Nat.div_add_mod N D
  have hr : N / D = B → N % D = 0 := by
    intro hB
    rw [hB, Nat.mul_comm] at hm
    omega
  unfold roundHalfEven
  split_ifs with h1 h2 h3
  · exact hq
  · rcases Nat.lt_or_ge (N / D) B with hlt | hge
    · omega
    · have := hr (by omega); omega
  · exact hq
  · rcases Nat.lt_or_ge (N / D) B with hlt | hge
    · omega
    · have := hr (by omega); omega

theorem roundHalfEven_near (N D : Nat) (hD : 0 < D) :
    |(roundHalfEven N D : ℚ) - (N : ℚ) / D| ≤ 1 / 2 := by
  have hD' : (0 : ℚ) < D := by exact_mod_cast hD
  have hm : (N : ℚ) = D * (N / D : Nat) + (N % D : Nat) := by
    exact_mod_cast (Nat.div_add_mod N D).symm
  have hr : (N % D : Nat) < D := Nat.mod_lt _ hD
  have hr' : ((N % D : Nat) : ℚ) < D := by exact_mod_cast hr
  have hr0 : (0 : ℚ) ≤ ((N % D : Nat) : ℚ) := by positivity
  have hdiv : (N : ℚ) / D = (N / D : Nat) + ((N % D : Nat) : ℚ) / D := by
    rw [div_eq_iff hD'.ne']
    rw [add_mul, div_mul_cancel₀ _ hD'.ne']
    linarith
  rw [hdiv, abs_le]
  unfold roundHalfEven
  split_ifs with h1 h2 h3
  · have : (2 : ℚ) * (N % D : Nat) < D := by exact_mod_cast h1
    have hx : ((N % D : Nat) : ℚ) / D < 1 / 2 := by rw [div_lt_iff₀ hD']; linarith
    have hy : (0 : ℚ) ≤ ((N % D : Nat) : ℚ) / D := by positivity
    constructor <;> linarith
  · have : (D : ℚ) < 2 * (N % D : Nat) := by exact_mod_cast h2
    have hx : 1 / 2 < ((N % D : Nat) : ℚ) / D := by rw [lt_div_iff₀ hD']; linarith
    have hy : ((N % D : Nat) : ℚ) / D < 1 := by rw [div_lt_iff₀ hD']; linarith
    push_cast
    constructor <;> linarith
  · have : (2 : ℚ) * (N % D : Nat) = D := by
      have : 2 * (N % D) = D := by omega
      exact_mod_cast this
    have hx : ((N % D : Nat) : ℚ) / D = 1 / 2 := by rw [div_eq_iff hD'.ne']; linarith
    constructor <;> linarith
  · have : (2 : ℚ) * (N % D : Nat) = D := by
      have : 2 * (N % D) = D := by omega
      exact_mod_cast this
    have hx : ((N % D : Nat) : ℚ) / D = 1 / 2 := by rw [div_eq_iff hD'.ne']; linarith
    push_cast
    constructor <;> linarith

/-- The value `Binary32.round` computes for a ratio below `2^127`: it is finite, with the
sign asked for, a mantissa of 24 bits (or the least exponent), and within half a unit in the
last place of the ratio. -/
theorem round_spec (negative : Bool) (num den : Nat) (hn : 0 < num) (hd : 0 < den)
    (hlt : (num : ℚ) / den < (2 : ℚ) ^ (127 : Int)) :
    ∃ m e, Binary32.round negative num den = .finite negative m e ∧ m < 2 ^ 24 ∧
      -149 ≤ e ∧ e ≤ 104 ∧ (2 ^ 23 ≤ m ∨ e = -149) ∧
      |(m : ℚ) * (2 : ℚ) ^ e - (num : ℚ) / den| ≤ (2 : ℚ) ^ e / 2 := by
  obtain ⟨l1, l2⟩ := floorLog2_spec num den hn hd
  have h2 : (2 : ℚ) ≠ 0 := by norm_num
  have h12 : (1 : ℚ) < 2 := by norm_num
  have hl : floorLog2 num den < 127 := (zpow_lt_zpow_iff_right₀ h12).mp (lt_of_le_of_lt l1 hlt)
  unfold Binary32.round
  rw [if_neg hn.ne']
  simp only []
  generalize floorLog2 num den = l at l1 l2 hl
  generalize he : max (l - 23) (-149) = e
  have he1 : -149 ≤ e := by rw [← he]; exact le_max_right _ _
  have he2 : l - 23 ≤ e := by rw [← he]; exact le_max_left _ _
  have he3 : e ≤ 103 := by rw [← he]; exact max_le (by omega) (by omega)
  have he4 : e = l - 23 ∨ e = -149 := by
    rw [← he]; rcases max_choice (l - 23) (-149) with h | h <;> rw [h] <;> simp
  have hd' : (0 : ℚ) < den := by exact_mod_cast hd
  have hD : 0 < den * 2 ^ e.toNat := by positivity
  have hD' : (0 : ℚ) < ((den * 2 ^ e.toNat : Nat) : ℚ) := by exact_mod_cast hD
  have hpe : (0 : ℚ) < (2 : ℚ) ^ e := by positivity
  have hND : ((num * 2 ^ (-e).toNat : Nat) : ℚ) / ((den * 2 ^ e.toNat : Nat) : ℚ) =
      (num : ℚ) / den / (2 : ℚ) ^ e := by
    rw [two_zpow_split e]
    push_cast
    field_simp
  generalize hN : num * 2 ^ (-e).toNat = N at hND
  generalize hDD : den * 2 ^ e.toNat = D at hND hD hD'
  have hnear := roundHalfEven_near N D hD
  rw [hND] at hnear
  have hnear' : |(roundHalfEven N D : ℚ) * (2 : ℚ) ^ e - (num : ℚ) / den| ≤ (2 : ℚ) ^ e / 2 := by
    have : (roundHalfEven N D : ℚ) * (2 : ℚ) ^ e - (num : ℚ) / den =
        ((roundHalfEven N D : ℚ) - (num : ℚ) / den / (2 : ℚ) ^ e) * (2 : ℚ) ^ e := by
      field_simp
      ring
    rw [this, abs_mul, abs_of_pos hpe]
    calc _ ≤ 1 / 2 * (2 : ℚ) ^ e := mul_le_mul_of_nonneg_right hnear hpe.le
      _ = _ := by ring
  have hup : roundHalfEven N D ≤ 2 ^ 24 := by
    apply roundHalfEven_le _ _ _ hD
    have : (N : ℚ) / D < ((2 ^ 24 : Nat) : ℚ) := by
      rw [hND, div_lt_iff₀ hpe]
      calc (num : ℚ) / den < (2 : ℚ) ^ (l + 1) := l2
        _ ≤ (2 : ℚ) ^ (24 + e) := (zpow_le_zpow_iff_right₀ h12).mpr (by omega)
        _ = _ := by rw [zpow_add₀ h2]; norm_num
    rw [div_lt_iff₀ hD'] at this
    have : N < 2 ^ 24 * D := by exact_mod_cast this
    exact this.le
  have hlow : 2 ^ 23 ≤ roundHalfEven N D ∨ e = -149 := by
    rcases he4 with h | h
    · left
      apply roundHalfEven_ge _ _ _ hD
      have : ((2 ^ 23 : Nat) : ℚ) ≤ (N : ℚ) / D := by
        rw [hND, le_div_iff₀ hpe]
        calc ((2 ^ 23 : Nat) : ℚ) * (2 : ℚ) ^ e = (2 : ℚ) ^ (23 + e) := by
              rw [zpow_add₀ h2]; norm_num
          _ = (2 : ℚ) ^ l := by congr 1; omega
          _ ≤ _ := l1
      rw [le_div_iff₀ hD'] at this
      exact_mod_cast this
    · exact Or.inr h
  by_cases hm : roundHalfEven N D = 2 ^ 24
  · rw [if_pos hm, if_neg (by omega)]
    refine ⟨2 ^ 23, e + 1, rfl, by norm_num, by omega, by omega, Or.inl le_rfl, ?_⟩
    rw [hm] at hnear'
    have hv : ((2 ^ 23 : Nat) : ℚ) * (2 : ℚ) ^ (e + 1) = ((2 ^ 24 : Nat) : ℚ) * (2 : ℚ) ^ e := by
      rw [zpow_add₀ h2]; norm_num; ring
    rw [hv]
    refine le_trans hnear' ?_
    rw [zpow_add₀ h2]
    linarith
  · rw [if_neg hm, if_neg (by omega)]
    exact ⟨_, e, rfl, by omega, he1, by omega, hlow, hnear'⟩

theorem roundHalfEven_one (N : Nat) : roundHalfEven N 1 = N := by
  unfold roundHalfEven
  simp [Nat.mod_one]

/-- The conversion of an `int` of at most 24 bits is exact. -/
theorem ofInt_exact (i : Int) (hi : i ≠ 0) (hb : i.natAbs < 2 ^ 24) :
    ∃ m e, Binary32.ofInt i = .finite (decide (i < 0)) m e ∧ 0 < m ∧
      (m : ℚ) * (2 : ℚ) ^ e = (i.natAbs : ℚ) := by
  have hn : 0 < i.natAbs := Int.natAbs_pos.mpr hi
  obtain ⟨l1, l2⟩ := floorLog2_spec i.natAbs 1 hn one_pos
  have h2 : (2 : ℚ) ≠ 0 := by norm_num
  have h12 : (1 : ℚ) < 2 := by norm_num
  simp only [Nat.cast_one, div_one] at l1 l2
  unfold Binary32.ofInt Binary32.round
  rw [if_neg hn.ne']
  simp only []
  generalize floorLog2 i.natAbs 1 = l at l1 l2
  generalize i.natAbs = n at hn hb l1 l2
  have hn1 : (1 : ℚ) ≤ n := by exact_mod_cast hn
  have hb' : (n : ℚ) < (2 : ℚ) ^ (24 : Int) := by
    rw [show (24 : Int) = ((24 : Nat) : Int) by rfl, zpow_natCast]; exact_mod_cast hb
  have hl0 : 0 ≤ l := by
    have : (2 : ℚ) ^ (0 : Int) < (2 : ℚ) ^ (l + 1) := by
      rw [zpow_zero]; exact lt_of_le_of_lt hn1 l2
    have := (zpow_lt_zpow_iff_right₀ h12).mp this
    omega
  have hl23 : l < 24 := (zpow_lt_zpow_iff_right₀ h12).mp (lt_of_le_of_lt l1 hb')
  lift l to ℕ using hl0
  have hl : l ≤ 23 := by omega
  have he : max ((l : Int) - 23) (-149) = (l : Int) - 23 := max_eq_left (by omega)
  rw [he]
  have e1 : ((l : Int) - 23).toNat = 0 := by omega
  have e2 : (-((l : Int) - 23)).toNat = 23 - l := by omega
  rw [e1, e2, pow_zero, Nat.mul_one, roundHalfEven_one]
  have l2' : n < 2 ^ (l + 1) := by
    rw [show ((l : Int) + 1) = ((l + 1 : Nat) : Int) by simp, zpow_natCast] at l2
    exact_mod_cast l2
  have hN : n * 2 ^ (23 - l) < 2 ^ 24 := by
    calc n * 2 ^ (23 - l) < 2 ^ (l + 1) * 2 ^ (23 - l) :=
          Nat.mul_lt_mul_of_pos_right l2' (by positivity)
      _ = 2 ^ 24 := by rw [← pow_add]; congr 1; omega
  rw [if_neg hN.ne, if_neg (by omega)]
  refine ⟨_, _, rfl, by positivity, ?_⟩
  push_cast
  rw [mul_assoc, ← zpow_natCast, ← zpow_add₀ h2]
  rw [show ((23 - l : Nat) : Int) + ((l : Int) - 23) = 0 by omega, zpow_zero, mul_one]

/-- From the distance to the ratio of the absolute values to the distance to the ratio. -/
theorem isNearest_of_near (m : Nat) (e : Int) (w h : Int) (hh0 : h ≠ 0)
    (hm : m < 2 ^ 24) (he1 : -149 ≤ e) (he2 : e ≤ 104) (hc : 2 ^ 23 ≤ m ∨ e = -149)
    (hnear : |(m : ℚ) * (2 : ℚ) ^ e - (w.natAbs : ℚ) / (h.natAbs : ℚ)| ≤ (2 : ℚ) ^ e / 2) :
    (Binary32.finite (xor (decide (w < 0)) (decide (h < 0))) m e).isNearest w h := by
  refine ⟨rfl, hh0, hm, he1, he2, hc, ?_⟩
  have hP : (0 : ℚ) < (2 : ℚ) ^ e.toNat := by positivity
  have hQ : (0 : ℚ) < (2 : ℚ) ^ (-e).toNat := by positivity
  have hah : (0 : ℚ) < (h.natAbs : ℚ) := by exact_mod_cast Int.natAbs_pos.mpr hh0
  rw [two_zpow_split e] at hnear
  have hX : (m : ℚ) * ((2 : ℚ) ^ e.toNat / (2 : ℚ) ^ (-e).toNat) - (w.natAbs : ℚ) / (h.natAbs : ℚ) =
      ((m : ℚ) * (2 : ℚ) ^ e.toNat * (h.natAbs : ℚ) - (w.natAbs : ℚ) * (2 : ℚ) ^ (-e).toNat) /
        ((2 : ℚ) ^ (-e).toNat * (h.natAbs : ℚ)) := by
    field_simp
    ring
  rw [hX, abs_div, abs_of_pos (mul_pos hQ hah), div_le_iff₀ (mul_pos hQ hah)] at hnear
  have hB : (2 : ℚ) ^ e.toNat / (2 : ℚ) ^ (-e).toNat / 2 * ((2 : ℚ) ^ (-e).toNat * (h.natAbs : ℚ)) =
      (2 : ℚ) ^ e.toNat * (h.natAbs : ℚ) / 2 := by
    field_simp
    ring
  rw [hB, abs_le] at hnear
  obtain ⟨n1, n2⟩ := hnear
  have hwabs : ((w.natAbs : Nat) : ℚ) = |(w : ℚ)| := by
    rw [Nat.cast_natAbs, Int.cast_abs]
  have hhabs : ((h.natAbs : Nat) : ℚ) = |(h : ℚ)| := by
    rw [Nat.cast_natAbs, Int.cast_abs]
  suffices hq : ((2 * ((Binary32.finite (xor (decide (w < 0)) (decide (h < 0))) m e).num * h -
      w * (Binary32.finite (xor (decide (w < 0)) (decide (h < 0))) m e).den).natAbs : Nat) : ℚ) ≤
      (((Binary32.finite (xor (decide (w < 0)) (decide (h < 0))) m e).ulp * h.natAbs : Nat) : ℚ) from
    Nat.cast_le.mp hq
  simp only [Binary32.num, Binary32.den, Binary32.ulp, Binary32.exponent]
  push_cast
  rw [Nat.cast_natAbs, Int.cast_abs]
  push_cast
  rw [hhabs]
  rw [hwabs, hhabs] at n1 n2
  have key : ∀ Y : ℚ, -((2 : ℚ) ^ e.toNat * |(h : ℚ)| / 2) ≤ Y →
      Y ≤ (2 : ℚ) ^ e.toNat * |(h : ℚ)| / 2 → 2 * |Y| ≤ (2 : ℚ) ^ e.toNat * |(h : ℚ)| := by
    intro Y y1 y2
    have : |Y| ≤ (2 : ℚ) ^ e.toNat * |(h : ℚ)| / 2 := abs_le.mpr ⟨y1, y2⟩
    linarith
  apply key
  · rcases lt_or_le w 0 with hw | hw <;> rcases lt_or_gt_of_ne hh0 with hh | hh
    · have hw' : (w : ℚ) < 0 := by exact_mod_cast hw
      have hh' : (h : ℚ) < 0 := by exact_mod_cast hh
      rw [abs_of_neg hw', abs_of_neg hh'] at n1 n2
      simp only [hw, hh, decide_True, Bool.xor_self, Bool.false_eq_true, if_false]
      rw [abs_of_neg hh']
      linarith
    · have hw' : (w : ℚ) < 0 := by exact_mod_cast hw
      have hh' : (0 : ℚ) < h := by exact_mod_cast hh
      rw [abs_of_neg hw', abs_of_pos hh'] at n1 n2
      simp only [hw, not_lt.mpr hh.le, decide_True, decide_False, Bool.xor_false, if_true]
      rw [abs_of_pos hh']
      linarith
    · have hw' : (0 : ℚ) ≤ w := by exact_mod_cast hw
      have hh' : (h : ℚ) < 0 := by exact_mod_cast hh
      rw [abs_of_nonneg hw', abs_of_neg hh'] at n1 n2
      simp only [not_lt.mpr hw, hh, decide_True, decide_False, Bool.false_xor, if_true]
      rw [abs_of_neg hh']
      linarith
    · have hw' : (0 : ℚ) ≤ w := by exact_mod_cast hw
      have hh' : (0 : ℚ) < h := by exact_mod_cast hh
      rw [abs_of_nonneg hw', abs_of_pos hh'] at n1 n2
      simp only [not_lt.mpr hw, not_lt.mpr hh.le, decide_False, Bool.xor_self,
        Bool.false_eq_true, if_false]
      rw [abs_of_pos hh']
      linarith
  · rcases lt_or_le w 0 with hw | hw <;> rcases lt_or_gt_of_ne hh0 with hh | hh
    · have hw' : (w : ℚ) < 0 := by exact_mod_cast hw
      have hh' : (h : ℚ) < 0 := by exact_mod_cast hh
      rw [abs_of_neg hw', abs_of_neg hh'] at n1 n2
      simp only [hw, hh, decide_True, Bool.xor_self, Bool.false_eq_true, if_false]
      rw [abs_of_neg hh']
      linarith
    · have hw' : (w : ℚ) < 0 := by exact_mod_cast hw
      have hh' : (0 : ℚ) < h := by exact_mod_cast hh
      rw [abs_of_neg hw', abs_of_pos hh'] at n1 n2
      simp only [hw, not_lt.mpr hh.le, decide_True, decide_False, Bool.xor_false, if_true]
      rw [abs_of_pos hh']
      linarith
    · have hw' : (0 : ℚ) ≤ w := by exact_mod_cast hw
      have hh' : (h : ℚ) < 0 := by exact_mod_cast hh
      rw [abs_of_nonneg hw', abs_of_neg hh'] at n1 n2
      simp only [not_lt.mpr hw, hh, decide_True, decide_False, Bool.false_xor, if_true]
      rw [abs_of_neg hh']
      linarith
    · have hw' : (0 : ℚ) ≤ w := by exact_mod_cast hw
      have hh' : (0 : ℚ) < h := by exact_mod_cast hh
      rw [abs_of_nonneg hw', abs_of_pos hh'] at n1 n2
      simp only [not_lt.mpr hw, not_lt.mpr hh.le, decide_False, Bool.xor_self,
        Bool.false_eq_true, if_false]
      rw [abs_of_pos hh']
      linarith

/-- The single-precision quotient of two converted `int`s of at most 24 bits is a value of
binary32 nearest to their ratio. -/
theorem div_ofInt_isNearest (w h : Int) (hw : w.natAbs < 2 ^ 24) (hh0 : h ≠ 0)
    (hh : h.natAbs < 2 ^ 24) :
    (Binary32.div (Binary32.ofInt w) (Binary32.ofInt h)).isNearest w h := by
  obtain ⟨mb, eb, hb, hmb, hvb⟩ := ofInt_exact h hh0 hh
  have h2 : (2 : ℚ) ≠ 0 := by norm_num
  rw [hb]
  by_cases hw0 : w = 0
  · subst hw0
    have h0 : Binary32.ofInt 0 = .finite false 0 (-149) := by decide
    rw [h0]
    simp only [Binary32.div, hmb.ne', if_false, Nat.zero_mul, Binary32.round, if_true]
    refine ⟨rfl, hh0, ?_, ?_, ?_, Or.inr rfl, ?_⟩
    · show (0 : Nat) < 2 ^ 24
      decide
    · show (-149 : Int) ≤ -149
      decide
    · show (-149 : Int) ≤ 104
      decide
    · simp [Binary32.num, Binary32.den, Binary32.ulp]
  · obtain ⟨ma, ea, ha, hma, hva⟩ := ofInt_exact w hw0 hw
    rw [ha]
    simp only [Binary32.div, hmb.ne', if_false]
    have hn : 0 < ma * 2 ^ (ea - eb).toNat := by positivity
    have hd : 0 < mb * 2 ^ (eb - ea).toNat := by positivity
    have hmb' : (0 : ℚ) < mb := by exact_mod_cast hmb
    have hah : (0 : ℚ) < (h.natAbs : ℚ) := by exact_mod_cast Int.natAbs_pos.mpr hh0
    have hratio : ((ma * 2 ^ (ea - eb).toNat : Nat) : ℚ) / ((mb * 2 ^ (eb - ea).toNat : Nat) : ℚ) =
        (w.natAbs : ℚ) / (h.natAbs : ℚ) := by
      rw [← hva, ← hvb]
      push_cast
      have hs := two_zpow_split (ea - eb)
      rw [show -(ea - eb) = eb - ea by ring] at hs
      have : (2 : ℚ) ^ ea = (2 : ℚ) ^ (ea - eb) * (2 : ℚ) ^ eb := by
        rw [← zpow_add₀ h2]; congr 1; ring
      rw [this, hs]
      field_simp
      ring
    have hlt : ((ma * 2 ^ (ea - eb).toNat : Nat) : ℚ) / ((mb * 2 ^ (eb - ea).toNat : Nat) : ℚ) <
        (2 : ℚ) ^ (127 : Int) := by
      rw [hratio, div_lt_iff₀ hah]
      have h1 : (w.natAbs : ℚ) < 2 ^ 24 := by exact_mod_cast hw
      have h3 : (1 : ℚ) ≤ (h.natAbs : ℚ) := by exact_mod_cast Int.natAbs_pos.mpr hh0
      have h4 : (2 : ℚ) ^ 24 ≤ (2 : ℚ) ^ (127 : Int) := by norm_num
      nlinarith
    obtain ⟨m, e, hr, hm, he1, he2, hc, hnear⟩ := round_spec
      (xor (decide (w < 0)) (decide (h < 0))) _ _ hn hd hlt
    rw [hr]
    rw [hratio] at hnear
    exact isNearest_of_near m e w h hh0 hm he1 he2 hc hnear

/-- No value of binary32 is the ratio 1024 / 768 = 4 / 3: its denominator is a power of
two. -/
theorem not_isQuotient_1024_768 (f : Binary32) : ¬ f.isQuotient 1024 768 := by
  rintro ⟨_, _, h⟩
  have h3 : (3 : Int) ∣ 1024 * f.den := ⟨f.num * 256, by rw [← h]; ring⟩
  have hden : ∃ k : Nat, f.den = 2 ^ k := by
    cases f
    · exact ⟨_, rfl⟩
    · exact ⟨0, rfl⟩
    · exact ⟨0, rfl⟩
  obtain ⟨k, hk⟩ := hden
  rw [hk, show (1024 : Int) = 2 ^ 10 by norm_num, ← pow_add] at h3
  have hp : Prime (3 : Int) := Int.prime_three
  have := hp.dvd_of_dvd_pow h3
  omega

/-- When `OnResize` returns, its flush has returned and both `GetBuffer` calls have
succeeded. -/
theorem OnResize_returns (env : Env) (width height : Int) (s : DemoBlob)
    (hret : (OnResize env width height s).1 = .ok ()) :
    (FlushCommandQueue env s).1 = .ok () ∧
      0 ≤ env.hr ((FlushCommandQueue env s).2.now + 4) ∧
      0 ≤ env.hr ((FlushCommandQueue env s).2.now + 6) := by
  rw [OnResize_run] at hret
  rcases hfl : FlushCommandQueue env s with ⟨x | u, sf⟩
  · rw [hfl] at hret
    cases hret
  · rw [hfl] at hret
    simp only at hret
    by_cases h0 : env.hr (sf.now + 4) < 0
    · rw [if_pos h0] at hret
      cases hret
    · by_cases h1 : env.hr (sf.now + 6) < 0
      · rw [if_neg h0, if_pos h1] at hret
        cases hret
      · exact ⟨rfl, not_lt.mp h0, not_lt.mp h1⟩

theorem CreateVectorFieldBuffers_run {env : Env} (hf : NoFailure env) (s : DemoBlob) :
    CreateVectorFieldBuffers env s =
      (.ok (),
        { s with
          vectorFieldBuffers :=
            Function.update (Function.update s.vectorFieldBuffers 0 (some (.committed s.now))) 1
              (some (.committed (s.now + 3)))
          now := s.now + 6
          trace := s.trace ++
            [.CreateCommittedTexture .DEFAULT s.fieldWidth_ s.fieldHeight_ .RENDER_TARGET,
              .CreateRenderTargetView (some (.committed s.now))
                ((heapStart env s.rtvHeap_).at kNumSwapChainBuffers s.rtvDescriptorSize_),
              .CreateShaderResourceView (some (.committed s.now))
                ((heapStart env s.cbvSrvHeap_).at 1 s.cbvSrvDescriptorSize_),
              .CreateCommittedTexture .DEFAULT s.fieldWidth_ s.fieldHeight_ .RENDER_TARGET,
              .CreateRenderTargetView (some (.committed (s.now + 3)))
                (((heapStart env s.rtvHeap_).at kNumSwapChainBuffers s.rtvDescriptorSize_).Offset 1
                  s.rtvDescriptorSize_),
              .CreateShaderResourceView (some (.committed (s.now + 3)))
                (((heapStart env s.cbvSrvHeap_).at 1 s.cbvSrvDescriptorSize_).Offset 1
                  s.cbvSrvDescriptorSize_)] }) := by
  simp only [CreateVectorFieldBuffers, forLoop, callHr, callCreate, callCreateResource, call, get,
    modify, bind_run, pure_run, ThrowIfFailed_run, not_failed hf, succeeded hf, if_false,
    if_true, Nat.add_assoc, Nat.reduceAdd, List.append_assoc, List.singleton_append,
    List.cons_append, List.nil_append, Function.update_same]

theorem CreateConstantBuffer_run {env : Env} (hf : NoFailure env) (s : DemoBlob) :
    CreateConstantBuffer env s =
      (.ok (),
        { s with
          constantBufferData_ := ⟨(.lit 5 1, .lit 5 1), .lit 10 1⟩
          constantBuffer_ := some (.committed s.now)
          cbvData := some ⟨(.lit 5 1, .lit 5 1), .lit 10 1⟩
          now := s.now + 4
          trace := s.trace ++
            [.CreateCommittedResource .UPLOAD sizeofSceneConstantBuffer .GENERIC_READ,
              .CreateConstantBufferView (some (.committed s.now)) sizeofSceneConstantBuffer
                (heapStart env s.cbvSrvHeap_),
              .Map (some (.committed s.now)),
              .memcpyConstants ⟨(.lit 5 1, .lit 5 1), .lit 10 1⟩ sizeofSceneConstantBuffer] }) := by
  simp only [CreateConstantBuffer, callHr, callCreate, callCreateResource, call, get,
    modify, bind_run, pure_run, ThrowIfFailed_run, not_failed hf, succeeded hf, if_false,
    if_true, Nat.add_assoc, Nat.reduceAdd, List.append_assoc, List.singleton_append,
    List.cons_append, List.nil_append]

theorem CreateRenderTargetDescriptorHeap_run {env : Env} (hf : NoFailure env) (s : DemoBlob) :
    CreateRenderTargetDescriptorHeap env s =
      (.ok (),
        { s with
          rtvHeap_ := some s.now
          rtvDescriptorSize_ := env.incrementSize (s.now + 1)
          now := s.now + 2
          trace := s.trace ++
            [.CreateDescriptorHeap .RTV (kNumSwapChainBuffers + 2),
              .GetDescriptorHandleIncrementSize .RTV] }) := by
  simp only [CreateRenderTargetDescriptorHeap, callHr, callCreate, callCreateResource, call, get,
    modify, bind_run, pure_run, ThrowIfFailed_run, not_failed hf, succeeded hf, if_false,
    if_true, Nat.add_assoc, Nat.reduceAdd, List.append_assoc, List.singleton_append,
    List.cons_append, List.nil_append]

theorem CreateConstantBufferDescriptorHeap_run {env : Env} (hf : NoFailure env) (s : DemoBlob) :
    CreateConstantBufferDescriptorHeap env s =
      (.ok (),
        { s with
          cbvSrvHeap_ := some s.now
          cbvSrvDescriptorSize_ := env.incrementSize (s.now + 1)
          now := s.now + 2
          trace := s.trace ++
            [.CreateDescriptorHeap .CBV_SRV_UAV (1 + 2),
              .GetDescriptorHandleIncrementSize .CBV_SRV_UAV] }) := by
  simp only [CreateConstantBufferDescriptorHeap, callHr, callCreate, callCreateResource, call,
    get, modify, bind_run, pure_run, ThrowIfFailed_run, not_failed hf, succeeded hf, if_false,
    if_true, Nat.add_assoc, Nat.reduceAdd, List.append_assoc, List.singleton_append,
    List.cons_append, List.nil_append]

theorem CreateSwapChainRTV_run_ok {env : Env} (hf : NoFailure env) (s : DemoBlob) :
    CreateSwapChainRTV env s =
      (.ok (),
        { s with
          swapChainBuffers_ :=
            Function.update (Function.update s.swapChainBuffers_ 0 (some (.backBuffer 0))) 1
              (some (.backBuffer 1))
          now := s.now + 4
          trace := s.trace ++
            [.GetBuffer 0,
              .CreateRenderTargetView (some (.backBuffer 0)) (heapStart env s.rtvHeap_),
              .GetBuffer 1,
              .CreateRenderTargetView (some (.backBuffer 1))
                ((heapStart env s.rtvHeap_).Offset 1 s.rtvDescriptorSize_)] }) := by
  rw [CreateSwapChainRTV_run, if_neg (not_failed hf _), if_neg (not_failed hf _)]

theorem CpuHandle.at_zero (start : CpuHandle) (size : Nat) : start.at 0 size = start := by
  simp [CpuHandle.at]

theorem CpuHandle.at_Offset_one (start : CpuHandle) (k size : Nat) :
    (start.at k size).Offset 1 size = start.at (k + 1) size := by
  simp only [CpuHandle.at, CpuHandle.Offset, CpuHandle.mk.injEq]
  rw [Nat.add_mul, Nat.add_assoc]

theorem CpuHandle.at_at_one (start : CpuHandle) (k size : Nat) :
    (start.at k size).at 1 size = start.at (k + 1) size :=
  CpuHandle.at_Offset_one start k size

/-- The slots of a heap with descriptors of positive size are at different addresses. -/
theorem CpuHandle.at_injective (start : CpuHandle) (size : Nat) (hsize : 0 < size) (a b : Nat)
    (h : start.at a size = start.at b size) : a = b := by
  simp only [CpuHandle.at, CpuHandle.mk.injEq] at h
  exact Nat.eq_of_mul_eq_mul_right hsize (Nat.add_left_cancel h)

theorem hexDigit_spec (d : Nat) (hd : d < 16) :
    isUpperHexDigit (hexDigit d) = true ∧ hexDigitValue (hexDigit d) = d := by
  interval_cases d <;> exact ⟨by decide, by decide⟩

/-- The conversion `%08X` of a 32-bit value: eight upper-case hexadecimal digits that denote
the value. -/
theorem hex08X_spec (u : Nat) (hu : u < 2 ^ 32) :
    (hex08X u).length = 8 ∧ (∀ ch ∈ (hex08X u).data, isUpperHexDigit ch = true) ∧
      hexValue (hex08X u) = u := by
  have hr : List.range 8 = [0, 1, 2, 3, 4, 5, 6, 7] := by decide
  have hd : ∀ x : Nat, isUpperHexDigit (hexDigit (x % 16)) = true ∧
      hexDigitValue (hexDigit (x % 16)) = x % 16 :=
    fun x => hexDigit_spec _ (Nat.mod_lt _ (by decide))
  refine ⟨?_, ?_, ?_⟩
  · simp [hex08X, String.length]
  · intro ch hch
    simp only [hex08X, hr, List.map_cons, List.map_nil, List.mem_cons, List.mem_singleton,
      List.mem_nil_iff, or_false] at hch
    rcases hch with h | h | h | h | h | h | h | h <;> rw [h] <;> exact (hd _).1
  · simp only [hexValue, hex08X, hr, List.map_cons, List.map_nil, List.foldl_cons,
      List.foldl_nil, (hd _).2]
    norm_num
    omega

/-- A signed 32-bit value is negative exactly when the top bit of its unsigned value is
set. -/
theorem negative_iff_top_bit (hr : Int) (hlo : -2 ^ 31 ≤ hr) (hhi : hr < 2 ^ 31) :
    hr < 0 ↔ 2 ^ 31 ≤ (hr % 2 ^ 32).toNat := by
  constructor <;> intro h <;> omega

theorem slowFenceEnv_monotone : Monotone slowFenceEnv.completed := by
  intro a b h
  show (if a < 70 then 0 else 100) ≤ (if b < 70 then 0 else 100)
  split_ifs <;> omega

/-- The wait that the flush of `sketchWithCounter 100` makes under `slowFenceEnv` returns with
the completed value at the value the event was armed for. -/
theorem slowFenceEnv_wait (a : Nat)
    (h : [.SetEventOnCompletion a, .WaitForSingleObject] <:+
      emitted (FlushCommandQueue slowFenceEnv) (sketchWithCounter 100)) :
    a ≤ slowFenceEnv.completed (FlushCommandQueue slowFenceEnv (sketchWithCounter 100)).2.now := by
  have he : emitted (FlushCommandQueue slowFenceEnv) (sketchWithCounter 100) =
      [.Signal 100, .GetCompletedValue, .SetEventOnCompletion 100, .WaitForSingleObject] := by
    decide
  rw [he] at h
  obtain ⟨pre, hpre⟩ := h
  have hl := congrArg List.length hpre
  simp only [List.length_append, List.length_cons, List.length_nil] at hl
  match pre, hpre, hl with
  | [c, d], hpre, _ =>
    simp only [List.cons_append, List.nil_append, List.cons.injEq, Call.SetEventOnCompletion.injEq,
      and_true] at hpre
    obtain ⟨-, -, rfl⟩ := hpre
    decide

/-! ## The fence synchroniser -/

/-- C1 (as the code has it): every `FlushCommandQueue` issues exactly one `Signal`, and it
carries the value the fence counter had when the flush began, that is the value before the
increment; when the `Signal` succeeds the counter after the flush is that value plus one
(modulo `2 ^ 64`), and when it fails the counter is left alone. -/
theorem C1_signal_carries_counter_before_increment (env : Env) (s : DemoBlob) :
    signalled (emitted (FlushCommandQueue env) s) = [s.fenceValue_] ∧
      (FlushCommandQueue env s).2.fenceValue_ =
        if FAILED (env.hr s.now) then s.fenceValue_ else (s.fenceValue_ + 1) % 2 ^ 64 := by
  constructor
  · rw [FlushCommandQueue_emitted]
    split_ifs <;> rfl
  · rw [FlushCommandQueue_run]
    unfold FAILED incrUINT64
    by_cases h1 : env.hr s.now < 0
    · simp [h1]
    · simp only [h1, if_false, decide_False, Bool.false_eq_true]
      split_ifs <;> rfl

/-- C1 as stated fails: from the state left by `CreateInfrastructure` and `CreateFence`
(counter 1) the flush signals the value 1, while the counter after the increment of that flush
is 2. -/
theorem C1_counterexample :
    (CreateFence gpuEnv (CreateInfrastructure gpuEnv fresh).2).2.fenceValue_ = 1 ∧
      signalled (emitted (FlushCommandQueue gpuEnv)
        (CreateFence gpuEnv (CreateInfrastructure gpuEnv fresh).2).2) = [1] ∧
      (FlushCommandQueue gpuEnv
        (CreateFence gpuEnv (CreateInfrastructure gpuEnv fresh).2).2).2.fenceValue_ = 2 ∧
      ¬ (∀ v ∈ signalled (emitted (FlushCommandQueue gpuEnv)
          (CreateFence gpuEnv (CreateInfrastructure gpuEnv fresh).2).2),
        v = (FlushCommandQueue gpuEnv
          (CreateFence gpuEnv (CreateInfrastructure gpuEnv fresh).2).2).2.fenceValue_) := by
  refine ⟨by decide, by decide, by decide, by decide⟩

/-- C2: start from the state left by `CreateFence`, in a sketch that has not signalled yet, and
run any sequence of `OnUpdate`, `OnResize`, `OnMouseDrag`, `CreateVertexBuffer` and `OnQuit`
in which no call fails and the counter stays below `2 ^ 64 - 1`. Then the counter starts at 1
and every call returns; an event that flushes (each of them flushes once) raises the counter
by exactly 1 and `OnMouseDrag`, which does not flush, leaves it as it is; at the end the
counter is 1 plus the number of signals issued, so nothing but the flushes has changed it; the
values signalled are 1, 2, 3, ... in this order, hence strictly increasing and never repeated;
and the value signalled last is at most the counter. -/
theorem C2_counter_invariant (env : Env) (hf : NoFailure env) (s : DemoBlob)
    (hs : signalled s.trace = []) (events : List Event)
    (hbound : ∀ pre, pre <+: events →
      (runEvents env pre (CreateFence env s).2).2.fenceValue_ < 2 ^ 64 - 1) :
    (CreateFence env s).2.fenceValue_ = 1 ∧
      (runEvents env events (CreateFence env s).2).1 = .ok () ∧
      (∀ pre e post, events = pre ++ e :: post →
        (runEvents env (pre ++ [e]) (CreateFence env s).2).2.fenceValue_ =
          (runEvents env pre (CreateFence env s).2).2.fenceValue_ +
            (if e.flushes then 1 else 0)) ∧
      (runEvents env events (CreateFence env s).2).2.fenceValue_ =
        1 + (signalled (runEvents env events (CreateFence env s).2).2.trace).length ∧
      signalled (runEvents env events (CreateFence env s).2).2.trace =
        List.range' 1 (signalled (runEvents env events (CreateFence env s).2).2.trace).length ∧
      (signalled (runEvents env events (CreateFence env s).2).2.trace).Pairwise (· < ·) ∧
      (∀ v, (signalled (runEvents env events (CreateFence env s).2).2.trace).getLast? = some v →
        v ≤ (runEvents env events (CreateFence env s).2).2.fenceValue_) := by
  have h1 : (CreateFence env s).2.fenceValue_ = 1 := by rw [CreateFence_run hf]
  have h0 : signalled (CreateFence env s).2.trace = List.range' 1 0 := by
    rw [CreateFence_run hf]
    simp [signalled_append, signalled, hs]
  obtain ⟨m, hm, hsig⟩ := runEvents_counter hf events (CreateFence env s).2 0 h1 h0 hbound
  have hlen : (signalled (runEvents env events (CreateFence env s).2).2.trace).length = m := by
    rw [hsig, List.length_range']
  refine ⟨h1, runEvents_ok hf _ _, ?_, ?_, ?_, ?_, ?_⟩
  · intro pre e post hev
    have hlt := hbound pre (by rw [hev]; exact List.prefix_append _ _)
    rw [runEvents_snoc hf, (event_step hf e _).2.1]
    by_cases hfl : e.flushes = true
    · simp only [hfl, if_true]
      exact incrUINT64_of_lt _ hlt
    · simp only [hfl, if_false, Bool.false_eq_true, Nat.add_zero]
  · rw [hlen, hm]
  · rw [hlen, hsig]
  · rw [hsig]
    exact List.pairwise_lt_range' 1 m
  · intro v hv
    rw [hsig] at hv
    have hmem : v ∈ List.range' 1 m := List.mem_of_getLast?_eq_some hv
    rw [List.mem_range'_1] at hmem
    omega

/-- C2 at a concrete input: the fence of `readySketch` is created anew and `demoEvents` is run. -/
theorem C2_witness :
    NoFailure gpuEnv ∧ signalled readySketch.trace = [] ∧
      (∀ pre, pre <+: demoEvents →
        (runEvents gpuEnv pre (CreateFence gpuEnv readySketch).2).2.fenceValue_ < 2 ^ 64 - 1) ∧
      (CreateFence gpuEnv readySketch).2.fenceValue_ = 1 ∧
      (runEvents gpuEnv demoEvents (CreateFence gpuEnv readySketch).2).1 = .ok () ∧
      (∀ pre e post, demoEvents = pre ++ e :: post →
        (runEvents gpuEnv (pre ++ [e]) (CreateFence gpuEnv readySketch).2).2.fenceValue_ =
          (runEvents gpuEnv pre (CreateFence gpuEnv readySketch).2).2.fenceValue_ +
            (if e.flushes then 1 else 0)) ∧
      (runEvents gpuEnv demoEvents (CreateFence gpuEnv readySketch).2).2.fenceValue_ =
        1 + (signalled
          (runEvents gpuEnv demoEvents (CreateFence gpuEnv readySketch).2).2.trace).length ∧
      signalled (runEvents gpuEnv demoEvents (CreateFence gpuEnv readySketch).2).2.trace =
        List.range' 1
          (signalled
            (runEvents gpuEnv demoEvents (CreateFence gpuEnv readySketch).2).2.trace).length ∧
      (signalled (runEvents gpuEnv demoEvents (CreateFence gpuEnv readySketch).2).2.trace).Pairwise
        (· < ·) ∧
      (∀ v,
        (signalled
          (runEvents gpuEnv demoEvents (CreateFence gpuEnv readySketch).2).2.trace).getLast? =
            some v →
        v ≤ (runEvents gpuEnv demoEvents (CreateFence gpuEnv readySketch).2).2.fenceValue_) :=
  ⟨noFailure_gpuEnv, rfl, demoEvents_bound,
    C2_counter_invariant gpuEnv noFailure_gpuEnv readySketch rfl demoEvents demoEvents_bound⟩

/-- C3: let the completed value of the fence never decrease, and let the wait that this flush
makes, if it makes one, return only once the completed value has reached the value passed to
`SetEventOnCompletion`: when the calls of the flush end with `SetEventOnCompletion(a)` and
`WaitForSingleObject`, the completed value at the tick at which the flush is left is at least
`a`. Then whenever `FlushCommandQueue` returns normally the completed value of the fence at
that moment is at least the value this flush signalled, on the path without a wait and on the
path with one. -/
theorem C3_flush_returns_after_completion (env : Env) (s : DemoBlob)
    (hmono : Monotone env.completed)
    (hwait : ∀ a, [.SetEventOnCompletion a, .WaitForSingleObject] <:+
        emitted (FlushCommandQueue env) s →
      a ≤ env.completed (FlushCommandQueue env s).2.now)
    (hret : (FlushCommandQueue env s).1 = .ok ()) :
    ∀ v ∈ signalled (emitted (FlushCommandQueue env) s),
      v ≤ env.completed (FlushCommandQueue env s).2.now := by
  intro v hv
  rw [FlushCommandQueue_emitted] at hv hwait
  rw [FlushCommandQueue_run] at hret hwait ⊢
  by_cases h1 : env.hr s.now < 0
  · simp [h1] at hret
  · by_cases h2 : env.completed (s.now + 1) < s.fenceValue_
    · by_cases h3 : env.hr (s.now + 2) < 0
      · simp [h1, h2, h3] at hret
      · simp only [h1, h2, h3, if_true, if_false, signalled, List.mem_singleton] at hv hwait ⊢
        subst hv
        exact hwait s.fenceValue_ ⟨[.Signal s.fenceValue_, .GetCompletedValue], rfl⟩
    · simp only [h1, h2, if_false, signalled, List.mem_singleton] at hv ⊢
      subst hv
      exact le_trans (not_lt.mp h2) (hmono (by simp))

/-- C3 at a concrete input: a fence that completes the value 100 at tick 70 and never more.
The counter is 100 while the fence has completed nothing when it is read at tick 66, so the
flush arms the event for 100 and waits; it is left at tick 70 with the completed value 100. -/
theorem C3_witness :
    Monotone slowFenceEnv.completed ∧
      (∀ a, [.SetEventOnCompletion a, .WaitForSingleObject] <:+
          emitted (FlushCommandQueue slowFenceEnv) (sketchWithCounter 100) →
        a ≤ slowFenceEnv.completed
          (FlushCommandQueue slowFenceEnv (sketchWithCounter 100)).2.now) ∧
      (FlushCommandQueue slowFenceEnv (sketchWithCounter 100)).1 = .ok () ∧
      emitted (FlushCommandQueue slowFenceEnv) (sketchWithCounter 100) =
        [.Signal 100, .GetCompletedValue, .SetEventOnCompletion 100, .WaitForSingleObject] ∧
      (FlushCommandQueue slowFenceEnv (sketchWithCounter 100)).2.now = 70 ∧
      slowFenceEnv.completed 70 = 100 ∧
      ∀ v ∈ signalled (emitted (FlushCommandQueue slowFenceEnv) (sketchWithCounter 100)),
        v ≤ slowFenceEnv.completed
          (FlushCommandQueue slowFenceEnv (sketchWithCounter 100)).2.now :=
  ⟨slowFenceEnv_monotone, slowFenceEnv_wait, rfl, by decide, rfl, rfl,
    C3_flush_returns_after_completion slowFenceEnv (sketchWithCounter 100)
      slowFenceEnv_monotone slowFenceEnv_wait rfl⟩

/-! ## The swap-chain buffer manager -/

/-- C4 (as the code has it): `OnInit` does not acquire the surfaces, it never calls
`CreateSwapChainRTV`; the first `OnResize` does. When no call fails, a lifecycle that starts
with `OnInit` and goes on with `OnUpdate` and `OnResize` calls returns from every call, and
once one `OnResize` has run the buffer manager is ready: after `OnInit`, the frame events
`pre`, an `OnResize` and the frame events `post`, both entries of `swapChainBuffers_` hold a
surface, so every `OnUpdate` that comes after an `OnResize` executes in the ready state. -/
theorem C4_ready_from_first_resize (env : Env) (hf : NoFailure env) (s : DemoBlob)
    (pre post : List Event) (width height : Int)
    (hpre : ∀ e ∈ pre, e.isFrame = true) (hpost : ∀ e ∈ post, e.isFrame = true) :
    ((OnInit env >>= fun _ => runEvents env (pre ++ .Resize width height :: post)) s).1 =
        .ok () ∧
      Ready ((OnInit env >>= fun _ => runEvents env (pre ++ .Resize width height :: post)) s).2 ∧
      (OnInit env s).2.swapChainBuffers_ = s.swapChainBuffers_ := by
  obtain ⟨hi, hframe⟩ := OnInit_ok_frame hf s
  obtain ⟨hp, -⟩ := frames_run_ok hf pre hpre (OnInit env s).2
  have hr := OnResize_ok hf width height (runEvents env pre (OnInit env s).2).2
  obtain ⟨hq, hready⟩ := frames_run_ok hf post hpost
    (OnResize env width height (runEvents env pre (OnInit env s).2).2).2
  rw [bind_ok _ _ s () hi, runEvents_append_ok env pre _ _ hp,
    runEvents_cons_ok env (.Resize width height) post _ hr]
  exact ⟨hq, hready (OnResize_heldCount hf _ _ _), hframe⟩

/-- C4 at a concrete input: `OnInit`, `OnResize(1024, 768)`, `OnUpdate`, `OnUpdate`. -/
theorem C4_witness :
    NoFailure gpuEnv ∧ (∀ e ∈ ([] : List Event), e.isFrame = true) ∧
      (∀ e ∈ [Event.Update, Event.Update], e.isFrame = true) ∧
      ((OnInit gpuEnv >>= fun _ =>
        runEvents gpuEnv ([] ++ .Resize 1024 768 :: [.Update, .Update])) fresh).1 = .ok () ∧
      Ready ((OnInit gpuEnv >>= fun _ =>
        runEvents gpuEnv ([] ++ .Resize 1024 768 :: [.Update, .Update])) fresh).2 ∧
      (OnInit gpuEnv fresh).2.swapChainBuffers_ = fresh.swapChainBuffers_ :=
  ⟨noFailure_gpuEnv, by simp, by decide,
    C4_ready_from_first_resize gpuEnv noFailure_gpuEnv fresh [] [.Update, .Update] 1024 768
      (by simp) (by decide)⟩

/-- C4 as stated fails: after `OnInit` alone, every call succeeding, no entry of
`swapChainBuffers_` holds a surface, so the buffer manager is not ready, and an `OnUpdate`
issued then records its first transition against a null resource. -/
theorem C4_counterexample :
    (OnInit gpuEnv fresh).1 = .ok () ∧
      (OnInit gpuEnv fresh).2.swapChainBuffers_ 0 = none ∧
      (OnInit gpuEnv fresh).2.swapChainBuffers_ 1 = none ∧
      heldCount (OnInit gpuEnv fresh).2 = 0 ∧
      ¬ Ready (OnInit gpuEnv fresh).2 ∧
      (RenderToBackBuffer gpuEnv (OnInit gpuEnv fresh).2).2.commandListCmds.head? =
        some (.Transition none .PRESENT .RENDER_TARGET) := by
  obtain ⟨hi, hframe⟩ := OnInit_ok_frame noFailure_gpuEnv fresh
  have h0 : (OnInit gpuEnv fresh).2.swapChainBuffers_ 0 = none := by rw [hframe]; rfl
  have h1 : (OnInit gpuEnv fresh).2.swapChainBuffers_ 1 = none := by rw [hframe]; rfl
  have hc : heldCount (OnInit gpuEnv fresh).2 = 0 := heldCount_eq _ none none h0 h1
  refine ⟨hi, h0, h1, hc, ?_, ?_⟩
  · unfold Ready
    rw [hc]
    decide
  · rw [RenderToBackBuffer_run noFailure_gpuEnv _ _ rfl, hframe]
    rfl

/-- C5: whatever the API answers, the calls of `OnResize(width, height)` are the calls of its
`FlushCommandQueue` followed by an initial segment of the list below. The segment is empty when
the flush raises, so no surface is released before the flush has returned; otherwise it holds
at least the first five calls and ends early only at a `GetBuffer` that fails. In the list the
releases of both entries of `swapChainBuffers_` come before `ResizeBuffers`, and both
`GetBuffer` calls come after it. -/
theorem C5_resize_order (env : Env) (s : DemoBlob) (width height : Int) :
    emitted (OnResize env width height) s =
      emitted (FlushCommandQueue env) s ++
        List.take
          (if (FlushCommandQueue env s).1.isOk then
            if FAILED (env.hr ((FlushCommandQueue env s).2.now + 4)) then 5
            else if FAILED (env.hr ((FlushCommandQueue env s).2.now + 6)) then 7
            else 9
          else 0)
          [ .ResetSwapChainBuffer 0 (s.swapChainBuffers_ 0),
            .ResetSwapChainBuffer 1 (s.swapChainBuffers_ 1),
            .GetDesc,
            .ResizeBuffers kNumSwapChainBuffers (toUINT width) (toUINT height),
            .GetBuffer 0,
            .CreateRenderTargetView (some (.backBuffer 0)) (heapStart env s.rtvHeap_),
            .GetBuffer 1,
            .CreateRenderTargetView (some (.backBuffer 1))
              ((heapStart env s.rtvHeap_).Offset 1 s.rtvDescriptorSize_),
            .memcpyConstants
              ⟨s.constantBufferData_.center, .div (.ofInt width) (.ofInt height)⟩
              sizeofSceneConstantBuffer ] := by
  obtain ⟨hb, hh, hd, hc, ht⟩ := FlushCommandQueue_frame env s
  apply emitted_of_trace
  rw [OnResize_run]
  rcases hfl : FlushCommandQueue env s with ⟨_ | _, sf⟩
  · rw [hfl] at ht
    simpa [Except.isOk, Except.toBool] using ht
  · rw [hfl] at hb hh hd hc ht
    simp only at hb hh hd hc ht
    unfold FAILED
    by_cases h0 : env.hr (sf.now + 4) < 0
    · simp [Except.isOk, Except.toBool, h0, ht, hb]
    · by_cases h1 : env.hr (sf.now + 6) < 0
      · simp [Except.isOk, Except.toBool, h0, h1, ht, hb, hh]
      · simp [Except.isOk, Except.toBool, h0, h1, ht, hb, hh, hd, hc]

/-- C6: take the state `s` reached after any finite sequence of resize events and an
`OnResize(width, height)` whose flush returns and whose two `GetBuffer` calls succeed (they
are the calls at the ticks 4 and 6 after the flush). Then the number of entries of
`swapChainBuffers_` that hold a surface is 0 at the end of the release loop and
`kNumSwapChainBuffers` = 2 at the end of `CreateSwapChainRTV`, and still 2 when `OnResize`
returns, which it does. The two points are the ends of the phases `resizeReleased` and
`resizeAcquired`, of which `OnResize` is composed. -/
theorem C6_surfaces_held (env : Env) (s0 : DemoBlob) (resizes : List (Int × Int))
    (s : DemoBlob) (width height : Int)
    (_hs : s = (runEvents env (resizes.map fun r => Event.Resize r.1 r.2) s0).2)
    (hflush : (FlushCommandQueue env s).1 = .ok ())
    (hget0 : FAILED (env.hr ((FlushCommandQueue env s).2.now + 4)) = false)
    (hget1 : FAILED (env.hr ((FlushCommandQueue env s).2.now + 6)) = false) :
    OnResize env width height =
        (do resizeAcquired env width height; resizeConstants width height) ∧
      (resizeReleased env s).1 = .ok () ∧
      heldCount (resizeReleased env s).2 = 0 ∧
      (resizeAcquired env width height s).1 = .ok () ∧
      heldCount (resizeAcquired env width height s).2 = 2 ∧
      (OnResize env width height s).1 = .ok () ∧
      heldCount (OnResize env width height s).2 = 2 := by
  have h0 : 0 ≤ env.hr ((FlushCommandQueue env s).2.now + 4) := by
    simpa [FAILED] using hget0
  have h1 : 0 ≤ env.hr ((FlushCommandQueue env s).2.now + 6) := by
    simpa [FAILED] using hget1
  refine ⟨OnResize_phases env width height, ?_, ?_, ?_, ?_, ?_, ?_⟩
  · rw [resizeReleased_run env s hflush]
  · rw [resizeReleased_run env s hflush]
    exact heldCount_eq _ none none (by simp) (by simp)
  · rw [resizeAcquired_run env width height s hflush h0 h1]
  · rw [resizeAcquired_run env width height s hflush h0 h1]
    exact heldCount_eq _ (some (.backBuffer 0)) (some (.backBuffer 1)) (by simp) (by simp)
  · rw [OnResize_run_of env width height s hflush h0 h1]
  · rw [OnResize_run_of env width height s hflush h0 h1]
    exact heldCount_eq _ (some (.backBuffer 0)) (some (.backBuffer 1)) (by simp) (by simp)

/-- C6 at a concrete input: the third resize of a sketch, after resizes to 1024 x 768 and to
640 x 480. -/
theorem C6_witness :
    (FlushCommandQueue gpuEnv
      (runEvents gpuEnv [.Resize 1024 768, .Resize 640 480] readySketch).2).1 = .ok () ∧
      FAILED (gpuEnv.hr ((FlushCommandQueue gpuEnv
        (runEvents gpuEnv [.Resize 1024 768, .Resize 640 480] readySketch).2).2.now + 4)) =
        false ∧
      FAILED (gpuEnv.hr ((FlushCommandQueue gpuEnv
        (runEvents gpuEnv [.Resize 1024 768, .Resize 640 480] readySketch).2).2.now + 6)) =
        false ∧
      OnResize gpuEnv 800 450 =
        (do resizeAcquired gpuEnv 800 450; resizeConstants 800 450) ∧
      (resizeReleased gpuEnv
        (runEvents gpuEnv [.Resize 1024 768, .Resize 640 480] readySketch).2).1 = .ok () ∧
      heldCount (resizeReleased gpuEnv
        (runEvents gpuEnv [.Resize 1024 768, .Resize 640 480] readySketch).2).2 = 0 ∧
      (resizeAcquired gpuEnv 800 450
        (runEvents gpuEnv [.Resize 1024 768, .Resize 640 480] readySketch).2).1 = .ok () ∧
      heldCount (resizeAcquired gpuEnv 800 450
        (runEvents gpuEnv [.Resize 1024 768, .Resize 640 480] readySketch).2).2 = 2 ∧
      (OnResize gpuEnv 800 450
        (runEvents gpuEnv [.Resize 1024 768, .Resize 640 480] readySketch).2).1 = .ok () ∧
      heldCount (OnResize gpuEnv 800 450
        (runEvents gpuEnv [.Resize 1024 768, .Resize 640 480] readySketch).2).2 = 2 :=
  ⟨FlushCommandQueue_ok noFailure_gpuEnv _, rfl, rfl,
    C6_surfaces_held gpuEnv readySketch [(1024, 768), (640, 480)] _ 800 450 rfl
      (FlushCommandQueue_ok noFailure_gpuEnv _) rfl rfl⟩

/-! ## The per-frame command recorder -/

/-- C7: whenever `RenderToBackBuffer` returns normally, for the back-buffer index `i` that the
swap chain reports (at tick `s.now + 2`), it has reset the allocator and the command list,
recorded the twelve commands of `frame` into the list, closed the list and only then submitted
it, and the list holds exactly `frame`. The recording
begins with the one transition of entry `i` of `swapChainBuffers_` from PRESENT to
RENDER_TARGET and ends with the one transition of the same entry back to PRESENT; between them
lie the one clear, of render-target view `i` (heap start plus `i` descriptors) to
(0.0, 0.2, 0.4, 1.0), and after it the one draw of 4 vertices and 1 instance with the
triangle-strip topology; the view that is bound is the view that is cleared. -/
theorem C7_frame_recording (env : Env) (s : DemoBlob) (i : Nat)
    (hret : (RenderToBackBuffer env s).1 = .ok ())
    (hi : env.backBufferIndex (s.now + 2) = i) :
    ∃ frame : List Cmd,
      frame =
        [ .Transition (s.swapChainBuffers_ i) .PRESENT .RENDER_TARGET,
          .OMSetRenderTargets ((heapStart env s.rtvHeap_).at i s.rtvDescriptorSize_),
          .SetGraphicsRootSignature s.rootSignature_,
          .SetDescriptorHeaps s.cbvSrvHeap_,
          .SetGraphicsRootDescriptorTable 0 s.cbvSrvHeap_,
          .RSSetViewports (.ofInt s.state_.ViewportWidth) (.ofInt s.state_.ViewportHeight),
          .RSSetScissorRects s.state_.ViewportWidth s.state_.ViewportHeight,
          .ClearRenderTargetView ((heapStart env s.rtvHeap_).at i s.rtvDescriptorSize_)
            [.lit 0 1, .lit 2 1, .lit 4 1, .lit 10 1],
          .IASetPrimitiveTopology .TRIANGLESTRIP,
          .IASetVertexBuffers s.vertexBufferView_.1 s.vertexBufferView_.2.1
            s.vertexBufferView_.2.2,
          .DrawInstanced 4 1 0 0,
          .Transition (s.swapChainBuffers_ i) .RENDER_TARGET .PRESENT ] ∧
      (RenderToBackBuffer env s).2.commandListCmds = frame ∧
      emitted (RenderToBackBuffer env) s =
        .ResetCommandAllocator s.commandAllocator_ ::
          .ResetCommandList s.commandList_ s.commandAllocator_ s.pipelineState_ ::
          .GetCurrentBackBufferIndex ::
          (frame.map (Call.Record s.commandList_) ++
            [.CloseCommandList s.commandList_, .ExecuteCommandLists [⟨s.commandList_, frame⟩]]) ∧
      frame.filter Cmd.isTransition =
        [ .Transition (s.swapChainBuffers_ i) .PRESENT .RENDER_TARGET,
          .Transition (s.swapChainBuffers_ i) .RENDER_TARGET .PRESENT ] ∧
      frame.head? = some (.Transition (s.swapChainBuffers_ i) .PRESENT .RENDER_TARGET) ∧
      frame.getLast? = some (.Transition (s.swapChainBuffers_ i) .RENDER_TARGET .PRESENT) ∧
      frame.filter Cmd.isClear =
        [ .ClearRenderTargetView ((heapStart env s.rtvHeap_).at i s.rtvDescriptorSize_)
            [.lit 0 1, .lit 2 1, .lit 4 1, .lit 10 1] ] ∧
      frame.filter Cmd.isDraw = [.DrawInstanced 4 1 0 0] := by
  subst hi
  obtain ⟨h0, h1, h15⟩ := RenderToBackBuffer_returns env s hret
  refine ⟨_, rfl, ?_, ?_, rfl, rfl, rfl, rfl, rfl⟩
  · rw [RenderToBackBuffer_run_of env s _ h0 h1 h15 rfl]
  · apply emitted_of_trace
    rw [RenderToBackBuffer_run_of env s _ h0 h1 h15 rfl]
    rfl

/-- C7 at a concrete input: in `readySketch` the swap chain reports index 1, and the frame is
recorded against surface 1 and the view at 61440 + 1 · 32. -/
theorem C7_witness :
    (RenderToBackBuffer gpuEnv readySketch).1 = .ok () ∧
    gpuEnv.backBufferIndex (readySketch.now + 2) = 1 ∧
    ∃ frame : List Cmd,
      frame =
        [ .Transition (some (.backBuffer 1)) .PRESENT .RENDER_TARGET,
          .OMSetRenderTargets ⟨61472⟩,
          .SetGraphicsRootSignature (some 19),
          .SetDescriptorHeaps (some 16),
          .SetGraphicsRootDescriptorTable 0 (some 16),
          .RSSetViewports (.ofInt 800) (.ofInt 450),
          .RSSetScissorRects 800 450,
          .ClearRenderTargetView ⟨61472⟩ [.lit 0 1, .lit 2 1, .lit 4 1, .lit 10 1],
          .IASetPrimitiveTopology .TRIANGLESTRIP,
          .IASetVertexBuffers (some (.committed 26)) 32 128,
          .DrawInstanced 4 1 0 0,
          .Transition (some (.backBuffer 1)) .RENDER_TARGET .PRESENT ] ∧
      (RenderToBackBuffer gpuEnv readySketch).2.commandListCmds = frame ∧
      emitted (RenderToBackBuffer gpuEnv) readySketch =
        .ResetCommandAllocator (some 42) ::
          .ResetCommandList (some 43) (some 42) (some 21) ::
          .GetCurrentBackBufferIndex ::
          (frame.map (Call.Record (some 43)) ++
            [.CloseCommandList (some 43), .ExecuteCommandLists [⟨some 43, frame⟩]]) ∧
      frame.filter Cmd.isTransition =
        [ .Transition (some (.backBuffer 1)) .PRESENT .RENDER_TARGET,
          .Transition (some (.backBuffer 1)) .RENDER_TARGET .PRESENT ] ∧
      frame.head? = some (.Transition (some (.backBuffer 1)) .PRESENT .RENDER_TARGET) ∧
      frame.getLast? = some (.Transition (some (.backBuffer 1)) .RENDER_TARGET .PRESENT) ∧
      frame.filter Cmd.isClear =
        [ .ClearRenderTargetView ⟨61472⟩ [.lit 0 1, .lit 2 1, .lit 4 1, .lit 10 1] ] ∧
      frame.filter Cmd.isDraw = [.DrawInstanced 4 1 0 0] :=
  ⟨by rw [RenderToBackBuffer_run noFailure_gpuEnv readySketch _ rfl], by decide,
    C7_frame_recording gpuEnv readySketch 1
      (by rw [RenderToBackBuffer_run noFailure_gpuEnv readySketch _ rfl]) (by decide)⟩

/-- C8 (as the code has it): with no failing call `OnUpdate` returns, and the calls it makes
are a recording `pre` that holds no submission, present or signal, then the one
`ExecuteCommandLists` of one list, then the one `Present`, then one `FlushCommandQueue`; so
the submissions, presents and signals of the update are exactly one of each, in this order.
The fence counter after the update is the counter before it plus one modulo `2 ^ 64`. -/
theorem C8_update_submits_presents_flushes (env : Env) (s : DemoBlob) (hf : NoFailure env) :
    ∃ (pre : List Call) (list : CommandList) (syncInterval flags : Nat) (sm : DemoBlob),
      (OnUpdate env s).1 = .ok () ∧
      emitted (OnUpdate env) s =
        pre ++ .ExecuteCommandLists [list] :: .Present syncInterval flags ::
          emitted (FlushCommandQueue env) sm ∧
      (FlushCommandQueue env sm).1 = .ok () ∧
      (emitted (OnUpdate env) s).filter Call.isFrameStep =
        [.ExecuteCommandLists [list], .Present syncInterval flags, .Signal s.fenceValue_] ∧
      (OnUpdate env s).2.fenceValue_ = (s.fenceValue_ + 1) % 2 ^ 64 := by
  obtain ⟨pre, list, sm, ht, hpre, hsm⟩ := OnUpdate_trace hf s
  have he := emitted_of_trace _ _ _ ht
  refine ⟨pre, list, _, _, sm, OnUpdate_ok hf s, he, FlushCommandQueue_ok hf _, ?_,
    OnUpdate_fenceValue hf s⟩
  rw [he]
  simp only [List.filter_append, List.filter_cons, hpre,
    FlushCommandQueue_filter_isFrameStep hf, hsm, Call.isFrameStep, List.filter_nil]
  rfl

/-- C8 at a concrete input: `readySketch` with counter 3. -/
theorem C8_witness :
    NoFailure gpuEnv ∧
    ∃ (pre : List Call) (list : CommandList) (syncInterval flags : Nat) (sm : DemoBlob),
      (OnUpdate gpuEnv readySketch).1 = .ok () ∧
      emitted (OnUpdate gpuEnv) readySketch =
        pre ++ .ExecuteCommandLists [list] :: .Present syncInterval flags ::
          emitted (FlushCommandQueue gpuEnv) sm ∧
      (FlushCommandQueue gpuEnv sm).1 = .ok () ∧
      (emitted (OnUpdate gpuEnv) readySketch).filter Call.isFrameStep =
        [.ExecuteCommandLists [list], .Present syncInterval flags, .Signal 3] ∧
      (OnUpdate gpuEnv readySketch).2.fenceValue_ = 4 :=
  ⟨noFailure_gpuEnv, C8_update_submits_presents_flushes gpuEnv readySketch noFailure_gpuEnv⟩

/-- C8 as stated fails at the end of the counter's range: in `readySketch` with the counter at
`UINT64_MAX = 2 ^ 64 - 1` an update in which no call fails leaves the counter at 0, so the
counter has not advanced by 1. -/
theorem C8_counterexample :
    (sketchWithCounter UINT64_MAX).fenceValue_ = 2 ^ 64 - 1 ∧
      (OnUpdate gpuEnv (sketchWithCounter UINT64_MAX)).1 = .ok () ∧
      (OnUpdate gpuEnv (sketchWithCounter UINT64_MAX)).2.fenceValue_ = 0 ∧
      (OnUpdate gpuEnv (sketchWithCounter UINT64_MAX)).2.fenceValue_ ≠
        (sketchWithCounter UINT64_MAX).fenceValue_ + 1 := by
  have h := OnUpdate_fenceValue noFailure_gpuEnv (sketchWithCounter UINT64_MAX)
  refine ⟨rfl, OnUpdate_ok noFailure_gpuEnv _, ?_, ?_⟩
  · rw [h]; decide
  · rw [h]; decide

/-! ## Failure of the fence synchroniser -/

/-- C9 (as the code has it): `FlushCommandQueue` raises exactly when `Signal` answers a failure
code, or the completed value it reads is below the signalled value and `SetEventOnCompletion`
answers a failure code; the exception carries that code and the name of the call. In every
other case it returns normally: neither the completed value that is read nor the wait is ever
turned into an error. Here `s.now` is the tick of `Signal`, `s.now + 1` the tick of
`GetCompletedValue` and `s.now + 2` the tick of `SetEventOnCompletion`. -/
theorem C9_flush_raises_only_on_failed_status (env : Env) (s : DemoBlob) :
    (FlushCommandQueue env s).1 =
      if FAILED (env.hr s.now) then
        .error (HrException.new (env.hr s.now) "Signal")
      else if env.completed (s.now + 1) < s.fenceValue_ ∧ FAILED (env.hr (s.now + 2)) then
        .error (HrException.new (env.hr (s.now + 2)) "SetEventOnCompletion")
      else
        .ok () := by
  rw [FlushCommandQueue_run]
  unfold FAILED
  by_cases h1 : env.hr s.now < 0
  · simp [h1]
  · by_cases h2 : env.completed (s.now + 1) < s.fenceValue_
    · by_cases h3 : env.hr (s.now + 2) < 0 <;> simp [h1, h2, h3]
    · simp [h1, h2]

/-- C9 as stated fails: in `readySketch` (clock 65, counter 3) the device is removed right
after `Signal` succeeded at tick 65, so that the completed value read at tick 66 is
`UINT64_MAX` and every later call would answer `DXGI_ERROR_DEVICE_REMOVED`; the flush takes
the read for a completed fence and returns normally after `Signal` and `GetCompletedValue`. -/
theorem C9_counterexample :
    readySketch.now = 65 ∧
      FAILED ((removedEnv 65).hr 65) = false ∧
      (removedEnv 65).completed 66 = UINT64_MAX ∧
      FAILED ((removedEnv 65).hr 67) = true ∧
      (FlushCommandQueue (removedEnv 65) readySketch).1 = .ok () ∧
      emitted (FlushCommandQueue (removedEnv 65)) readySketch =
        [.Signal 3, .GetCompletedValue] :=
  ⟨rfl, by decide, by decide, by decide, rfl, by decide⟩

/-! ## The resource upload pipeline -/

/-- C10: with no failing call `CreateVertexBuffer` returns and makes these calls in this order.
The vertex buffer (created at tick `s.now`) and the staging resource (created at tick
`s.now + 1`) are both created with 128 bytes, the size of the 4 vertices of 32 bytes; the
staging resource is mapped and receives the 128 bytes of `quadVertices` by `memcpy`; the command
list records the copy of 128 bytes from the staging resource to the vertex buffer and after it
the transition of the vertex buffer from COPY_DEST to VERTEX_AND_CONSTANT_BUFFER; the list is
closed and then submitted with exactly these two commands; then comes a complete
`FlushCommandQueue`, which returns; and only then the local pointers, the staging resource
last, are released. -/
theorem C10_upload_order (env : Env) (hf : NoFailure env) (s : DemoBlob) :
    ∃ sm : DemoBlob,
      (CreateVertexBuffer env s).1 = .ok () ∧
      (FlushCommandQueue env sm).1 = .ok () ∧
      emitted (CreateVertexBuffer env) s =
        [ .CreateCommittedResource .DEFAULT 128 .COPY_DEST,
          .CreateCommittedResource .UPLOAD 128 .GENERIC_READ,
          .Map (some (.committed (s.now + 1))),
          .memcpyVertices (some (.committed (s.now + 1))) quadVertices 128,
          .Unmap (some (.committed (s.now + 1))),
          .CreateCommandAllocator,
          .CreateCommandList (some (s.now + 5)) none,
          .Record (some (s.now + 6))
            (.CopyBufferRegion (some (.committed s.now)) 0 (some (.committed (s.now + 1))) 0 128),
          .Record (some (s.now + 6))
            (.Transition (some (.committed s.now)) .COPY_DEST .VERTEX_AND_CONSTANT_BUFFER),
          .CloseCommandList (some (s.now + 6)),
          .ExecuteCommandLists
            [⟨some (s.now + 6),
              [ .CopyBufferRegion (some (.committed s.now)) 0 (some (.committed (s.now + 1))) 0
                  128,
                .Transition (some (.committed s.now)) .COPY_DEST
                  .VERTEX_AND_CONSTANT_BUFFER ]⟩] ] ++
          emitted (FlushCommandQueue env) sm ++
          [ .ReleaseLocal "copyCommandList", .ReleaseLocal "copyCommandAllocator",
            .ReleaseLocal "vertexBufferUpload" ] ∧
      quadVertices.length = 4 ∧ sizeofVertex = 32 ∧ quadVertices.length * sizeofVertex = 128 := by
  obtain ⟨sm, htr, h⟩ := CreateVertexBuffer_summary hf s
  refine ⟨sm, ?_, FlushCommandQueue_ok hf _, ?_, rfl, rfl, rfl⟩
  · rw [h]
  · apply emitted_of_trace
    rw [h]
    simp only [FlushCommandQueue_trace hf, htr, List.append_assoc]

/-- C10 at a concrete input: an upload from `readySketch`, the vertex buffer being created at
tick 65 and the staging resource at tick 66. -/
theorem C10_witness :
    NoFailure gpuEnv ∧
    ∃ sm : DemoBlob,
      (CreateVertexBuffer gpuEnv readySketch).1 = .ok () ∧
      (FlushCommandQueue gpuEnv sm).1 = .ok () ∧
      emitted (CreateVertexBuffer gpuEnv) readySketch =
        [ .CreateCommittedResource .DEFAULT 128 .COPY_DEST,
          .CreateCommittedResource .UPLOAD 128 .GENERIC_READ,
          .Map (some (.committed 66)),
          .memcpyVertices (some (.committed 66)) quadVertices 128,
          .Unmap (some (.committed 66)),
          .CreateCommandAllocator,
          .CreateCommandList (some 70) none,
          .Record (some 71)
            (.CopyBufferRegion (some (.committed 65)) 0 (some (.committed 66)) 0 128),
          .Record (some 71)
            (.Transition (some (.committed 65)) .COPY_DEST .VERTEX_AND_CONSTANT_BUFFER),
          .CloseCommandList (some 71),
          .ExecuteCommandLists
            [⟨some 71,
              [ .CopyBufferRegion (some (.committed 65)) 0 (some (.committed 66)) 0 128,
                .Transition (some (.committed 65)) .COPY_DEST .VERTEX_AND_CONSTANT_BUFFER ]⟩] ] ++
          emitted (FlushCommandQueue gpuEnv) sm ++
          [ .ReleaseLocal "copyCommandList", .ReleaseLocal "copyCommandAllocator",
            .ReleaseLocal "vertexBufferUpload" ] ∧
      quadVertices.length = 4 ∧ sizeofVertex = 32 ∧ quadVertices.length * sizeofVertex = 128 :=
  ⟨noFailure_gpuEnv, C10_upload_order gpuEnv noFailure_gpuEnv readySketch⟩

/-! ## Presentation -/

/-- C11: let `CreateInfrastructure` have returned from the state `s0` and let `s` be any later
state with the feature flags it has set. Then `feature_.Tearing` is what `CheckFeatureSupport`
answered at startup (at the tick `t` of that call), and `PresentAndSwapBuffers` issues exactly
one `Present`, whether or not it succeeds: with sync interval 1 and flags 0 when `Vsync` is
set, with sync interval 0 and the flag `DXGI_PRESENT_ALLOW_TEARING` when `Vsync` is not set and
tearing was advertised, and with sync interval 0 and flags 0 when neither holds. -/
theorem C11_present_flags (env : Env) (s0 s : DemoBlob) (t : Nat)
    (hinit : (CreateInfrastructure env s0).1 = .ok ())
    (hfeat : s.feature_ = (CreateInfrastructure env s0).2.feature_)
    (ht : t = s0.now + 5 +
      (if env.ndebug then 0 else if SUCCEEDED (env.hr s0.now) then 3 else 1)) :
    s.feature_.Tearing = env.allowTearing t ∧
      emitted (PresentAndSwapBuffers env) s =
        [match s.config_.Vsync, env.allowTearing t with
          | true, _ => .Present 1 0
          | false, true => .Present 0 DXGI_PRESENT_ALLOW_TEARING
          | false, false => .Present 0 0] ∧
      DXGI_PRESENT_ALLOW_TEARING ≠ 0 := by
  have hT : s.feature_.Tearing = env.allowTearing t := by
    rw [hfeat, ht]
    exact CreateInfrastructure_tearing env s0 hinit
  refine ⟨hT, ?_, by decide⟩
  apply emitted_of_trace
  rw [PresentAndSwapBuffers_run_of, ← hT]
  cases hv : s.config_.Vsync <;> cases hte : s.feature_.Tearing <;> rfl

/-- C11 at a concrete input: the startup of the fresh sketch advertises tearing (at tick 5)
and the configuration of the sketch leaves `Vsync` set, so `readySketch` presents with sync
interval 1 and flags 0. -/
theorem C11_witness :
    (CreateInfrastructure gpuEnv fresh).1 = .ok () ∧
      readySketch.feature_ = (CreateInfrastructure gpuEnv fresh).2.feature_ ∧
      (5 : Nat) = fresh.now + 5 +
        (if gpuEnv.ndebug then 0 else if SUCCEEDED (gpuEnv.hr fresh.now) then 3 else 1) ∧
      readySketch.feature_.Tearing = gpuEnv.allowTearing 5 ∧
      emitted (PresentAndSwapBuffers gpuEnv) readySketch = [.Present 1 0] ∧
      DXGI_PRESENT_ALLOW_TEARING ≠ 0 :=
  ⟨rfl, by decide, by decide,
    C11_present_flags gpuEnv fresh readySketch 5 rfl (by decide) (by decide)⟩

/-! ## Shutdown -/

/-- C16: whatever the API answers, the calls of `OnQuit` are the calls of its
`FlushCommandQueue` followed, when that flush has returned, by the `Unmap` of the constant
buffer and the `CloseHandle` of the fence event, in this order, and by nothing when the flush
has raised. The flush makes no `Unmap` and no `CloseHandle`, so both come after every call of
the flush, and `OnQuit` signals exactly once (the counter it found): it flushes exactly
once. -/
theorem C16_quit_flushes_before_release (env : Env) (s : DemoBlob) :
    emitted (OnQuit env) s =
        emitted (FlushCommandQueue env) s ++
          (if (FlushCommandQueue env s).1.isOk then [.Unmap s.constantBuffer_, .CloseHandle]
          else []) ∧
      (∀ c ∈ emitted (FlushCommandQueue env) s,
        c ≠ .Unmap s.constantBuffer_ ∧ c ≠ .CloseHandle) ∧
      signalled (emitted (OnQuit env) s) = [s.fenceValue_] ∧
      (OnQuit env s).1 = (FlushCommandQueue env s).1 := by
  obtain ⟨hk, _, hno⟩ := FlushCommandQueue_keeps env s
  obtain ⟨_, _, _, _, ht⟩ := FlushCommandQueue_frame env s
  have hs := FlushCommandQueue_signalled_of env s
  have hrun := OnQuit_run_of env s
  rcases hfl : FlushCommandQueue env s with ⟨x | u, sf⟩
  · rw [hfl] at hk ht hrun
    simp only at hk ht hrun
    have he : emitted (OnQuit env) s = emitted (FlushCommandQueue env) s := by
      apply emitted_of_trace
      rw [hrun, ht]
    refine ⟨?_, hno, ?_, ?_⟩
    · rw [he]
      simp [Except.isOk, Except.toBool]
    · rw [he, hs]
    · rw [hrun]
  · rw [hfl] at hk ht hrun
    simp only at hk ht hrun
    have he : emitted (OnQuit env) s =
        emitted (FlushCommandQueue env) s ++ [.Unmap s.constantBuffer_, .CloseHandle] := by
      apply emitted_of_trace
      rw [hrun]
      simp only [ht, hk, List.append_assoc]
    refine ⟨?_, hno, ?_, ?_⟩
    · rw [he]
      simp [Except.isOk, Except.toBool]
    · rw [he, signalled_append, hs]
      rfl
    · rw [hrun]

/-! ## The scene constants -/

/-- C14 does not hold as stated: the resize of the ready sketch to 1024 x 768 returns, the
height is positive, and the aspect stored is the value 11184811 · 2^(-23) of binary32
(1.33333337306976318359375), which is not the ratio 1024 / 768 = 4 / 3; no value of binary32
is that ratio. -/
theorem C14_counterexample :
    (OnResize gpuEnv 1024 768 readySketch).1 = .ok () ∧ (0 : Int) < 768 ∧
      (OnResize gpuEnv 1024 768 readySketch).2.constantBufferData_.aspect.eval =
        .finite false 11184811 (-23) ∧
      ¬ (OnResize gpuEnv 1024 768 readySketch).2.constantBufferData_.aspect.eval.isQuotient
        1024 768 ∧
      ∀ f : Binary32, ¬ f.isQuotient 1024 768 := by
  refine ⟨OnResize_ok noFailure_gpuEnv _ _ _, by decide, ?_, not_isQuotient_1024_768 _,
    not_isQuotient_1024_768⟩
  rw [OnResize_run_ok noFailure_gpuEnv]
  show (FloatExpr.div (.ofInt 1024) (.ofInt 768)).eval = _
  decide

/-- C14, amended: when `OnResize(width, height)` with `height > 0` returns, the aspect stored
is the single-precision quotient `static_cast<float>(width) / static_cast<float>(height)`;
for `|width|` and `height` below `2^24` (the conversions are then exact) this is a value of
binary32 nearest to the ratio `width / height`: finite, with a mantissa of 24 bits, and within
half a unit in the last place of the ratio. The center stored is unchanged, the copy behind
`cbvDataBegin_` equals `constantBufferData_`, and the last call of `OnResize` is the `memcpy`
of the whole block of 256 bytes. -/
theorem C14_resize_stores_rounded_aspect (env : Env) (s : DemoBlob) (width height : Int)
    (hret : (OnResize env width height s).1 = .ok ()) (hheight : 0 < height) :
    (OnResize env width height s).2.constantBufferData_.aspect =
        .div (.ofInt width) (.ofInt height) ∧
      (OnResize env width height s).2.constantBufferData_.aspect.eval =
        Binary32.div (Binary32.ofInt width) (Binary32.ofInt height) ∧
      (width.natAbs < 2 ^ 24 → height < 2 ^ 24 →
        (OnResize env width height s).2.constantBufferData_.aspect.eval.isNearest
          width height) ∧
      (OnResize env width height s).2.constantBufferData_.center =
        s.constantBufferData_.center ∧
      (OnResize env width height s).2.cbvData =
        some (OnResize env width height s).2.constantBufferData_ ∧
      (emitted (OnResize env width height) s).getLast? =
        some (.memcpyConstants (OnResize env width height s).2.constantBufferData_
          sizeofSceneConstantBuffer) ∧
      sizeofSceneConstantBuffer = 256 := by
  obtain ⟨hflush, hget0, hget1⟩ := OnResize_returns env width height s hret
  obtain ⟨-, -, -, -, ht⟩ := FlushCommandQueue_frame env s
  have he : ∀ cs, (OnResize env width height s).2.trace =
      (FlushCommandQueue env s).2.trace ++ cs →
      emitted (OnResize env width height) s = emitted (FlushCommandQueue env) s ++ cs := by
    intro cs h
    apply emitted_of_trace
    rw [h, ht, List.append_assoc]
  rw [OnResize_run_of env width height s hflush hget0 hget1] at he ⊢
  refine ⟨rfl, rfl, ?_, rfl, rfl, ?_, rfl⟩
  · intro hw hh
    exact div_ofInt_isNearest width height hw hheight.ne' (by omega)
  · rw [he _ rfl]
    simp

/-- C14 at a concrete input: the resize of the ready sketch to 1024 x 768. -/
theorem C14_witness :
    (OnResize gpuEnv 1024 768 readySketch).1 = .ok () ∧ (0 : Int) < 768 ∧
      (OnResize gpuEnv 1024 768 readySketch).2.constantBufferData_.aspect =
        .div (.ofInt 1024) (.ofInt 768) ∧
      (OnResize gpuEnv 1024 768 readySketch).2.constantBufferData_.aspect.eval =
        Binary32.div (Binary32.ofInt 1024) (Binary32.ofInt 768) ∧
      ((1024 : Int).natAbs < 2 ^ 24 → (768 : Int) < 2 ^ 24 →
        (OnResize gpuEnv 1024 768 readySketch).2.constantBufferData_.aspect.eval.isNearest
          1024 768) ∧
      (OnResize gpuEnv 1024 768 readySketch).2.constantBufferData_.center =
        readySketch.constantBufferData_.center ∧
      (OnResize gpuEnv 1024 768 readySketch).2.cbvData =
        some (OnResize gpuEnv 1024 768 readySketch).2.constantBufferData_ ∧
      (emitted (OnResize gpuEnv 1024 768) readySketch).getLast? =
        some (.memcpyConstants (OnResize gpuEnv 1024 768 readySketch).2.constantBufferData_
          sizeofSceneConstantBuffer) ∧
      sizeofSceneConstantBuffer = 256 :=
  ⟨OnResize_ok noFailure_gpuEnv _ _ _, by decide,
    C14_resize_stores_rounded_aspect gpuEnv readySketch 1024 768
      (OnResize_ok noFailure_gpuEnv _ _ _) (by decide)⟩

/-- C15: for a viewport of positive width and height, `OnMouseDrag(x, y, button)` returns and
leaves as center the pair of single-precision quotients
`static_cast<float>(x) / static_cast<float>(ViewportWidth)` and
`static_cast<float>(y) / static_cast<float>(ViewportHeight)`, each a value of binary32
nearest to the ratio when the integers are below `2^24`. The aspect is unchanged, the copy
behind `cbvDataBegin_` equals `constantBufferData_`, and the only call made is the `memcpy` of
the block of 256 bytes: there is no `Signal`, no submission, no `Present` and no call of the
flush, and the fence counter is unchanged. -/
theorem C15_mouse_drag_writes_center (x y : Int) (buttonType : Nat) (s : DemoBlob)
    (hwidth : 0 < s.state_.ViewportWidth) (hheight : 0 < s.state_.ViewportHeight) :
    (OnMouseDrag x y buttonType s).1 = .ok () ∧
      (OnMouseDrag x y buttonType s).2.constantBufferData_.center =
        (.div (.ofInt x) (.ofInt s.state_.ViewportWidth),
          .div (.ofInt y) (.ofInt s.state_.ViewportHeight)) ∧
      (x.natAbs < 2 ^ 24 → s.state_.ViewportWidth < 2 ^ 24 →
        (OnMouseDrag x y buttonType s).2.constantBufferData_.center.1.eval.isNearest
          x s.state_.ViewportWidth) ∧
      (y.natAbs < 2 ^ 24 → s.state_.ViewportHeight < 2 ^ 24 →
        (OnMouseDrag x y buttonType s).2.constantBufferData_.center.2.eval.isNearest
          y s.state_.ViewportHeight) ∧
      (OnMouseDrag x y buttonType s).2.constantBufferData_.aspect =
        s.constantBufferData_.aspect ∧
      (OnMouseDrag x y buttonType s).2.cbvData =
        some (OnMouseDrag x y buttonType s).2.constantBufferData_ ∧
      emitted (OnMouseDrag x y buttonType) s =
        [.memcpyConstants (OnMouseDrag x y buttonType s).2.constantBufferData_
          sizeofSceneConstantBuffer] ∧
      sizeofSceneConstantBuffer = 256 ∧
      signalled (emitted (OnMouseDrag x y buttonType) s) = [] ∧
      (emitted (OnMouseDrag x y buttonType) s).filter Call.isFrameStep = [] ∧
      (OnMouseDrag x y buttonType s).2.fenceValue_ = s.fenceValue_ := by
  have he : emitted (OnMouseDrag x y buttonType) s =
      [.memcpyConstants (OnMouseDrag x y buttonType s).2.constantBufferData_
        sizeofSceneConstantBuffer] := by
    apply emitted_of_trace
    rw [OnMouseDrag_run x y buttonType s _ rfl]
  rw [he]
  rw [OnMouseDrag_run x y buttonType s _ rfl]
  refine ⟨rfl, rfl, ?_, ?_, rfl, rfl, rfl, rfl, rfl, rfl, rfl⟩
  · intro hx hw
    exact div_ofInt_isNearest x _ hx hwidth.ne' (by omega)
  · intro hy hh
    exact div_ofInt_isNearest y _ hy hheight.ne' (by omega)

/-- C15 at a concrete input: a drag at the pixel (200, 300) of a viewport of 800 x 400
pixels, the normalized position (0.25, 0.75). The center stored is exactly (1/4, 3/4). -/
theorem C15_witness :
    (0 : Int) < (sketchWithViewport 800 400).state_.ViewportWidth ∧
      (0 : Int) < (sketchWithViewport 800 400).state_.ViewportHeight ∧
      (OnMouseDrag 200 300 0 (sketchWithViewport 800 400)).2.constantBufferData_.center.1.eval.isQuotient
        1 4 ∧
      (OnMouseDrag 200 300 0 (sketchWithViewport 800 400)).2.constantBufferData_.center.2.eval.isQuotient
        3 4 ∧
      (OnMouseDrag 200 300 0 (sketchWithViewport 800 400)).2.constantBufferData_.aspect =
        (sketchWithViewport 800 400).constantBufferData_.aspect ∧
      emitted (OnMouseDrag 200 300 0) (sketchWithViewport 800 400) =
        [.memcpyConstants
          (OnMouseDrag 200 300 0 (sketchWithViewport 800 400)).2.constantBufferData_
          sizeofSceneConstantBuffer] ∧
      (OnMouseDrag 200 300 0 (sketchWithViewport 800 400)).2.fenceValue_ =
        (sketchWithViewport 800 400).fenceValue_ := by
  have h := C15_mouse_drag_writes_center 200 300 0 (sketchWithViewport 800 400)
    (by decide) (by decide)
  rw [h.2.1]
  exact ⟨by decide, by decide, by decide, by decide, h.2.2.2.2.1, h.2.2.2.2.2.2.1,
    h.2.2.2.2.2.2.2.2.2.2⟩

/-! ## The descriptor heaps -/

/-- C17: let no call fail and write `start`, `size` for the start and the descriptor size of
the RTV heap of the state `s`, and `cstart`, `csize` for those of the CBV/SRV heap; slot `k`
is the handle `start.at k size`. The RTV heap is created with `kNumSwapChainBuffers + 2` = 4
descriptors and the CBV/SRV heap with 3. `CreateSwapChainRTV` writes the view of surface `i`
into slot `i` for `i` = 0, 1 and holds surface `i` in `swapChainBuffers_[i]`;
`CreateVectorFieldBuffers` writes the view of vector-field buffer `j` into slot
`kNumSwapChainBuffers + j` and its SRV into slot `1 + j` of the CBV/SRV heap, whose slot 0
`CreateConstantBuffer` gives to the constant-buffer view. Together the RTV slots written are
the slots 0, 1, 2, 3, each once, and the CBV/SRV slots written the slots 0, 1, 2, so every
index is within the heap; for descriptors of positive size the slots of a heap have pairwise
different addresses. `RenderToBackBuffer` binds and clears slot `i` for the back-buffer index
`i` it reads, and transitions `swapChainBuffers_[i]`: for `i < 2` this is the slot into which
`CreateSwapChainRTV` has written the view of surface `i`. None of the three functions changes
the heap or the descriptor size. -/
theorem C17_descriptor_slots (env : Env) (hf : NoFailure env) (s : DemoBlob)
    (start cstart : CpuHandle) (size csize : Nat)
    (hstart : start = heapStart env s.rtvHeap_) (hsize : size = s.rtvDescriptorSize_)
    (hcstart : cstart = heapStart env s.cbvSrvHeap_)
    (hcsize : csize = s.cbvSrvDescriptorSize_) :
    kNumSwapChainBuffers = 2 ∧
      heapsCreated (emitted (CreateRenderTargetDescriptorHeap env) s) =
        [(.RTV, kNumSwapChainBuffers + 2)] ∧
      heapsCreated (emitted (CreateConstantBufferDescriptorHeap env) s) =
        [(.CBV_SRV_UAV, 3)] ∧
      rtvWrites (emitted (CreateSwapChainRTV env) s) =
        [(some (.backBuffer 0), start.at 0 size), (some (.backBuffer 1), start.at 1 size)] ∧
      (∀ i < kNumSwapChainBuffers,
        (CreateSwapChainRTV env s).2.swapChainBuffers_ i = some (.backBuffer i)) ∧
      rtvWrites (emitted (CreateVectorFieldBuffers env) s) =
        [((CreateVectorFieldBuffers env s).2.vectorFieldBuffers 0,
            start.at (kNumSwapChainBuffers + 0) size),
          ((CreateVectorFieldBuffers env s).2.vectorFieldBuffers 1,
            start.at (kNumSwapChainBuffers + 1) size)] ∧
      srvWrites (emitted (CreateVectorFieldBuffers env) s) =
        [((CreateVectorFieldBuffers env s).2.vectorFieldBuffers 0, cstart.at (1 + 0) csize),
          ((CreateVectorFieldBuffers env s).2.vectorFieldBuffers 1, cstart.at (1 + 1) csize)] ∧
      (CreateVectorFieldBuffers env s).2.vectorFieldBuffers 0 = some (.committed s.now) ∧
      (CreateVectorFieldBuffers env s).2.vectorFieldBuffers 1 = some (.committed (s.now + 3)) ∧
      cbvWrites (emitted (CreateConstantBuffer env) s) =
        [((CreateConstantBuffer env s).2.constantBuffer_, cstart.at 0 csize)] ∧
      (rtvWrites (emitted (CreateSwapChainRTV env) s) ++
          rtvWrites (emitted (CreateVectorFieldBuffers env) s)).map Prod.snd =
        (List.range (kNumSwapChainBuffers + 2)).map (fun k => start.at k size) ∧
      (cbvWrites (emitted (CreateConstantBuffer env) s) ++
          srvWrites (emitted (CreateVectorFieldBuffers env) s)).map Prod.snd =
        (List.range 3).map (fun k => cstart.at k csize) ∧
      (0 < size →
        ((List.range (kNumSwapChainBuffers + 2)).map (fun k => start.at k size)).Nodup) ∧
      (0 < csize → ((List.range 3).map (fun k => cstart.at k csize)).Nodup) ∧
      (RenderToBackBuffer env s).2.commandListCmds.filterMap Cmd.renderTarget =
        [start.at (env.backBufferIndex (s.now + 2)) size,
          start.at (env.backBufferIndex (s.now + 2)) size] ∧
      (RenderToBackBuffer env s).2.commandListCmds.head? =
        some (.Transition (s.swapChainBuffers_ (env.backBufferIndex (s.now + 2)))
          .PRESENT .RENDER_TARGET) ∧
      (∀ i < kNumSwapChainBuffers,
        (some (.backBuffer i), start.at i size) ∈
          rtvWrites (emitted (CreateSwapChainRTV env) s)) ∧
      ((CreateSwapChainRTV env s).2.rtvHeap_ = s.rtvHeap_ ∧
        (CreateSwapChainRTV env s).2.rtvDescriptorSize_ = s.rtvDescriptorSize_) ∧
      ((CreateVectorFieldBuffers env s).2.rtvHeap_ = s.rtvHeap_ ∧
        (CreateVectorFieldBuffers env s).2.rtvDescriptorSize_ = s.rtvDescriptorSize_) ∧
      ((RenderToBackBuffer env s).2.rtvHeap_ = s.rtvHeap_ ∧
        (RenderToBackBuffer env s).2.rtvDescriptorSize_ = s.rtvDescriptorSize_) := by
  subst hstart hsize hcstart hcsize
  have e1 : emitted (CreateRenderTargetDescriptorHeap env) s = _ :=
    emitted_of_trace _ s _ (by rw [CreateRenderTargetDescriptorHeap_run hf])
  have e2 : emitted (CreateConstantBufferDescriptorHeap env) s = _ :=
    emitted_of_trace _ s _ (by rw [CreateConstantBufferDescriptorHeap_run hf])
  have e3 : emitted (CreateSwapChainRTV env) s = _ :=
    emitted_of_trace _ s _ (by rw [CreateSwapChainRTV_run_ok hf])
  have e4 : emitted (CreateVectorFieldBuffers env) s = _ :=
    emitted_of_trace _ s _ (by rw [CreateVectorFieldBuffers_run hf])
  have e5 : emitted (CreateConstantBuffer env) s = _ :=
    emitted_of_trace _ s _ (by rw [CreateConstantBuffer_run hf])
  rw [e1, e2, e3, e4, e5, CreateSwapChainRTV_run_ok hf, CreateVectorFieldBuffers_run hf,
    CreateConstantBuffer_run hf, RenderToBackBuffer_run hf s _ rfl]
  have hat : ∀ (h : CpuHandle) (n : Nat), h.Offset 1 n = h.at 1 n := fun _ _ => rfl
  refine ⟨rfl, rfl, rfl, ?_, ?_, ?_, ?_, ?_, ?_, ?_, ?_, ?_, ?_, ?_, ?_, rfl, ?_, ⟨rfl, rfl⟩,
    ⟨rfl, rfl⟩, ⟨rfl, rfl⟩⟩
  · simp [rtvWrites, CpuHandle.at_zero, hat]
  · intro i hi
    have : i = 0 ∨ i = 1 := by unfold kNumSwapChainBuffers at hi; omega
    rcases this with rfl | rfl <;> simp
  · simp [rtvWrites, kNumSwapChainBuffers, CpuHandle.at_Offset_one]
  · simp [srvWrites, CpuHandle.at_Offset_one]
  · simp
  · simp
  · simp [cbvWrites, CpuHandle.at_zero]
  · simp [rtvWrites, kNumSwapChainBuffers, List.range_succ, CpuHandle.at_zero,
      CpuHandle.at_Offset_one, CpuHandle.at_at_one, hat]
  · simp [cbvWrites, srvWrites, List.range_succ, CpuHandle.at_zero, CpuHandle.at_Offset_one]
  · intro hsize
    exact (List.nodup_range _).map_on fun a _ b _ h => CpuHandle.at_injective _ _ hsize a b h
  · intro hsize
    exact (List.nodup_range 3).map_on fun a _ b _ h => CpuHandle.at_injective _ _ hsize a b h
  · simp [Cmd.renderTarget]
  · intro i hi
    have : i = 0 ∨ i = 1 := by unfold kNumSwapChainBuffers at hi; omega
    rcases this with rfl | rfl <;> simp [rtvWrites, CpuHandle.at_zero, hat]

/-- C17 at a concrete input: the ready sketch, whose RTV heap starts at the address 61440 and
whose CBV/SRV heap starts at 69632, both with descriptors of 32 bytes. -/
theorem C17_witness :
    NoFailure gpuEnv ∧ CpuHandle.mk 61440 = heapStart gpuEnv readySketch.rtvHeap_ ∧
      32 = readySketch.rtvDescriptorSize_ ∧
      CpuHandle.mk 69632 = heapStart gpuEnv readySketch.cbvSrvHeap_ ∧
      32 = readySketch.cbvSrvDescriptorSize_ ∧
      kNumSwapChainBuffers = 2 ∧
        heapsCreated (emitted (CreateRenderTargetDescriptorHeap gpuEnv) readySketch) =
          [(.RTV, kNumSwapChainBuffers + 2)] ∧
        heapsCreated (emitted (CreateConstantBufferDescriptorHeap gpuEnv) readySketch) =
          [(.CBV_SRV_UAV, 3)] ∧
        rtvWrites (emitted (CreateSwapChainRTV gpuEnv) readySketch) =
          [(some (.backBuffer 0), (CpuHandle.mk 61440).at 0 32),
            (some (.backBuffer 1), (CpuHandle.mk 61440).at 1 32)] ∧
        (∀ i < kNumSwapChainBuffers,
          (CreateSwapChainRTV gpuEnv readySketch).2.swapChainBuffers_ i = some (.backBuffer i)) ∧
        rtvWrites (emitted (CreateVectorFieldBuffers gpuEnv) readySketch) =
          [((CreateVectorFieldBuffers gpuEnv readySketch).2.vectorFieldBuffers 0,
              (CpuHandle.mk 61440).at (kNumSwapChainBuffers + 0) 32),
            ((CreateVectorFieldBuffers gpuEnv readySketch).2.vectorFieldBuffers 1,
              (CpuHandle.mk 61440).at (kNumSwapChainBuffers + 1) 32)] ∧
        srvWrites (emitted (CreateVectorFieldBuffers gpuEnv) readySketch) =
          [((CreateVectorFieldBuffers gpuEnv readySketch).2.vectorFieldBuffers 0, (CpuHandle.mk 69632).at (1 + 0) 32),
            ((CreateVectorFieldBuffers gpuEnv readySketch).2.vectorFieldBuffers 1, (CpuHandle.mk 69632).at (1 + 1) 32)] ∧
        (CreateVectorFieldBuffers gpuEnv readySketch).2.vectorFieldBuffers 0 = some (.committed readySketch.now) ∧
        (CreateVectorFieldBuffers gpuEnv readySketch).2.vectorFieldBuffers 1 = some (.committed (readySketch.now + 3)) ∧
        cbvWrites (emitted (CreateConstantBuffer gpuEnv) readySketch) =
          [((CreateConstantBuffer gpuEnv readySketch).2.constantBuffer_, (CpuHandle.mk 69632).at 0 32)] ∧
        (rtvWrites (emitted (CreateSwapChainRTV gpuEnv) readySketch) ++
            rtvWrites (emitted (CreateVectorFieldBuffers gpuEnv) readySketch)).map Prod.snd =
          (List.range (kNumSwapChainBuffers + 2)).map (fun k => (CpuHandle.mk 61440).at k 32) ∧
        (cbvWrites (emitted (CreateConstantBuffer gpuEnv) readySketch) ++
            srvWrites (emitted (CreateVectorFieldBuffers gpuEnv) readySketch)).map Prod.snd =
          (List.range 3).map (fun k => (CpuHandle.mk 69632).at k 32) ∧
        (0 < 32 →
          ((List.range (kNumSwapChainBuffers + 2)).map (fun k => (CpuHandle.mk 61440).at k 32)).Nodup) ∧
        (0 < 32 → ((List.range 3).map (fun k => (CpuHandle.mk 69632).at k 32)).Nodup) ∧
        (RenderToBackBuffer gpuEnv readySketch).2.commandListCmds.filterMap Cmd.renderTarget =
          [(CpuHandle.mk 61440).at (gpuEnv.backBufferIndex (readySketch.now + 2)) 32,
            (CpuHandle.mk 61440).at (gpuEnv.backBufferIndex (readySketch.now + 2)) 32] ∧
        (RenderToBackBuffer gpuEnv readySketch).2.commandListCmds.head? =
          some (.Transition (readySketch.swapChainBuffers_ (gpuEnv.backBufferIndex (readySketch.now + 2)))
            .PRESENT .RENDER_TARGET) ∧
        (∀ i < kNumSwapChainBuffers,
          (some (.backBuffer i), (CpuHandle.mk 61440).at i 32) ∈
            rtvWrites (emitted (CreateSwapChainRTV gpuEnv) readySketch)) ∧
        ((CreateSwapChainRTV gpuEnv readySketch).2.rtvHeap_ = readySketch.rtvHeap_ ∧
          (CreateSwapChainRTV gpuEnv readySketch).2.rtvDescriptorSize_ = readySketch.rtvDescriptorSize_) ∧
        ((CreateVectorFieldBuffers gpuEnv readySketch).2.rtvHeap_ = readySketch.rtvHeap_ ∧
          (CreateVectorFieldBuffers gpuEnv readySketch).2.rtvDescriptorSize_ = readySketch.rtvDescriptorSize_) ∧
        ((RenderToBackBuffer gpuEnv readySketch).2.rtvHeap_ = readySketch.rtvHeap_ ∧
          (RenderToBackBuffer gpuEnv readySketch).2.rtvDescriptorSize_ = readySketch.rtvDescriptorSize_) :=
  ⟨noFailure_gpuEnv, rfl, rfl, rfl, rfl,
    C17_descriptor_slots gpuEnv noFailure_gpuEnv readySketch ⟨61440⟩ ⟨69632⟩ 32 32 rfl rfl rfl
      rfl⟩

/-! ## Errors -/

/-- C12 fails on the code. When the creation of the CBV/SRV descriptor heap (tick 16 of
`OnInit` from the fresh sketch) is refused with `E_OUTOFMEMORY`, `OnInit` raises an exception
whose message is `HRESULT of 0x8007000E` and nothing more: `ThrowIfFailed` is called without a
context there. When the same call `CreateDescriptorHeap` is refused for the RTV heap (tick 14)
the message ends in the name of the operation. The message also carries no name when the
call refused is `MakeWindowAssociation` (tick 8), the `CreateCommittedResource` of the
constant buffer (tick 22) or the `Map` of the constant buffer (tick 24), whereas the
`CreateCommittedResource` and the `Map` of `CreateVertexBuffer` (ticks 26 and 28) are named. -/
theorem C12_failure_without_operation_name :
    FAILED E_OUTOFMEMORY = true ∧
      (OnInit (failingEnv 16 E_OUTOFMEMORY) fresh).2.trace.getLast? =
        some (.CreateDescriptorHeap .CBV_SRV_UAV 3) ∧
      (OnInit (failingEnv 16 E_OUTOFMEMORY) fresh).1 =
        .error ⟨E_OUTOFMEMORY, "HRESULT of 0x8007000E"⟩ ∧
      (OnInit (failingEnv 14 E_OUTOFMEMORY) fresh).2.trace.getLast? =
        some (.CreateDescriptorHeap .RTV 4) ∧
      (OnInit (failingEnv 14 E_OUTOFMEMORY) fresh).1 =
        .error ⟨E_OUTOFMEMORY, "HRESULT of 0x8007000E: CreateDescriptorHeap"⟩ ∧
      (OnInit (failingEnv 8 E_OUTOFMEMORY) fresh).2.trace.getLast? =
        some .MakeWindowAssociation ∧
      (OnInit (failingEnv 8 E_OUTOFMEMORY) fresh).1 =
        .error ⟨E_OUTOFMEMORY, "HRESULT of 0x8007000E"⟩ ∧
      (OnInit (failingEnv 22 E_OUTOFMEMORY) fresh).2.trace.getLast? =
        some (.CreateCommittedResource .UPLOAD 256 .GENERIC_READ) ∧
      (OnInit (failingEnv 22 E_OUTOFMEMORY) fresh).1 =
        .error ⟨E_OUTOFMEMORY, "HRESULT of 0x8007000E"⟩ ∧
      (OnInit (failingEnv 24 E_OUTOFMEMORY) fresh).2.trace.getLast? =
        some (.Map (some (.committed 22))) ∧
      (OnInit (failingEnv 24 E_OUTOFMEMORY) fresh).1 =
        .error ⟨E_OUTOFMEMORY, "HRESULT of 0x8007000E"⟩ ∧
      (OnInit (failingEnv 26 E_OUTOFMEMORY) fresh).1 =
        .error ⟨E_OUTOFMEMORY, "HRESULT of 0x8007000E: CreateCommittedResource"⟩ ∧
      (OnInit (failingEnv 28 E_OUTOFMEMORY) fresh).1 =
        .error ⟨E_OUTOFMEMORY, "HRESULT of 0x8007000E: Map"⟩ :=
  ⟨rfl, rfl, rfl, rfl, rfl, rfl, rfl, rfl, rfl, rfl, rfl, rfl, rfl⟩

/-- C13: for a 32-bit status code `hr`, with `u` its unsigned value, and a context `c`:
`ThrowIfFailed(hr, c)` raises exactly when `hr < 0`, which is when the top bit of `u` is set,
and otherwise returns with the state unchanged. When it raises, the state is unchanged too,
`Error()` of the exception is `hr`, and its message is `HRESULT of 0x` followed by
`hex08X u`, followed by `: ` and `c` when `c` is not empty and by nothing when it is. The
string `hex08X u` has 8 characters, each a decimal digit or a letter from `A` to `F`, and
read as a hexadecimal number it is `u`. -/
theorem C13_throw_if_failed (hr : HRESULT) (c : String) (s : DemoBlob)
    (hlo : -2 ^ 31 ≤ hr) (hhi : hr < 2 ^ 31) :
    ((ThrowIfFailed hr c s).1 ≠ .ok () ↔ hr < 0) ∧
      (hr < 0 ↔ 2 ^ 31 ≤ (hr % 2 ^ 32).toNat) ∧
      (0 ≤ hr → ThrowIfFailed hr c s = (.ok (), s)) ∧
      (hr < 0 → ∃ e : HrException, ThrowIfFailed hr c s = (.error e, s) ∧ e.Error = hr ∧
        e.what =
          if c.length = 0 then "HRESULT of 0x" ++ hex08X (hr % 2 ^ 32).toNat
          else "HRESULT of 0x" ++ hex08X (hr % 2 ^ 32).toNat ++ ": " ++ c) ∧
      (hex08X (hr % 2 ^ 32).toNat).length = 8 ∧
      (∀ ch ∈ (hex08X (hr % 2 ^ 32).toNat).data, isUpperHexDigit ch = true) ∧
      hexValue (hex08X (hr % 2 ^ 32).toNat) = (hr % 2 ^ 32).toNat := by
  have hu : (hr % 2 ^ 32).toNat < 2 ^ 32 := by omega
  obtain ⟨h1, h2, h3⟩ := hex08X_spec _ hu
  refine ⟨?_, negative_iff_top_bit hr hlo hhi, ?_, ?_, h1, h2, h3⟩
  · rw [ThrowIfFailed_run]
    by_cases h : hr < 0
    · simp [h]
    · simp [h]
  · intro h
    rw [ThrowIfFailed_run, if_neg (not_lt.mpr h)]
  · intro h
    refine ⟨HrException.new hr c, ?_, rfl, ?_⟩
    · rw [ThrowIfFailed_run, if_pos h]
    · unfold HrException.new HrToString
      by_cases hc : c.length = 0
      · simp [hc]
      · have : c.length > 0 := Nat.pos_of_ne_zero hc
        simp [hc, this]

/-- C13 at a concrete input: `DXGI_ERROR_DEVICE_REMOVED` with the context `Signal` raises the
message `HRESULT of 0x887A0005: Signal`, and with no context `HRESULT of 0x887A0005`; `S_OK`
returns. -/
theorem C13_witness :
    -2 ^ 31 ≤ DXGI_ERROR_DEVICE_REMOVED ∧ DXGI_ERROR_DEVICE_REMOVED < 2 ^ 31 ∧
      (DXGI_ERROR_DEVICE_REMOVED % 2 ^ 32).toNat = 0x887A0005 ∧
      hex08X 0x887A0005 = "887A0005" ∧
      ThrowIfFailed DXGI_ERROR_DEVICE_REMOVED "Signal" fresh =
        (.error ⟨DXGI_ERROR_DEVICE_REMOVED, "HRESULT of 0x887A0005: Signal"⟩, fresh) ∧
      ThrowIfFailed DXGI_ERROR_DEVICE_REMOVED "" fresh =
        (.error ⟨DXGI_ERROR_DEVICE_REMOVED, "HRESULT of 0x887A0005"⟩, fresh) ∧
      ThrowIfFailed S_OK "Signal" fresh = (.ok (), fresh) ∧
      hexValue (hex08X (DXGI_ERROR_DEVICE_REMOVED % 2 ^ 32).toNat) =
        (DXGI_ERROR_DEVICE_REMOVED % 2 ^ 32).toNat :=
  ⟨by decide, by decide, by decide, by decide, rfl, rfl, rfl,
    (C13_throw_if_failed DXGI_ERROR_DEVICE_REMOVED "Signal" fresh (by decide)
      (by decide)).2.2.2.2.2.2⟩

end DemoBlob
